import Mathlib

/-!
Verification development for `atmo_renderer.c`.

Shallow embedding of the renderer life cycle (`atmo_renderer_new`,
`atmo_renderer_delete`), the table loader (`atmo_renderer_loadDat`), the input state
machine (`atmo_renderer_touch`, `atmo_renderer_keyPress`), the content rectangle
(`atmo_renderer_contentRect`) and the frame (`atmo_renderer_draw`) of
`demovk/app/src/main/cpp/atmo_renderer.c`.

Conventions of the embedding

* C `float`/`double` values are elements of a linear ordered field `α` (exact
  arithmetic; `α := ℝ` is the reading "over the reals", `α := ℚ` evaluates).
* `M_PI` comes from `<math.h>` and `VKK_KEYCODE_ESCAPE` from `libvkk`; neither is
  part of the repository sources, so both are parameters of the functions using them.
  The same holds for `tan`, `tanf`, `cosf`, `sinf` and `cc_mat4f_orthoVK` in
  `atmo_renderer_draw`, which are fields of its environment.
* Calls into the external allocator, device and archive libraries are answered by an
  explicit environment; the life-cycle calls a function issues are returned as a trace.
* `while` loops take a fuel argument bounding the number of executions of the body.
-/

namespace Atmo

/-! ## Constants of `atmo_renderer.c` and `atmo_renderer.h` -/

def TRANSMITTANCE_TEXTURE_WIDTH : Int := 256
def TRANSMITTANCE_TEXTURE_HEIGHT : Int := 64
def SCATTERING_TEXTURE_WIDTH : Int := 256
def SCATTERING_TEXTURE_HEIGHT : Int := 128
def SCATTERING_TEXTURE_DEPTH : Int := 32
def IRRADIANCE_TEXTURE_WIDTH : Int := 64
def IRRADIANCE_TEXTURE_HEIGHT : Int := 16
def TEXTURE_COMPONENTS : Int := 4

/-- Value of `sizeof(float)`. -/
def sizeof_float : Int := 4

def ATMO_TOUCH_MODE_VIEW : Int := 0
def ATMO_TOUCH_MODE_SUN : Int := 1

def ATMO_TOUCH_EVENT_UP : Int := 0
def ATMO_TOUCH_EVENT_DOWN : Int := 1
def ATMO_TOUCH_EVENT_MOVE : Int := 2

/-! ## Owned objects and life-cycle traces -/

/-- Objects owned during `atmo_renderer_new`: the renderer struct, the three raw table
buffers (local variables) and the twenty device objects, named after the variable or
struct field that holds them, in order of creation. -/
inductive Res
  | self
  | dat_transmittance
  | dat_scattering
  | dat_irradiance
  | usf0_state
  | usf1_tex
  | pl
  | gp_default
  | gp_simple
  | vb0_vertex
  | ub00_mvp
  | ub01_model_from_view
  | ub02_view_from_clip
  | ub03_camera
  | ub04_exposure
  | ub05_white_point
  | ub06_earth_center
  | ub07_sun_direction
  | ub08_sun_size
  | img10_transmittance
  | img112_scattering
  | img13_irradiance
  | us0_state
  | us1_tex
  deriving DecidableEq, Repr

/-- Life-cycle call: `acquire r` is a creation call (`CALLOC`, `MALLOC`, `vkk_*_new`)
that returned a non-NULL object stored in `r`; `release r` is the matching `FREE` or
`vkk_*_delete` call on `r`. -/
inductive Call
  | acquire (r : Res)
  | release (r : Res)
  deriving DecidableEq, Repr

/-- Objects acquired in a trace, in order. -/
def acquired : List Call → List Res
  | [] => []
  | Call.acquire r :: t => r :: acquired t
  | Call.release _ :: t => acquired t

/-- Objects released in a trace, in order. -/
def released : List Call → List Res
  | [] => []
  | Call.acquire _ :: t => released t
  | Call.release r :: t => r :: released t

/-- Device objects are all owned objects except the struct and the raw buffers. -/
def Res.isGpu : Res → Bool
  | Res.self => false
  | Res.dat_transmittance => false
  | Res.dat_scattering => false
  | Res.dat_irradiance => false
  | _ => true

/-! ## Archive interface and `atmo_renderer_loadDat` -/

/-- An opened archive as seen through `pak_file_seek` and `pak_file_read`:
`seek name` is the size reported for entry `name` (0 when it is absent) and
`read name size` is the item count returned by `pak_file_read(pak, buf, size, 1)`
issued after seeking `name`. -/
structure pak_file where
  seek : String → Int
  read : String → Int → Int

/-- Embedding of `atmo_renderer_loadDat`; the argument is the result of
`pak_file_open` (`none` for NULL). Returns the C result, 1 on success and 0 on failure. -/
def atmo_renderer_loadDat (pak_file_open : Option pak_file) : Int :=
  match pak_file_open with
  | none => 0
  | some pak =>
    let size := pak.seek "dat/transmittance.dat"
    let bytes := 4 * sizeof_float * TRANSMITTANCE_TEXTURE_WIDTH * TRANSMITTANCE_TEXTURE_HEIGHT
    if size = 0 ∨ size ≠ bytes then 0
    else if pak.read "dat/transmittance.dat" size ≠ 1 then 0
    else
      let size := pak.seek "dat/scattering.dat"
      let bytes := 4 * sizeof_float * SCATTERING_TEXTURE_WIDTH * SCATTERING_TEXTURE_HEIGHT *
        SCATTERING_TEXTURE_DEPTH
      if size = 0 ∨ size ≠ bytes then 0
      else if pak.read "dat/scattering.dat" size ≠ 1 then 0
      else
        let size := pak.seek "dat/irradiance.dat"
        let bytes := 4 * sizeof_float * IRRADIANCE_TEXTURE_WIDTH * IRRADIANCE_TEXTURE_HEIGHT
        if size = 0 ∨ size ≠ bytes then 0
        else if pak.read "dat/irradiance.dat" size ≠ 1 then 0
        else 1

/-! ## The renderer struct -/

/-- Embedding of `atmo_renderer_t`. Object handles are `none` for NULL. -/
structure atmo_renderer (α : Type) where
  engine : Nat
  screen_w : Nat
  screen_h : Nat
  density : α
  content_rect_top : Nat
  content_rect_left : Nat
  content_rect_width : Nat
  content_rect_height : Nat
  escape_t0 : α
  touch_mode : Int
  touch_event : Int
  touch_x : α
  touch_y : α
  view_distance : α
  view_zenith : α
  view_azimuth : α
  sun_zenith : α
  sun_azimuth : α
  exposure : α
  simple : Int
  usf0_state : Option Res
  usf1_tex : Option Res
  pl : Option Res
  gp_default : Option Res
  gp_simple : Option Res
  vb0_vertex : Option Res
  ub00_mvp : Option Res
  ub01_model_from_view : Option Res
  ub02_view_from_clip : Option Res
  ub03_camera : Option Res
  ub04_exposure : Option Res
  ub05_white_point : Option Res
  ub06_earth_center : Option Res
  ub07_sun_direction : Option Res
  ub08_sun_size : Option Res
  img10_transmittance : Option Res
  img112_scattering : Option Res
  img13_irradiance : Option Res
  us0_state : Option Res
  us1_tex : Option Res
  deriving DecidableEq

/-- Result of `vkk_engine_imageCaps`, restricted to the fields the renderer reads. -/
structure vkk_imageCaps_t where
  texture : Int
  filter_linear : Int

/-- Answers of the external collaborators during `atmo_renderer_new`:
`alloc r` tells whether the creation call for `r` returns non-NULL, `pak` is the result
of `pak_file_open`, `caps` the image capabilities of `VKK_IMAGE_FORMAT_RGBAF32`. -/
structure Env where
  alloc : Res → Bool
  pak : Option pak_file
  caps : vkk_imageCaps_t

/-! ## `atmo_renderer_new` and `atmo_renderer_delete` -/
/-! The failure labels at the end of `atmo_renderer_new`. Each label runs its own
statement and falls through to the label below it; `fail_img10`, `fail_format` and
`fail_dat` mark the same statement. -/
def fail_dat_transmittance : List Call := [Call.release Res.self]
def fail_dat_scattering : List Call := Call.release Res.dat_transmittance :: fail_dat_transmittance
def fail_dat_irradiance : List Call := Call.release Res.dat_scattering :: fail_dat_scattering
def fail_usf0 : List Call := Call.release Res.dat_irradiance :: fail_dat_irradiance
def fail_usf1 : List Call := Call.release Res.usf0_state :: fail_usf0
def fail_pl : List Call := Call.release Res.usf1_tex :: fail_usf1
def fail_gp_default : List Call := Call.release Res.pl :: fail_pl
def fail_gp_simple : List Call := Call.release Res.gp_default :: fail_gp_default
def fail_vb0_vertex : List Call := Call.release Res.gp_simple :: fail_gp_simple
def fail_ub00 : List Call := Call.release Res.vb0_vertex :: fail_vb0_vertex
def fail_ub01 : List Call := Call.release Res.ub00_mvp :: fail_ub00
def fail_ub02 : List Call := Call.release Res.ub01_model_from_view :: fail_ub01
def fail_ub03 : List Call := Call.release Res.ub02_view_from_clip :: fail_ub02
def fail_ub04 : List Call := Call.release Res.ub03_camera :: fail_ub03
def fail_ub05 : List Call := Call.release Res.ub04_exposure :: fail_ub04
def fail_ub06 : List Call := Call.release Res.ub05_white_point :: fail_ub05
def fail_ub07 : List Call := Call.release Res.ub06_earth_center :: fail_ub06
def fail_ub08 : List Call := Call.release Res.ub07_sun_direction :: fail_ub07
def fail_dat : List Call := Call.release Res.ub08_sun_size :: fail_ub08
def fail_format : List Call := fail_dat
def fail_img10 : List Call := fail_format
def fail_img112 : List Call := Call.release Res.img10_transmittance :: fail_img10
def fail_img13 : List Call := Call.release Res.img112_scattering :: fail_img112
def fail_us0 : List Call := Call.release Res.img13_irradiance :: fail_img13
def fail_us1 : List Call := Call.release Res.us0_state :: fail_us0

/-- The struct `self` as it stands at `return self` in `atmo_renderer_new`: zero-filled
by `CALLOC`, then the scene fields assigned at the top of the function and the twenty
handles assigned by the creation calls. -/
def new_self {α : Type} [LinearOrderedField α] (engine : Nat) (cc_timestamp : α) :
    atmo_renderer α :=
  { engine := engine
    screen_w := 0
    screen_h := 0
    density := 1.0
    content_rect_top := 0
    content_rect_left := 0
    content_rect_width := 0
    content_rect_height := 0
    escape_t0 := cc_timestamp
    touch_mode := 0
    touch_event := 0
    touch_x := 0
    touch_y := 0
    view_distance := 9000.0
    view_zenith := 1.47
    view_azimuth := -0.1
    sun_zenith := 1.3
    sun_azimuth := 2.9
    exposure := 10.0
    simple := 0
    usf0_state := some Res.usf0_state
    usf1_tex := some Res.usf1_tex
    pl := some Res.pl
    gp_default := some Res.gp_default
    gp_simple := some Res.gp_simple
    vb0_vertex := some Res.vb0_vertex
    ub00_mvp := some Res.ub00_mvp
    ub01_model_from_view := some Res.ub01_model_from_view
    ub02_view_from_clip := some Res.ub02_view_from_clip
    ub03_camera := some Res.ub03_camera
    ub04_exposure := some Res.ub04_exposure
    ub05_white_point := some Res.ub05_white_point
    ub06_earth_center := some Res.ub06_earth_center
    ub07_sun_direction := some Res.ub07_sun_direction
    ub08_sun_size := some Res.ub08_sun_size
    img10_transmittance := some Res.img10_transmittance
    img112_scattering := some Res.img112_scattering
    img13_irradiance := some Res.img13_irradiance
    us0_state := some Res.us0_state
    us1_tex := some Res.us1_tex
  }

/-- Embedding of `atmo_renderer_new`. `cc_timestamp` is the value returned by the call
`cc_timestamp()`. Returns the renderer (`none` for NULL) and the trace of life-cycle
calls issued. `CALLOC` zero-fills the struct, so every field the function does not
assign is 0. -/
def atmo_renderer_new {α : Type} [LinearOrderedField α] (env : Env) (engine : Nat)
    (cc_timestamp : α) : Option (atmo_renderer α) × List Call :=
  if env.alloc Res.self = false then (none, [])
  else
  let t := [Call.acquire Res.self]
  if env.alloc Res.dat_transmittance = false then (none, t ++ fail_dat_transmittance)
  else
  let t := t ++ [Call.acquire Res.dat_transmittance]
  if env.alloc Res.dat_scattering = false then (none, t ++ fail_dat_scattering)
  else
  let t := t ++ [Call.acquire Res.dat_scattering]
  if env.alloc Res.dat_irradiance = false then (none, t ++ fail_dat_irradiance)
  else
  let t := t ++ [Call.acquire Res.dat_irradiance]
  if env.alloc Res.usf0_state = false then (none, t ++ fail_usf0)
  else
  let t := t ++ [Call.acquire Res.usf0_state]
  if env.alloc Res.usf1_tex = false then (none, t ++ fail_usf1)
  else
  let t := t ++ [Call.acquire Res.usf1_tex]
  if env.alloc Res.pl = false then (none, t ++ fail_pl)
  else
  let t := t ++ [Call.acquire Res.pl]
  if env.alloc Res.gp_default = false then (none, t ++ fail_gp_default)
  else
  let t := t ++ [Call.acquire Res.gp_default]
  if env.alloc Res.gp_simple = false then (none, t ++ fail_gp_simple)
  else
  let t := t ++ [Call.acquire Res.gp_simple]
  if env.alloc Res.vb0_vertex = false then (none, t ++ fail_vb0_vertex)
  else
  let t := t ++ [Call.acquire Res.vb0_vertex]
  if env.alloc Res.ub00_mvp = false then (none, t ++ fail_ub00)
  else
  let t := t ++ [Call.acquire Res.ub00_mvp]
  if env.alloc Res.ub01_model_from_view = false then (none, t ++ fail_ub01)
  else
  let t := t ++ [Call.acquire Res.ub01_model_from_view]
  if env.alloc Res.ub02_view_from_clip = false then (none, t ++ fail_ub02)
  else
  let t := t ++ [Call.acquire Res.ub02_view_from_clip]
  if env.alloc Res.ub03_camera = false then (none, t ++ fail_ub03)
  else
  let t := t ++ [Call.acquire Res.ub03_camera]
  if env.alloc Res.ub04_exposure = false then (none, t ++ fail_ub04)
  else
  let t := t ++ [Call.acquire Res.ub04_exposure]
  if env.alloc Res.ub05_white_point = false then (none, t ++ fail_ub05)
  else
  let t := t ++ [Call.acquire Res.ub05_white_point]
  if env.alloc Res.ub06_earth_center = false then (none, t ++ fail_ub06)
  else
  let t := t ++ [Call.acquire Res.ub06_earth_center]
  if env.alloc Res.ub07_sun_direction = false then (none, t ++ fail_ub07)
  else
  let t := t ++ [Call.acquire Res.ub07_sun_direction]
  if env.alloc Res.ub08_sun_size = false then (none, t ++ fail_ub08)
  else
  let t := t ++ [Call.acquire Res.ub08_sun_size]
  if atmo_renderer_loadDat env.pak = 0 then (none, t ++ fail_dat)
  else
  if env.caps.texture = 0 ∨ env.caps.filter_linear = 0 then (none, t ++ fail_format)
  else
  if env.alloc Res.img10_transmittance = false then (none, t ++ fail_img10)
  else
  let t := t ++ [Call.acquire Res.img10_transmittance]
  if env.alloc Res.img112_scattering = false then (none, t ++ fail_img112)
  else
  let t := t ++ [Call.acquire Res.img112_scattering]
  if env.alloc Res.img13_irradiance = false then (none, t ++ fail_img13)
  else
  let t := t ++ [Call.acquire Res.img13_irradiance]
  if env.alloc Res.us0_state = false then (none, t ++ fail_us0)
  else
  let t := t ++ [Call.acquire Res.us0_state]
  if env.alloc Res.us1_tex = false then (none, t ++ fail_us1)
  else
  let t := t ++ [Call.acquire Res.us1_tex]
  let t := t ++ [Call.release Res.dat_irradiance, Call.release Res.dat_scattering,
    Call.release Res.dat_transmittance]
  (some (new_self engine cc_timestamp), t)

/-- Embedding of `atmo_renderer_delete`. The argument and the first component of the
result are the contents of `*_self` before and after the call (`none` for NULL); the
second component is the trace of `vkk_*_delete` and `FREE` calls issued. -/
def atmo_renderer_delete {α : Type} (_self : Option (atmo_renderer α)) :
    Option (atmo_renderer α) × List Call :=
  match _self with
  | none => (none, [])
  | some _ =>
    (none,
      [ Call.release Res.us1_tex,
        Call.release Res.us0_state,
        Call.release Res.img13_irradiance,
        Call.release Res.img112_scattering,
        Call.release Res.img10_transmittance,
        Call.release Res.ub08_sun_size,
        Call.release Res.ub07_sun_direction,
        Call.release Res.ub06_earth_center,
        Call.release Res.ub05_white_point,
        Call.release Res.ub04_exposure,
        Call.release Res.ub03_camera,
        Call.release Res.ub02_view_from_clip,
        Call.release Res.ub01_model_from_view,
        Call.release Res.ub00_mvp,
        Call.release Res.vb0_vertex,
        Call.release Res.gp_simple,
        Call.release Res.gp_default,
        Call.release Res.pl,
        Call.release Res.usf1_tex,
        Call.release Res.usf0_state,
        Call.release Res.self ])

/-! ## Construction steps of `atmo_renderer_new` (used to state the failure policy) -/

/-- The fallible steps of `atmo_renderer_new`: a creation call for an object, the table
load, and the image-format capability check. -/
inductive Step
  | alloc (r : Res)
  | loadDat
  | format
  deriving DecidableEq, Repr

/-- The steps of `atmo_renderer_new` in program order. -/
def newSteps : List Step :=
  [ Step.alloc Res.self, Step.alloc Res.dat_transmittance, Step.alloc Res.dat_scattering,
    Step.alloc Res.dat_irradiance, Step.alloc Res.usf0_state, Step.alloc Res.usf1_tex,
    Step.alloc Res.pl, Step.alloc Res.gp_default, Step.alloc Res.gp_simple,
    Step.alloc Res.vb0_vertex, Step.alloc Res.ub00_mvp, Step.alloc Res.ub01_model_from_view,
    Step.alloc Res.ub02_view_from_clip, Step.alloc Res.ub03_camera,
    Step.alloc Res.ub04_exposure, Step.alloc Res.ub05_white_point,
    Step.alloc Res.ub06_earth_center, Step.alloc Res.ub07_sun_direction,
    Step.alloc Res.ub08_sun_size, Step.loadDat, Step.format,
    Step.alloc Res.img10_transmittance, Step.alloc Res.img112_scattering,
    Step.alloc Res.img13_irradiance, Step.alloc Res.us0_state, Step.alloc Res.us1_tex ]

/-- Whether a step succeeds in the environment: the condition under which
`atmo_renderer_new` does not jump to that step's failure label. -/
def Step.ok (env : Env) : Step → Bool
  | Step.alloc r => env.alloc r
  | Step.loadDat => decide (atmo_renderer_loadDat env.pak ≠ 0)
  | Step.format => decide (¬ (env.caps.texture = 0 ∨ env.caps.filter_linear = 0))

/-- The object a successful step acquires, if any. -/
def Step.res : Step → Option Res
  | Step.alloc r => some r
  | Step.loadDat => none
  | Step.format => none

/-- The steps that precede `step` in program order. -/
def stepsBefore (step : Step) : List Step :=
  newSteps.takeWhile (fun s => decide (s ≠ step))

/-- An environment in which exactly the step `step` fails (every allocation other
than that of `step` succeeds, the archive is well formed unless `step` is the load,
the format is supported unless `step` is the capability check). -/
def envFailingAt (step : Step) : Env :=
  { alloc := fun r => decide (Step.alloc r ≠ step)
    pak :=
      if step = Step.loadDat then none
      else some
        { seek := fun name =>
            if name = "dat/transmittance.dat" then 262144
            else if name = "dat/scattering.dat" then 16777216
            else if name = "dat/irradiance.dat" then 16384
            else 0
          read := fun _ _ => 1 }
    caps := { texture := if step = Step.format then 0 else 1, filter_linear := 1 } }

/-- An environment in which every step succeeds: all allocations return an object, the
archive holds the three tables with the sizes `atmo_renderer_loadDat` expects, and the
image format is supported. -/
def envAllOk : Env :=
  { alloc := fun _ => true
    pak := some
      { seek := fun name =>
          if name = "dat/transmittance.dat" then 262144
          else if name = "dat/scattering.dat" then 16777216
          else if name = "dat/irradiance.dat" then 16384
          else 0
        read := fun _ _ => 1 }
    caps := { texture := 1, filter_linear := 1 } }

/-! ## `atmo_renderer_touch` -/

/-- The loop `while(a > 2.0f*M_PI) { a -= 2.0f*M_PI; }` of `atmo_renderer_touch`, where
`a` is `self->sun_azimuth` or `self->view_azimuth`. The body runs at most `fuel` times;
`none` when the loop condition still holds after that. -/
def while_above {α : Type} [LinearOrderedField α] (M_PI : α) : Nat → α → Option α
  | 0, a => if a > 2.0 * M_PI then none else some a
  | fuel + 1, a => if a > 2.0 * M_PI then while_above M_PI fuel (a - 2.0 * M_PI) else some a

/-- The loop `while(a < 0.0f) { a += 2.0f*M_PI; }` of `atmo_renderer_touch`, where `a`
is `self->sun_azimuth` or `self->view_azimuth`. The body runs at most `fuel` times;
`none` when the loop condition still holds after that. -/
def while_below {α : Type} [LinearOrderedField α] (M_PI : α) : Nat → α → Option α
  | 0, a => if a < 0.0 then none else some a
  | fuel + 1, a => if a < 0.0 then while_below M_PI fuel (a + 2.0 * M_PI) else some a

/-- Embedding of `atmo_renderer_touch`. Each of the two azimuth loops may run its body
at most `fuel` times; the result is `none` when a loop needs more. -/
def atmo_renderer_touch {α : Type} [LinearOrderedField α] (M_PI : α) (fuel : Nat)
    (self : atmo_renderer α) (event : Int) (x y : α) : Option (atmo_renderer α) :=
  if self.touch_event = ATMO_TOUCH_EVENT_UP then
    if event = ATMO_TOUCH_EVENT_DOWN then
      some { self with touch_event := event, touch_x := x, touch_y := y }
    else some self
  else if event = ATMO_TOUCH_EVENT_UP then
    some { self with touch_event := event }
  else if self.touch_event = ATMO_TOUCH_EVENT_DOWN ∧ event = ATMO_TOUCH_EVENT_MOVE then
    let kScale : α := 500.0
    if self.touch_mode = ATMO_TOUCH_MODE_SUN then
      let sun_zenith := self.sun_zenith - (self.touch_y - y) / kScale
      let sun_zenith := if sun_zenith > M_PI then M_PI else sun_zenith
      let sun_zenith := if sun_zenith < 0.0 then 0.0 else sun_zenith
      let sun_azimuth := self.sun_azimuth + (self.touch_x - x) / kScale
      (while_above M_PI fuel sun_azimuth).bind fun sun_azimuth =>
      (while_below M_PI fuel sun_azimuth).bind fun sun_azimuth =>
      some { self with
        sun_zenith := sun_zenith, sun_azimuth := sun_azimuth, touch_x := x, touch_y := y }
    else if self.touch_mode = ATMO_TOUCH_MODE_VIEW then
      let view_zenith := self.view_zenith + (self.touch_y - y) / kScale
      let view_zenith := if view_zenith > M_PI / 2.0 then M_PI / 2.0 else view_zenith
      let view_zenith := if view_zenith < 0.0 then 0.0 else view_zenith
      let view_azimuth := self.view_azimuth + (self.touch_x - x) / kScale
      (while_above M_PI fuel view_azimuth).bind fun view_azimuth =>
      (while_below M_PI fuel view_azimuth).bind fun view_azimuth =>
      some { self with
        view_zenith := view_zenith, view_azimuth := view_azimuth, touch_x := x, touch_y := y }
    else some { self with touch_x := x, touch_y := y }
  else some self

/-! ## `atmo_renderer_keyPress` -/

/-- Commands passed to `vkk_engine_platformCmd`. -/
inductive vkk_platformCmd
  | VKK_PLATFORM_CMD_EXIT
  deriving DecidableEq, Repr

/-- Embedding of `atmo_renderer_setView`. -/
def atmo_renderer_setView {α : Type} (self : atmo_renderer α)
    (view_distance view_zenith view_azimuth sun_zenith sun_azimuth exposure : α) :
    atmo_renderer α :=
  { self with
    view_distance := view_distance
    view_zenith := view_zenith
    view_azimuth := view_azimuth
    sun_zenith := sun_zenith
    sun_azimuth := sun_azimuth
    exposure := exposure }

/-- Embedding of `atmo_renderer_keyPress`. `cc_timestamp` is the value the call
`cc_timestamp()` returns if the escape branch is taken. The result is the new state and
the list of commands issued through `vkk_engine_platformCmd`. Character constants are
written as their codes: `'='` 61, `'-'` 45, `'1'`..`'9'` 49..57, `'i'` 105, `'o'` 111,
`'v'` 118, `'s'` 115, `'m'` 109. -/
def atmo_renderer_keyPress {α : Type} [LinearOrderedField α] (VKK_KEYCODE_ESCAPE : Int)
    (cc_timestamp : α) (self : atmo_renderer α) (keycode : Int) (_meta : Int) :
    atmo_renderer α × List vkk_platformCmd :=
  if keycode = VKK_KEYCODE_ESCAPE then
    let t1 := cc_timestamp
    if t1 - self.escape_t0 < 0.5 then (self, [vkk_platformCmd.VKK_PLATFORM_CMD_EXIT])
    else ({ self with escape_t0 := t1 }, [])
  else if keycode = 61 then ({ self with exposure := self.exposure * 1.1 }, [])
  else if keycode = 45 then ({ self with exposure := self.exposure / 1.1 }, [])
  else if keycode = 49 then
    (atmo_renderer_setView self 9000.0 1.47 0.0 1.3 3.0 10.0, [])
  else if keycode = 50 then
    (atmo_renderer_setView self 9000.0 1.47 0.0 1.564 (-3.0) 10.0, [])
  else if keycode = 51 then
    (atmo_renderer_setView self 7000.0 1.57 0.0 1.54 (-2.96) 10.0, [])
  else if keycode = 52 then
    (atmo_renderer_setView self 7000.0 1.57 0.0 1.328 (-3.044) 10.0, [])
  else if keycode = 53 then
    (atmo_renderer_setView self 9000.0 1.39 0.0 1.2 0.7 10.0, [])
  else if keycode = 54 then
    (atmo_renderer_setView self 9000.0 1.5 0.0 1.628 1.05 200.0, [])
  else if keycode = 55 then
    (atmo_renderer_setView self 7000.0 1.43 0.0 1.57 1.34 40.0, [])
  else if keycode = 56 then
    (atmo_renderer_setView self 2.7e6 0.81 0.0 1.57 2.0 10.0, [])
  else if keycode = 57 then
    (atmo_renderer_setView self 1.2e7 0.0 0.0 0.93 (-2.0) 10.0, [])
  else if keycode = 105 then ({ self with view_distance := self.view_distance / 1.05 }, [])
  else if keycode = 111 then ({ self with view_distance := self.view_distance * 1.05 }, [])
  else if keycode = 118 then ({ self with touch_mode := ATMO_TOUCH_MODE_VIEW }, [])
  else if keycode = 115 then ({ self with touch_mode := ATMO_TOUCH_MODE_SUN }, [])
  else if keycode = 109 then ({ self with simple := 1 - self.simple }, [])
  else (self, [])

/-! ## Reachable scene states -/

/-- States reachable from a renderer returned by `atmo_renderer_new` through any
sequence of `atmo_renderer_touch` and `atmo_renderer_keyPress` calls that return. -/
inductive Reachable {α : Type} [LinearOrderedField α] (M_PI : α) (VKK_KEYCODE_ESCAPE : Int) :
    atmo_renderer α → Prop
  | new (env : Env) (engine : Nat) (now : α) (r : atmo_renderer α) :
      (atmo_renderer_new env engine now).1 = some r → Reachable M_PI VKK_KEYCODE_ESCAPE r
  | touch (s s' : atmo_renderer α) (fuel : Nat) (event : Int) (x y : α) :
      Reachable M_PI VKK_KEYCODE_ESCAPE s →
      atmo_renderer_touch M_PI fuel s event x y = some s' →
      Reachable M_PI VKK_KEYCODE_ESCAPE s'
  | keyPress (s : atmo_renderer α) (now : α) (keycode _meta : Int) :
      Reachable M_PI VKK_KEYCODE_ESCAPE s →
      Reachable M_PI VKK_KEYCODE_ESCAPE
        (atmo_renderer_keyPress VKK_KEYCODE_ESCAPE now s keycode _meta).1

/-- The state after creation at time 0 followed by the key `'s'` (code 115), where 27
stands for the escape key code: phase UP, touch mode SUN, all angles at their creation
values. -/
def sunModeState (α : Type) [LinearOrderedField α] : atmo_renderer α :=
  (atmo_renderer_keyPress 27 0 (new_self 0 0) 115 0).1

/-- Ranges of the four scene angles: both zeniths within their clamp limits, both
azimuths between the least value written by creation or a preset and `2 * M_PI`. -/
def AngleRanges {α : Type} [LinearOrderedField α] (M_PI : α) (s : atmo_renderer α) : Prop :=
  (0 ≤ s.view_zenith ∧ s.view_zenith ≤ M_PI / 2) ∧
  (0 ≤ s.sun_zenith ∧ s.sun_zenith ≤ M_PI) ∧
  (-0.1 ≤ s.view_azimuth ∧ s.view_azimuth ≤ 2 * M_PI) ∧
  (-3.044 ≤ s.sun_azimuth ∧ s.sun_azimuth ≤ 2 * M_PI)

/-- The state after creation at time 0 followed by a DOWN at (0, 0): phase DOWN, touch
mode VIEW, all angles at their creation values. -/
def viewDownState (α : Type) [LinearOrderedField α] : atmo_renderer α :=
  { new_self 0 0 with touch_event := ATMO_TOUCH_EVENT_DOWN, touch_x := 0, touch_y := 0 }

/-! ## `atmo_renderer_density` and `atmo_renderer_contentRect` -/

/-- Embedding of `atmo_renderer_density`. -/
def atmo_renderer_density {α : Type} (self : atmo_renderer α) (density : α) :
    atmo_renderer α :=
  { self with density := density }

/-- Embedding of `atmo_renderer_contentRect`. The arguments are `uint32_t` values
(below 2^32) and the two differences wrap modulo 2^32. -/
def atmo_renderer_contentRect {α : Type} (self : atmo_renderer α) (t l b r : Nat) :
    atmo_renderer α :=
  { self with
    content_rect_top := t
    content_rect_left := l
    content_rect_width := (r + 4294967296 - l) % 4294967296
    content_rect_height := (b + 4294967296 - t) % 4294967296 }

/-! ## `atmo_renderer_draw` -/

/-- Embedding of `cc_mat4f_t`; `mRC` is the entry in row `R` and column `C`. -/
structure cc_mat4f (α : Type) where
  m00 : α
  m10 : α
  m20 : α
  m30 : α
  m01 : α
  m11 : α
  m21 : α
  m31 : α
  m02 : α
  m12 : α
  m22 : α
  m32 : α
  m03 : α
  m13 : α
  m23 : α
  m33 : α

/-- Embedding of `cc_vec4f_t`. -/
structure cc_vec4f (α : Type) where
  x : α
  y : α
  z : α
  w : α

/-- Embedding of `cc_vec2f_t`. -/
structure cc_vec2f (α : Type) where
  x : α
  y : α

/-- The matrix with every entry 0: what a designated initialiser leaves in the entries
it does not name. -/
def cc_mat4f_zero {α : Type} [LinearOrderedField α] : cc_mat4f α :=
  { m00 := 0, m10 := 0, m20 := 0, m30 := 0, m01 := 0, m11 := 0, m21 := 0, m31 := 0,
    m02 := 0, m12 := 0, m22 := 0, m32 := 0, m03 := 0, m13 := 0, m23 := 0, m33 := 0 }

/-- The data passed to `vkk_renderer_updateBuffer`. -/
inductive Payload (α : Type)
  | mat4 (m : cc_mat4f α)
  | vec4 (v : cc_vec4f α)
  | vec2 (v : cc_vec2f α)
  | scalar (f : α)

/-- Calls issued on the renderer by `atmo_renderer_draw` after the frame has begun. -/
inductive RenderCall (α : Type)
  | vkk_renderer_viewport (x y width height : α)
  | vkk_renderer_scissor (x y width height : Nat)
  | vkk_renderer_updateBuffer (buffer : Option Res) (buf : Payload α)
  | vkk_renderer_bindGraphicsPipeline (gp : Option Res)
  | vkk_renderer_bindUniformSets (us_count : Nat) (us_array : List (Option Res))
  | vkk_renderer_draw (vertex_count vertex_buffer_count : Nat)
      (vertex_buffers : List (Option Res))
  | vkk_renderer_end

/-- What `atmo_renderer_draw` takes from outside the repository sources: `M_PI` and the
functions `tan`, `tanf`, `cosf`, `sinf` of `math.h`, the matrix written by
`cc_mat4f_orthoVK(&mvp, 1, -1, 1, -1, 1, 0, 2)`, the result of
`vkk_renderer_beginDefault`, and the size written by `vkk_renderer_surfaceSize`. -/
structure DrawEnv (α : Type) where
  M_PI : α
  tan : α → α
  tanf : α → α
  cosf : α → α
  sinf : α → α
  cc_mat4f_orthoVK : cc_mat4f α
  vkk_renderer_beginDefault : Int
  surface_w : Nat
  surface_h : Nat

/-- Value of `kSunAngularRadius`. -/
def kSunAngularRadius {α : Type} [LinearOrderedField α] : α := 0.00935 / 2.0

/-- Value of `kLengthUnitInMeters`. -/
def kLengthUnitInMeters {α : Type} [LinearOrderedField α] : α := 1000.0

/-- The block "update screen, viewport and scissor" of `atmo_renderer_draw`: the values
of the locals `screen_x`, `screen_y`, `screen_w`, `screen_h` after the `if`, and the
viewport and scissor calls issued inside it. -/
def draw_screen {α : Type} [LinearOrderedField α] (self : atmo_renderer α) :
    (α × α × α × α) × List (RenderCall α) :=
  let screen_x : α := 0.0
  let screen_y : α := 0.0
  let screen_w : α := (self.screen_w : α)
  let screen_h : α := (self.screen_h : α)
  if self.content_rect_width > 0 ∧ self.content_rect_height > 0 ∧
      self.content_rect_width ≤ self.screen_w ∧
      self.content_rect_height ≤ self.screen_h then
    let screen_x : α := (self.content_rect_left : α)
    let screen_y : α := (self.content_rect_top : α)
    let screen_w : α := (self.content_rect_width : α)
    let screen_h : α := (self.content_rect_height : α)
    ((screen_x, screen_y, screen_w, screen_h),
      [ RenderCall.vkk_renderer_viewport screen_x screen_y screen_w screen_h,
        RenderCall.vkk_renderer_scissor self.content_rect_left self.content_rect_top
          self.content_rect_width self.content_rect_height ])
  else ((screen_x, screen_y, screen_w, screen_h), [])

/-- The local `aspectRatio` of `atmo_renderer_draw`. -/
def draw_aspectRatio {α : Type} [LinearOrderedField α] (self : atmo_renderer α) : α :=
  (draw_screen self).1.2.2.1 / (draw_screen self).1.2.2.2

/-- The local `view_from_clip` of `atmo_renderer_draw`. -/
def draw_view_from_clip {α : Type} [LinearOrderedField α] (env : DrawEnv α)
    (self : atmo_renderer α) : cc_mat4f α :=
  let kFovY : α := 50.0 / 180.0 * env.M_PI
  let kTanFovY : α := env.tan (kFovY / 2.0)
  let aspectRatio : α := draw_aspectRatio self
  { cc_mat4f_zero with
    m00 := kTanFovY * aspectRatio
    m11 := kTanFovY
    m23 := -1.0
    m32 := 1.0
    m33 := 1.0 }

/-- The local `model_from_view` of `atmo_renderer_draw`. -/
def draw_model_from_view {α : Type} [LinearOrderedField α] (env : DrawEnv α)
    (self : atmo_renderer α) : cc_mat4f α :=
  let cosZV := env.cosf self.view_zenith
  let sinZV := env.sinf self.view_zenith
  let cosAV := env.cosf self.view_azimuth
  let sinAV := env.sinf self.view_azimuth
  let distV := self.view_distance / kLengthUnitInMeters
  { cc_mat4f_zero with
    m00 := -sinAV
    m01 := -cosZV * cosAV
    m02 := sinZV * cosAV
    m03 := sinZV * cosAV * distV
    m10 := cosAV
    m11 := -cosZV * sinAV
    m12 := sinZV * sinAV
    m13 := sinZV * sinAV * distV
    m21 := sinZV
    m22 := cosZV
    m23 := cosZV * distV
    m33 := 1.0 }

/-- The local `camera` of `atmo_renderer_draw`. -/
def draw_camera {α : Type} [LinearOrderedField α] (env : DrawEnv α)
    (self : atmo_renderer α) : cc_vec4f α :=
  { x := (draw_model_from_view env self).m03
    y := (draw_model_from_view env self).m13
    z := (draw_model_from_view env self).m23
    w := (draw_model_from_view env self).m33 }

/-- The local `white_point` of `atmo_renderer_draw`. -/
def draw_white_point {α : Type} [LinearOrderedField α] : cc_vec4f α :=
  { x := 1.0, y := 1.0, z := 1.0, w := 1.0 }

/-- The local `earth_center` of `atmo_renderer_draw`. -/
def draw_earth_center {α : Type} [LinearOrderedField α] : cc_vec4f α :=
  { x := 0, y := 0, z := -6360000.0 / kLengthUnitInMeters, w := 1.0 }

/-- The local `sun_direction` of `atmo_renderer_draw`. -/
def draw_sun_direction {α : Type} [LinearOrderedField α] (env : DrawEnv α)
    (self : atmo_renderer α) : cc_vec4f α :=
  let cosZS := env.cosf self.sun_zenith
  let sinZS := env.sinf self.sun_zenith
  let cosAS := env.cosf self.sun_azimuth
  let sinAS := env.sinf self.sun_azimuth
  { x := cosAS * sinZS, y := sinAS * sinZS, z := cosZS, w := 1.0 }

/-- The local `sun_size` of `atmo_renderer_draw`. -/
def draw_sun_size {α : Type} [LinearOrderedField α] (env : DrawEnv α) : cc_vec2f α :=
  { x := env.tanf kSunAngularRadius, y := env.cosf kSunAngularRadius }

/-- Embedding of `atmo_renderer_draw`: the new state and the renderer calls issued
after `vkk_renderer_beginDefault`, in order. -/
def atmo_renderer_draw {α : Type} [LinearOrderedField α] (env : DrawEnv α)
    (self : atmo_renderer α) : atmo_renderer α × List (RenderCall α) :=
  if env.vkk_renderer_beginDefault = 0 then (self, [])
  else
    let self := { self with screen_w := env.surface_w, screen_h := env.surface_h }
    (self,
      (draw_screen self).2 ++
      [ RenderCall.vkk_renderer_updateBuffer self.ub00_mvp
          (Payload.mat4 env.cc_mat4f_orthoVK),
        RenderCall.vkk_renderer_updateBuffer self.ub01_model_from_view
          (Payload.mat4 (draw_model_from_view env self)),
        RenderCall.vkk_renderer_updateBuffer self.ub02_view_from_clip
          (Payload.mat4 (draw_view_from_clip env self)),
        RenderCall.vkk_renderer_updateBuffer self.ub03_camera
          (Payload.vec4 (draw_camera env self)),
        RenderCall.vkk_renderer_updateBuffer self.ub04_exposure
          (Payload.scalar self.exposure),
        RenderCall.vkk_renderer_updateBuffer self.ub05_white_point
          (Payload.vec4 draw_white_point),
        RenderCall.vkk_renderer_updateBuffer self.ub06_earth_center
          (Payload.vec4 draw_earth_center),
        RenderCall.vkk_renderer_updateBuffer self.ub07_sun_direction
          (Payload.vec4 (draw_sun_direction env self)),
        RenderCall.vkk_renderer_updateBuffer self.ub08_sun_size
          (Payload.vec2 (draw_sun_size env)),
        (if self.simple ≠ 0 then RenderCall.vkk_renderer_bindGraphicsPipeline self.gp_simple
         else RenderCall.vkk_renderer_bindGraphicsPipeline self.gp_default),
        RenderCall.vkk_renderer_bindUniformSets 2 [self.us0_state, self.us1_tex],
        RenderCall.vkk_renderer_draw 4 1 [self.vb0_vertex],
        RenderCall.vkk_renderer_end ])

/-! ## Buffer sizes of the three tables -/

/-- The argument of the `MALLOC` call of `atmo_renderer_new` for each raw table buffer
(the value of the local `bytes` at that call); 0 for every other object. -/
def malloc_bytes : Res → Int
  | Res.dat_transmittance =>
    sizeof_float * TEXTURE_COMPONENTS * TRANSMITTANCE_TEXTURE_WIDTH *
      TRANSMITTANCE_TEXTURE_HEIGHT
  | Res.dat_scattering =>
    sizeof_float * TEXTURE_COMPONENTS * SCATTERING_TEXTURE_WIDTH *
      SCATTERING_TEXTURE_HEIGHT * SCATTERING_TEXTURE_DEPTH
  | Res.dat_irradiance =>
    sizeof_float * TEXTURE_COMPONENTS * IRRADIANCE_TEXTURE_WIDTH *
      IRRADIANCE_TEXTURE_HEIGHT
  | _ => 0

/-- The `pak_file_read` calls issued by `atmo_renderer_loadDat`, in order, each as the
destination buffer and the number of bytes requested (`size` times the count 1). The
control flow is that of `atmo_renderer_loadDat`: a read is issued once the size check of
its entry has passed, and a failed check or read ends the function. -/
def loadDat_reads (pak_file_open : Option pak_file) : List (Res × Int) :=
  match pak_file_open with
  | none => []
  | some pak =>
    let size := pak.seek "dat/transmittance.dat"
    let bytes := 4 * sizeof_float * TRANSMITTANCE_TEXTURE_WIDTH * TRANSMITTANCE_TEXTURE_HEIGHT
    if size = 0 ∨ size ≠ bytes then []
    else
      let reads := [(Res.dat_transmittance, size * 1)]
      if pak.read "dat/transmittance.dat" size ≠ 1 then reads
      else
        let size := pak.seek "dat/scattering.dat"
        let bytes := 4 * sizeof_float * SCATTERING_TEXTURE_WIDTH * SCATTERING_TEXTURE_HEIGHT *
          SCATTERING_TEXTURE_DEPTH
        if size = 0 ∨ size ≠ bytes then reads
        else
          let reads := reads ++ [(Res.dat_scattering, size * 1)]
          if pak.read "dat/scattering.dat" size ≠ 1 then reads
          else
            let size := pak.seek "dat/irradiance.dat"
            let bytes := 4 * sizeof_float * IRRADIANCE_TEXTURE_WIDTH *
              IRRADIANCE_TEXTURE_HEIGHT
            if size = 0 ∨ size ≠ bytes then reads
            else reads ++ [(Res.dat_irradiance, size * 1)]

/-! ## Helpers for stating facts about `atmo_renderer_draw` -/

/-- Whether a renderer call is `vkk_renderer_viewport` or `vkk_renderer_scissor`. -/
def RenderCall.isViewportOrScissor {α : Type} : RenderCall α → Bool
  | RenderCall.vkk_renderer_viewport _ _ _ _ => true
  | RenderCall.vkk_renderer_scissor _ _ _ _ => true
  | _ => false

/-- A draw environment over the rationals with the given begin-frame result and surface
size. The four math functions are stand-ins (used only where their values play no part);
`M_PI` is the value written in `math.h`. -/
def exampleDrawEnv (beginDefault : Int) (surface_w surface_h : Nat) : DrawEnv ℚ :=
  { M_PI := 3.14159265358979323846
    tan := fun x => x
    tanf := fun x => x
    cosf := fun _ => 1
    sinf := fun _ => 0
    cc_mat4f_orthoVK := cc_mat4f_zero
    vkk_renderer_beginDefault := beginDefault
    surface_w := surface_w
    surface_h := surface_h }

end Atmo

namespace Atmo

/-! ## Life cycle: `atmo_renderer_new` and `atmo_renderer_delete` -/

/-- When `step` is the first step to fail, `atmo_renderer_new` returns NULL, has acquired
exactly the objects of the steps before `step`, and has released them in reverse order,
each once. -/
theorem new_fail_aux {α : Type} [LinearOrderedField α] (env : Env)
    (engine : Nat) (now : α) (step : Step)
    (hpre : ∀ s ∈ stepsBefore step, Step.ok env s = true)
    (hfail : Step.ok env step = false) :
    (atmo_renderer_new env engine now).1 = none ∧
    acquired (atmo_renderer_new env engine now).2 = (stepsBefore step).filterMap Step.res ∧
    released (atmo_renderer_new env engine now).2 =
      (acquired (atmo_renderer_new env engine now).2).reverse ∧
    (released (atmo_renderer_new env engine now).2).Nodup := by
  cases step with
  | alloc r =>
    cases r <;>
    · simp [stepsBefore, newSteps, List.takeWhile, Step.ok] at hpre hfail
      simp only [atmo_renderer_new, hpre, hfail, reduceIte, Bool.true_eq_false,
        not_true_eq_false, not_false_eq_true, or_self, false_or, or_false]
      refine ⟨trivial, ?_, ?_, ?_⟩ <;> decide
  | loadDat =>
    simp [stepsBefore, newSteps, List.takeWhile, Step.ok] at hpre hfail
    simp only [atmo_renderer_new, hpre, hfail, reduceIte, Bool.true_eq_false,
      not_true_eq_false, not_false_eq_true, or_self, false_or, or_false]
    refine ⟨trivial, ?_, ?_, ?_⟩ <;> decide
  | format =>
    have hcaps : env.caps.texture = 0 ∨ env.caps.filter_linear = 0 := by
      by_contra hc
      simp [Step.ok, hc] at hfail
    simp [stepsBefore, newSteps, List.takeWhile, Step.ok] at hpre
    simp only [atmo_renderer_new, hpre, if_pos hcaps, reduceIte, Bool.true_eq_false,
      not_true_eq_false, not_false_eq_true, or_self, false_or, or_false]
    refine ⟨trivial, ?_, ?_, ?_⟩ <;> decide

/-- A list on which a Boolean test fails somewhere has a first element failing it. -/
theorem exists_first_failing {σ : Type} [DecidableEq σ] (p : σ → Bool) :
    ∀ l : List σ, l.all p = false →
      ∃ s, p s = false ∧ ∀ t ∈ l.takeWhile (fun x => decide (x ≠ s)), p t = true := by
  intro l
  induction l with
  | nil => intro h; simp at h
  | cons a t ih =>
    intro h
    by_cases ha : p a = true
    · have ht : t.all p = false := by
        rw [List.all_cons, ha, Bool.true_and] at h
        exact h
      obtain ⟨s, hs, hbefore⟩ := ih ht
      refine ⟨s, hs, ?_⟩
      intro u hu
      by_cases hne : a = s
      · subst hne
        simp [List.takeWhile] at hu
      · have hcons : (a :: t).takeWhile (fun x => decide (x ≠ s)) =
            a :: t.takeWhile (fun x => decide (x ≠ s)) := by
          simp [List.takeWhile, hne]
        rw [hcons] at hu
        rcases List.mem_cons.mp hu with h1 | h1
        · rw [h1]; exact ha
        · exact hbefore u h1
    · refine ⟨a, by simpa using ha, ?_⟩
      intro u hu
      simp [List.takeWhile] at hu

/-- A renderer is returned only when every step succeeds. -/
theorem new_some_allOk {α : Type} [LinearOrderedField α] (env : Env) (engine : Nat) (now : α)
    (r0 : atmo_renderer α) (h : (atmo_renderer_new env engine now).1 = some r0) :
    newSteps.all (Step.ok env) = true := by
  by_contra hc
  have hf : newSteps.all (Step.ok env) = false := by simpa using hc
  obtain ⟨s, hs, hbefore⟩ := exists_first_failing (Step.ok env) newSteps hf
  have hnone := (new_fail_aux env engine now s hbefore hs).1
  rw [hnone] at h
  exact Option.noConfusion h

/-- The success path of `atmo_renderer_new`: the struct returned and the calls issued. -/
theorem new_allOk_value {α : Type} [LinearOrderedField α] (env : Env) (engine : Nat) (now : α)
    (h : newSteps.all (Step.ok env) = true) :
    (atmo_renderer_new env engine now).1 = some (new_self engine now) ∧
    acquired (atmo_renderer_new env engine now).2 =
      [ Res.self, Res.dat_transmittance, Res.dat_scattering, Res.dat_irradiance,
        Res.usf0_state, Res.usf1_tex, Res.pl, Res.gp_default, Res.gp_simple, Res.vb0_vertex,
        Res.ub00_mvp, Res.ub01_model_from_view, Res.ub02_view_from_clip, Res.ub03_camera,
        Res.ub04_exposure, Res.ub05_white_point, Res.ub06_earth_center,
        Res.ub07_sun_direction, Res.ub08_sun_size, Res.img10_transmittance,
        Res.img112_scattering, Res.img13_irradiance, Res.us0_state, Res.us1_tex ] ∧
    released (atmo_renderer_new env engine now).2 =
      [Res.dat_irradiance, Res.dat_scattering, Res.dat_transmittance] := by
  simp [newSteps, Step.ok] at h
  simp only [atmo_renderer_new, h, reduceIte, Bool.true_eq_false, not_true_eq_false,
    not_false_eq_true, or_self, false_or, or_false]
  refine ⟨trivial, ?_, ?_⟩ <;> decide

/-- The renderer returned by `atmo_renderer_new` is `new_self`. -/
theorem new_some_eq {α : Type} [LinearOrderedField α] (env : Env) (engine : Nat) (now : α)
    (r0 : atmo_renderer α) (h : (atmo_renderer_new env engine now).1 = some r0) :
    r0 = new_self engine now := by
  have hv := (new_allOk_value env engine now (new_some_allOk env engine now r0 h)).1
  rw [hv] at h
  exact (Option.some.inj h).symm

/-- In the environment `envAllOk` every step succeeds. -/
theorem envAllOk_allOk : newSteps.all (Step.ok envAllOk) = true := by
  decide

/-- C1. For every construction step of `atmo_renderer_new` (the struct allocation, the
three raw buffer allocations, the twenty device objects, the table load, the image-format
check): if it is the first step to fail, the function returns NULL, the objects acquired
are exactly those of the preceding steps, and the releases are exactly the acquisitions in
reverse order, each object once. -/
theorem new_failure_releases_in_reverse {α : Type} [LinearOrderedField α] (env : Env)
    (engine : Nat) (now : α) (step : Step)
    (hpre : ∀ s ∈ stepsBefore step, Step.ok env s = true)
    (hfail : Step.ok env step = false) :
    (atmo_renderer_new env engine now).1 = none ∧
    acquired (atmo_renderer_new env engine now).2 = (stepsBefore step).filterMap Step.res ∧
    released (atmo_renderer_new env engine now).2 =
      (acquired (atmo_renderer_new env engine now).2).reverse ∧
    (released (atmo_renderer_new env engine now).2).Nodup :=
  new_fail_aux env engine now step hpre hfail

/-- Instance of C1: the image-format check fails after nineteen successful acquisitions. -/
theorem new_failure_releases_in_reverse_witness :
    (∀ s ∈ stepsBefore Step.format, Step.ok (envFailingAt Step.format) s = true) ∧
    Step.ok (envFailingAt Step.format) Step.format = false ∧
    (atmo_renderer_new (envFailingAt Step.format) 0 (0 : ℚ)).1 = none ∧
    acquired (atmo_renderer_new (envFailingAt Step.format) 0 (0 : ℚ)).2 =
      (stepsBefore Step.format).filterMap Step.res ∧
    released (atmo_renderer_new (envFailingAt Step.format) 0 (0 : ℚ)).2 =
      (acquired (atmo_renderer_new (envFailingAt Step.format) 0 (0 : ℚ)).2).reverse ∧
    (released (atmo_renderer_new (envFailingAt Step.format) 0 (0 : ℚ)).2).Nodup :=
  ⟨by decide, by decide,
    new_failure_releases_in_reverse (envFailingAt Step.format) 0 (0 : ℚ) Step.format
      (by decide) (by decide)⟩

/-- C2. `atmo_renderer_delete` on a non-null renderer issues, whatever the struct holds,
the delete calls of the twenty device objects in exactly the reverse of the order in which
a successful `atmo_renderer_new` created them, then frees the struct, acquires nothing,
and leaves the handle NULL. -/
theorem delete_releases_all_in_reverse {α : Type} [LinearOrderedField α] (env : Env)
    (engine : Nat) (now : α) (r0 r : atmo_renderer α)
    (hnew : (atmo_renderer_new env engine now).1 = some r0) :
    (atmo_renderer_delete (some r)).1 = none ∧
    released (atmo_renderer_delete (some r)).2 =
      ((acquired (atmo_renderer_new env engine now).2).filter Res.isGpu).reverse ++
        [Res.self] ∧
    acquired (atmo_renderer_delete (some r)).2 = [] ∧
    ((acquired (atmo_renderer_new env engine now).2).filter Res.isGpu).length = 20 ∧
    released (atmo_renderer_delete (some r)).2 =
      [ Res.us1_tex, Res.us0_state, Res.img13_irradiance, Res.img112_scattering,
        Res.img10_transmittance, Res.ub08_sun_size, Res.ub07_sun_direction,
        Res.ub06_earth_center, Res.ub05_white_point, Res.ub04_exposure, Res.ub03_camera,
        Res.ub02_view_from_clip, Res.ub01_model_from_view, Res.ub00_mvp, Res.vb0_vertex,
        Res.gp_simple, Res.gp_default, Res.pl, Res.usf1_tex, Res.usf0_state, Res.self ] := by
  have hv := (new_allOk_value env engine now (new_some_allOk env engine now r0 hnew)).2.1
  rw [hv]
  exact ⟨rfl, rfl, rfl, rfl, rfl⟩

/-- Instance of C2: the renderer built in `envAllOk` is deleted. -/
theorem delete_releases_all_in_reverse_witness :
    (atmo_renderer_new envAllOk 0 (0 : ℚ)).1 = some (new_self 0 0) ∧
    released (atmo_renderer_delete (some (new_self 0 (0 : ℚ)))).2 =
      ((acquired (atmo_renderer_new envAllOk 0 (0 : ℚ)).2).filter Res.isGpu).reverse ++
        [Res.self] :=
  ⟨(new_allOk_value envAllOk 0 (0 : ℚ) envAllOk_allOk).1,
    (delete_releases_all_in_reverse envAllOk 0 (0 : ℚ) (new_self 0 0) (new_self 0 0)
      (new_allOk_value envAllOk 0 (0 : ℚ) envAllOk_allOk).1).2.1⟩

/-- C3. After `atmo_renderer_delete` the handle is NULL; a second call on the same
handle issues no call and leaves the handle NULL, so over both calls no object is
released twice. -/
theorem delete_idempotent {α : Type} (h : Option (atmo_renderer α)) :
    (atmo_renderer_delete h).1 = none ∧
    atmo_renderer_delete (atmo_renderer_delete h).1 = (none, []) ∧
    (released ((atmo_renderer_delete h).2 ++
      (atmo_renderer_delete (atmo_renderer_delete h).1).2)).Nodup := by
  cases h with
  | none => exact ⟨rfl, rfl, by simp [atmo_renderer_delete, released]⟩
  | some r => exact ⟨rfl, rfl, by simp [atmo_renderer_delete, released]⟩

/-! ## The table loader -/

/-- C4. `atmo_renderer_loadDat` returns 1 exactly when the archive opens and, for
`dat/transmittance.dat`, `dat/scattering.dat`, `dat/irradiance.dat`, the reported size is
non-zero and equal to 262144, 16777216 and 16384 bytes respectively and the read of that
many bytes returns one item; in every other case it returns 0. -/
theorem loadDat_success_iff (o : Option pak_file) :
    (atmo_renderer_loadDat o = 1 ↔
      ∃ pak, o = some pak ∧
        (pak.seek "dat/transmittance.dat" ≠ 0 ∧
          pak.seek "dat/transmittance.dat" = 4 * 4 * 256 * 64 ∧
          pak.read "dat/transmittance.dat" 262144 = 1) ∧
        (pak.seek "dat/scattering.dat" ≠ 0 ∧
          pak.seek "dat/scattering.dat" = 4 * 4 * 256 * 128 * 32 ∧
          pak.read "dat/scattering.dat" 16777216 = 1) ∧
        (pak.seek "dat/irradiance.dat" ≠ 0 ∧
          pak.seek "dat/irradiance.dat" = 4 * 4 * 64 * 16 ∧
          pak.read "dat/irradiance.dat" 16384 = 1)) ∧
    (atmo_renderer_loadDat o = 1 ∨ atmo_renderer_loadDat o = 0) ∧
    ((4 * 4 * 256 * 64 : Int) = 262144 ∧ (4 * 4 * 256 * 128 * 32 : Int) = 16777216 ∧
      (4 * 4 * 64 * 16 : Int) = 16384) := by
  refine ⟨?_, ?_, by decide⟩
  · cases o with
    | none => simp [atmo_renderer_loadDat]
    | some pak =>
      simp only [atmo_renderer_loadDat, sizeof_float, TRANSMITTANCE_TEXTURE_WIDTH,
        TRANSMITTANCE_TEXTURE_HEIGHT, SCATTERING_TEXTURE_WIDTH, SCATTERING_TEXTURE_HEIGHT,
        SCATTERING_TEXTURE_DEPTH, IRRADIANCE_TEXTURE_WIDTH, IRRADIANCE_TEXTURE_HEIGHT]
      norm_num
      split_ifs with h1 h2 h3 h4 h5 h6 <;> first | (simp_all; done) | (simp_all; tauto)
  · cases o with
    | none => right; rfl
    | some pak =>
      simp only [atmo_renderer_loadDat]
      split_ifs <;> simp

end Atmo

namespace Atmo

/-! ## The azimuth loops of `atmo_renderer_touch` -/

/-- The first azimuth loop ends at a value not above `2 * M_PI` that differs from the
start by a natural multiple of `2 * M_PI`, and changes nothing when the start is not
above `2 * M_PI`. -/
theorem while_above_spec {α : Type} [LinearOrderedField α] (M_PI : α) :
    ∀ (fuel : Nat) (a b : α), while_above M_PI fuel a = some b →
      b ≤ 2 * M_PI ∧ (∃ k : ℕ, a = b + k * (2 * M_PI)) ∧ (a ≤ 2 * M_PI → b = a) := by
  intro fuel
  induction fuel with
  | zero =>
    intro a b h
    have h2 : (2.0 : α) = 2 := by norm_num
    simp only [while_above, h2] at h
    split_ifs at h with hc
    have hab : a = b := Option.some.inj h
    subst hab
    exact ⟨not_lt.mp hc, ⟨0, by simp⟩, fun _ => rfl⟩
  | succ n ih =>
    intro a b h
    have h2 : (2.0 : α) = 2 := by norm_num
    simp only [while_above, h2] at h
    split_ifs at h with hc
    · obtain ⟨hb, ⟨k, hk⟩, _⟩ := ih _ _ h
      refine ⟨hb, ⟨k + 1, ?_⟩, fun hle => absurd hc (not_lt.mpr hle)⟩
      push_cast
      linear_combination hk
    · have hab : a = b := Option.some.inj h
      subst hab
      exact ⟨not_lt.mp hc, ⟨0, by simp⟩, fun _ => rfl⟩

/-- The second azimuth loop ends at a non-negative value that differs from the start by
a natural multiple of `2 * M_PI`; it ends below `2 * M_PI` when the start is negative and
changes nothing otherwise. -/
theorem while_below_spec {α : Type} [LinearOrderedField α] (M_PI : α) :
    ∀ (fuel : Nat) (a b : α), while_below M_PI fuel a = some b →
      0 ≤ b ∧ (∃ k : ℕ, b = a + k * (2 * M_PI)) ∧ (a < 0 → b < 2 * M_PI) ∧
        (0 ≤ a → b = a) := by
  intro fuel
  induction fuel with
  | zero =>
    intro a b h
    have h0 : (0.0 : α) = 0 := by norm_num
    simp only [while_below, h0] at h
    split_ifs at h with hc
    have hab : a = b := Option.some.inj h
    subst hab
    exact ⟨not_lt.mp hc, ⟨0, by simp⟩, fun hlt => absurd hlt hc, fun _ => rfl⟩
  | succ n ih =>
    intro a b h
    have h0 : (0.0 : α) = 0 := by norm_num
    have h2 : (2.0 : α) = 2 := by norm_num
    simp only [while_below, h0, h2] at h
    split_ifs at h with hc
    · obtain ⟨hb, ⟨k, hk⟩, hlt, hge⟩ := ih _ _ h
      refine ⟨hb, ⟨k + 1, ?_⟩, fun _ => ?_, fun hle => absurd hc (not_lt.mpr hle)⟩
      · push_cast
        linear_combination hk
      · by_cases hneg : a + 2 * M_PI < 0
        · exact hlt hneg
        · rw [hge (not_lt.mp hneg)]
          linarith
    · have hab : a = b := Option.some.inj h
      subst hab
      exact ⟨not_lt.mp hc, ⟨0, by simp⟩, fun hlt => absurd hlt hc, fun _ => rfl⟩

/-- Both loops in sequence end in the closed interval from 0 to `2 * M_PI`, at a value
that differs from the start by an integer multiple of `2 * M_PI`. -/
theorem wrap_spec {α : Type} [LinearOrderedField α] (M_PI : α) (f1 f2 : Nat) (a a1 b : α)
    (h1 : while_above M_PI f1 a = some a1) (h2 : while_below M_PI f2 a1 = some b) :
    0 ≤ b ∧ b ≤ 2 * M_PI ∧ ∃ k : ℤ, b = a + k * (2 * M_PI) := by
  obtain ⟨hle, ⟨k1, hk1⟩, _⟩ := while_above_spec M_PI f1 a a1 h1
  obtain ⟨hb, ⟨k2, hk2⟩, hlt, hge⟩ := while_below_spec M_PI f2 a1 b h2
  refine ⟨hb, ?_, ⟨(k2 : ℤ) - (k1 : ℤ), ?_⟩⟩
  · by_cases hneg : a1 < 0
    · exact le_of_lt (hlt hneg)
    · rw [hge (not_lt.mp hneg)]
      exact hle
  · push_cast
    linear_combination hk2 - hk1

/-- With `n` executions of the body allowed, the first loop ends from every start not
above `(n + 1) * (2 * M_PI)`, at a value that no further fuel changes. -/
theorem while_above_fuel {α : Type} [LinearOrderedField α] (M_PI : α) :
    ∀ (n : Nat) (a : α), a ≤ (n + 1) * (2 * M_PI) →
      ∃ b, ∀ m, n ≤ m → while_above M_PI m a = some b := by
  intro n
  have h2 : (2.0 : α) = 2 := by norm_num
  induction n with
  | zero =>
    intro a ha
    refine ⟨a, fun m _ => ?_⟩
    have hc : ¬ a > 2 * M_PI := by simpa using ha
    cases m <;> simp only [while_above, h2, if_neg hc]
  | succ n ih =>
    intro a ha
    by_cases hc : a > 2 * M_PI
    · have hstep : a - 2 * M_PI ≤ (n + 1) * (2 * M_PI) := by
        push_cast at ha
        linarith
      obtain ⟨b, hb⟩ := ih (a - 2 * M_PI) hstep
      refine ⟨b, fun m hm => ?_⟩
      obtain ⟨m', rfl⟩ : ∃ m', m = m' + 1 := ⟨m - 1, by omega⟩
      simp only [while_above, h2, if_pos hc]
      exact hb m' (by omega)
    · refine ⟨a, fun m _ => ?_⟩
      cases m <;> simp only [while_above, h2, if_neg hc]

/-- With `n` executions of the body allowed, the second loop ends from every start not
below `-(n * (2 * M_PI))`, at a value that no further fuel changes. -/
theorem while_below_fuel {α : Type} [LinearOrderedField α] (M_PI : α) :
    ∀ (n : Nat) (a : α), -a ≤ n * (2 * M_PI) →
      ∃ b, ∀ m, n ≤ m → while_below M_PI m a = some b := by
  intro n
  have h0 : (0.0 : α) = 0 := by norm_num
  have h2 : (2.0 : α) = 2 := by norm_num
  induction n with
  | zero =>
    intro a ha
    refine ⟨a, fun m _ => ?_⟩
    have hc : ¬ a < 0 := by
      simp at ha
      exact not_lt.mpr ha
    cases m <;> simp only [while_below, h0, h2, if_neg hc]
  | succ n ih =>
    intro a ha
    by_cases hc : a < 0
    · have hstep : -(a + 2 * M_PI) ≤ n * (2 * M_PI) := by
        push_cast at ha
        linarith
      obtain ⟨b, hb⟩ := ih (a + 2 * M_PI) hstep
      refine ⟨b, fun m hm => ?_⟩
      obtain ⟨m', rfl⟩ : ∃ m', m = m' + 1 := ⟨m - 1, by omega⟩
      simp only [while_below, h0, h2, if_pos hc]
      exact hb m' (by omega)
    · refine ⟨a, fun m _ => ?_⟩
      cases m <;> simp only [while_below, h0, h2, if_neg hc]

/-- Over an Archimedean field with `0 < M_PI` both loops end: some fuel makes the two
loops in sequence return. -/
theorem wrap_terminates {α : Type} [LinearOrderedField α] [Archimedean α] (M_PI : α)
    (hpi : 0 < M_PI) (a : α) :
    ∃ (fuel : Nat) (a1 b : α), ∀ m, fuel ≤ m →
      while_above M_PI m a = some a1 ∧ while_below M_PI m a1 = some b := by
  have h2pi : (0 : α) < 2 * M_PI := by linarith
  obtain ⟨n1, hn1⟩ := Archimedean.arch a h2pi
  have hn1' : a ≤ ((n1 : α) + 1) * (2 * M_PI) := by
    rw [nsmul_eq_mul] at hn1
    linarith
  obtain ⟨a1, ha1⟩ := while_above_fuel M_PI n1 a hn1'
  obtain ⟨n2, hn2⟩ := Archimedean.arch (-a1) h2pi
  have hn2' : -a1 ≤ (n2 : α) * (2 * M_PI) := by
    rw [nsmul_eq_mul] at hn2
    exact hn2
  obtain ⟨b, hb⟩ := while_below_fuel M_PI n2 a1 hn2'
  exact ⟨max n1 n2, a1, b, fun m hm =>
    ⟨ha1 m (le_trans (le_max_left _ _) hm), hb m (le_trans (le_max_right _ _) hm)⟩⟩

/-! ## `atmo_renderer_touch` -/

/-- A MOVE processed from phase DOWN in SUN mode: the result in terms of the two loops. -/
theorem touch_move_sun_iff {α : Type} [LinearOrderedField α] (M_PI : α) (fuel : Nat)
    (s s' : atmo_renderer α) (x y : α) (hdown : s.touch_event = ATMO_TOUCH_EVENT_DOWN)
    (hsun : s.touch_mode = ATMO_TOUCH_MODE_SUN) :
    atmo_renderer_touch M_PI fuel s ATMO_TOUCH_EVENT_MOVE x y = some s' ↔
      ∃ a1 b, while_above M_PI fuel (s.sun_azimuth + (s.touch_x - x) / 500) = some a1 ∧
        while_below M_PI fuel a1 = some b ∧
        s' = { s with
          sun_zenith :=
            if (if s.sun_zenith - (s.touch_y - y) / 500 > M_PI then M_PI
                else s.sun_zenith - (s.touch_y - y) / 500) < 0 then 0
            else (if s.sun_zenith - (s.touch_y - y) / 500 > M_PI then M_PI
                else s.sun_zenith - (s.touch_y - y) / 500)
          sun_azimuth := b, touch_x := x, touch_y := y } := by
  have h500 : (500.0 : α) = 500 := by norm_num
  have h0 : (0.0 : α) = 0 := by norm_num
  simp only [atmo_renderer_touch, hdown, hsun, h500, h0, ATMO_TOUCH_EVENT_DOWN,
    ATMO_TOUCH_EVENT_UP, ATMO_TOUCH_EVENT_MOVE, ATMO_TOUCH_MODE_SUN]
  norm_num [Option.bind_eq_some]
  constructor
  · rintro ⟨a1, h1, b, h2, rfl⟩
    exact ⟨a1, h1, b, h2, rfl⟩
  · rintro ⟨a1, h1, b, h2, rfl⟩
    exact ⟨a1, h1, b, h2, rfl⟩

/-- A MOVE processed from phase DOWN in VIEW mode: the result in terms of the two loops. -/
theorem touch_move_view_iff {α : Type} [LinearOrderedField α] (M_PI : α) (fuel : Nat)
    (s s' : atmo_renderer α) (x y : α) (hdown : s.touch_event = ATMO_TOUCH_EVENT_DOWN)
    (hview : s.touch_mode = ATMO_TOUCH_MODE_VIEW) :
    atmo_renderer_touch M_PI fuel s ATMO_TOUCH_EVENT_MOVE x y = some s' ↔
      ∃ a1 b, while_above M_PI fuel (s.view_azimuth + (s.touch_x - x) / 500) = some a1 ∧
        while_below M_PI fuel a1 = some b ∧
        s' = { s with
          view_zenith :=
            if (if s.view_zenith + (s.touch_y - y) / 500 > M_PI / 2 then M_PI / 2
                else s.view_zenith + (s.touch_y - y) / 500) < 0 then 0
            else (if s.view_zenith + (s.touch_y - y) / 500 > M_PI / 2 then M_PI / 2
                else s.view_zenith + (s.touch_y - y) / 500)
          view_azimuth := b, touch_x := x, touch_y := y } := by
  have h500 : (500.0 : α) = 500 := by norm_num
  have h0 : (0.0 : α) = 0 := by norm_num
  have h2 : (2.0 : α) = 2 := by norm_num
  simp only [atmo_renderer_touch, hdown, hview, h500, h0, h2, ATMO_TOUCH_EVENT_DOWN,
    ATMO_TOUCH_EVENT_UP, ATMO_TOUCH_EVENT_MOVE, ATMO_TOUCH_MODE_SUN, ATMO_TOUCH_MODE_VIEW]
  norm_num [Option.bind_eq_some]
  constructor
  · rintro ⟨a1, h1, b, h2, rfl⟩
    exact ⟨a1, h1, b, h2, rfl⟩
  · rintro ⟨a1, h1, b, h2, rfl⟩
    exact ⟨a1, h1, b, h2, rfl⟩

end Atmo

namespace Atmo

/-- A DOWN received in phase UP is recorded with its coordinates. -/
theorem touch_down_from_up {α : Type} [LinearOrderedField α] (M_PI : α) (fuel : Nat)
    (s : atmo_renderer α) (x y : α) (hup : s.touch_event = ATMO_TOUCH_EVENT_UP) :
    atmo_renderer_touch M_PI fuel s ATMO_TOUCH_EVENT_DOWN x y =
      some { s with touch_event := ATMO_TOUCH_EVENT_DOWN, touch_x := x, touch_y := y } := by
  simp [atmo_renderer_touch, hup]

/-- Field values of `sunModeState`. -/
theorem sunModeState_fields (α : Type) [LinearOrderedField α] :
    (sunModeState α).touch_event = ATMO_TOUCH_EVENT_UP ∧
    (sunModeState α).touch_mode = ATMO_TOUCH_MODE_SUN ∧
    (sunModeState α).sun_zenith = 1.3 ∧ (sunModeState α).sun_azimuth = 2.9 ∧
    (sunModeState α).touch_x = 0 ∧ (sunModeState α).touch_y = 0 := by
  simp [sunModeState, atmo_renderer_keyPress, new_self, ATMO_TOUCH_EVENT_UP]

/-- C5, as stated, fails: from `sunModeState` (phase UP, mode SUN, `sun_zenith` 1.3), a
DOWN at (10, 10) followed by a MOVE to (10, 110) gives `sun_zenith` 1.5, not
1.3 - 0.2 = 1.1, although 1.1 lies in the unclamped range. -/
theorem touch_down_move_sun_zenith_counterexample :
    (sunModeState ℝ).touch_event = ATMO_TOUCH_EVENT_UP ∧
    (sunModeState ℝ).touch_mode = ATMO_TOUCH_MODE_SUN ∧
    (sunModeState ℝ).sun_zenith = 1.3 ∧
    0 ≤ (sunModeState ℝ).sun_zenith - 0.2 ∧ (sunModeState ℝ).sun_zenith - 0.2 ≤ Real.pi ∧
    ((atmo_renderer_touch Real.pi 0 (sunModeState ℝ) ATMO_TOUCH_EVENT_DOWN 10 10).bind
      (fun s1 => atmo_renderer_touch Real.pi 0 s1 ATMO_TOUCH_EVENT_MOVE 10 110)).map
        (fun s2 => s2.sun_zenith) = some 1.5 ∧
    (1.5 : ℝ) ≠ (sunModeState ℝ).sun_zenith - 0.2 := by
  obtain ⟨hup, hsun, hz, ha, _, _⟩ := sunModeState_fields ℝ
  have hpi := Real.pi_gt_three
  refine ⟨hup, hsun, hz, ?_, ?_, ?_, ?_⟩
  · rw [hz]; norm_num
  · rw [hz]; norm_num; linarith
  · rw [touch_down_from_up Real.pi 0 _ 10 10 hup, Option.some_bind]
    have hmove := (touch_move_sun_iff Real.pi 0
      { sunModeState ℝ with touch_event := ATMO_TOUCH_EVENT_DOWN, touch_x := 10, touch_y := 10 }
      _ 10 110 rfl hsun).mpr ⟨2.9, 2.9, ?_, ?_, rfl⟩
    · rw [hmove]
      simp only [Option.map_some', hz]
      have h1 : ¬ ((1.3 : ℝ) - (10 - 110) / 500 > Real.pi) := by norm_num; linarith
      rw [if_neg h1]
      norm_num
    · simp only [while_above, ha]
      norm_num
      intro hgt
      linarith
    · simp only [while_below]
      norm_num
  · rw [hz]; norm_num

/-- C5, amended: from phase UP in SUN mode, a DOWN at (10, 10) followed by a MOVE to
(10, 110) returns and increases `sun_zenith` by exactly 100/500 = 0.2 whenever the
increased value lies in the unclamped range from 0 to `M_PI`. -/
theorem touch_down_move_increases_sun_zenith {α : Type} [LinearOrderedField α]
    [Archimedean α] (M_PI : α) (hpi : 0 < M_PI) (s : atmo_renderer α)
    (hup : s.touch_event = ATMO_TOUCH_EVENT_UP) (hsun : s.touch_mode = ATMO_TOUCH_MODE_SUN)
    (hlo : 0 ≤ s.sun_zenith + 0.2) (hhi : s.sun_zenith + 0.2 ≤ M_PI) :
    (∃ fuel s1 s2, atmo_renderer_touch M_PI fuel s ATMO_TOUCH_EVENT_DOWN 10 10 = some s1 ∧
      atmo_renderer_touch M_PI fuel s1 ATMO_TOUCH_EVENT_MOVE 10 110 = some s2) ∧
    ∀ f1 f2 s1 s2, atmo_renderer_touch M_PI f1 s ATMO_TOUCH_EVENT_DOWN 10 10 = some s1 →
      atmo_renderer_touch M_PI f2 s1 ATMO_TOUCH_EVENT_MOVE 10 110 = some s2 →
      s2.sun_zenith = s.sun_zenith + 0.2 ∧ s2.sun_zenith = s.sun_zenith + 100 / 500 := by
  constructor
  · obtain ⟨fuel, a1, b, hloops⟩ :=
      wrap_terminates M_PI hpi (s.sun_azimuth + ((10 : α) - 10) / 500)
    have hmove := (touch_move_sun_iff M_PI fuel
      { s with touch_event := ATMO_TOUCH_EVENT_DOWN, touch_x := 10, touch_y := 10 }
      _ 10 110 rfl hsun).mpr ⟨a1, b, (hloops fuel le_rfl).1, (hloops fuel le_rfl).2, rfl⟩
    exact ⟨fuel, _, _, touch_down_from_up M_PI fuel s 10 10 hup, hmove⟩
  · intro f1 f2 s1 s2 h1 h2
    rw [touch_down_from_up M_PI f1 s 10 10 hup] at h1
    have hs1 := Option.some.inj h1
    subst hs1
    obtain ⟨a1, b, _, _, hs2⟩ := (touch_move_sun_iff M_PI f2
      { s with touch_event := ATMO_TOUCH_EVENT_DOWN, touch_x := 10, touch_y := 10 }
      s2 10 110 rfl hsun).mp h2
    subst hs2
    have hval : s.sun_zenith - ((10 : α) - 110) / 500 = s.sun_zenith + 0.2 := by
      norm_num
    simp only [hval]
    rw [if_neg (not_lt.mpr hhi), if_neg (not_lt.mpr hlo)]
    exact ⟨rfl, by norm_num⟩

/-- Instance of the amended C5 at `sunModeState` over the rationals, with the value of
`M_PI` written in `math.h`. -/
theorem touch_down_move_increases_sun_zenith_witness :
    ((atmo_renderer_touch (3.14159265358979323846 : ℚ) 0 (sunModeState ℚ)
        ATMO_TOUCH_EVENT_DOWN 10 10).bind
      (fun s1 => atmo_renderer_touch (3.14159265358979323846 : ℚ) 0 s1
        ATMO_TOUCH_EVENT_MOVE 10 110)).map (fun s2 => s2.sun_zenith) = some 1.5 ∧
    ∀ f1 f2 s1 s2,
      atmo_renderer_touch (3.14159265358979323846 : ℚ) f1 (sunModeState ℚ)
        ATMO_TOUCH_EVENT_DOWN 10 10 = some s1 →
      atmo_renderer_touch (3.14159265358979323846 : ℚ) f2 s1
        ATMO_TOUCH_EVENT_MOVE 10 110 = some s2 →
      s2.sun_zenith = (sunModeState ℚ).sun_zenith + 0.2 ∧
        s2.sun_zenith = (sunModeState ℚ).sun_zenith + 100 / 500 :=
  ⟨by
    simp [sunModeState, atmo_renderer_keyPress, new_self, atmo_renderer_touch, while_above,
      while_below, ATMO_TOUCH_EVENT_UP, ATMO_TOUCH_EVENT_DOWN, ATMO_TOUCH_EVENT_MOVE,
      ATMO_TOUCH_MODE_SUN]
    norm_num,
   (touch_down_move_increases_sun_zenith (3.14159265358979323846 : ℚ) (by norm_num)
      (sunModeState ℚ) (sunModeState_fields ℚ).1 (sunModeState_fields ℚ).2.1
      (by rw [(sunModeState_fields ℚ).2.2.1]; norm_num)
      (by rw [(sunModeState_fields ℚ).2.2.1]; norm_num)).2⟩

end Atmo

namespace Atmo

/-- A MOVE processed from phase DOWN in a touch mode that is neither SUN nor VIEW only
moves the anchor. -/
theorem touch_move_other {α : Type} [LinearOrderedField α] (M_PI : α) (fuel : Nat)
    (s : atmo_renderer α) (x y : α) (hdown : s.touch_event = ATMO_TOUCH_EVENT_DOWN)
    (hsun : s.touch_mode ≠ ATMO_TOUCH_MODE_SUN) (hview : s.touch_mode ≠ ATMO_TOUCH_MODE_VIEW) :
    atmo_renderer_touch M_PI fuel s ATMO_TOUCH_EVENT_MOVE x y =
      some { s with touch_x := x, touch_y := y } := by
  simp [atmo_renderer_touch, hdown, hsun, hview, ATMO_TOUCH_EVENT_DOWN, ATMO_TOUCH_EVENT_UP,
    ATMO_TOUCH_EVENT_MOVE]

/-- Over an Archimedean field with `0 < M_PI`, a MOVE processed from phase DOWN returns
once the fuel is large enough. -/
theorem touch_move_returns {α : Type} [LinearOrderedField α] [Archimedean α] (M_PI : α)
    (hpi : 0 < M_PI) (s : atmo_renderer α) (x y : α)
    (hdown : s.touch_event = ATMO_TOUCH_EVENT_DOWN) :
    ∃ fuel s', atmo_renderer_touch M_PI fuel s ATMO_TOUCH_EVENT_MOVE x y = some s' := by
  by_cases hsun : s.touch_mode = ATMO_TOUCH_MODE_SUN
  · obtain ⟨fuel, a1, b, hloops⟩ :=
      wrap_terminates M_PI hpi (s.sun_azimuth + (s.touch_x - x) / 500)
    exact ⟨fuel, _, (touch_move_sun_iff M_PI fuel s _ x y hdown hsun).mpr
      ⟨a1, b, (hloops fuel le_rfl).1, (hloops fuel le_rfl).2, rfl⟩⟩
  · by_cases hview : s.touch_mode = ATMO_TOUCH_MODE_VIEW
    · obtain ⟨fuel, a1, b, hloops⟩ :=
        wrap_terminates M_PI hpi (s.view_azimuth + (s.touch_x - x) / 500)
      exact ⟨fuel, _, (touch_move_view_iff M_PI fuel s _ x y hdown hview).mpr
        ⟨a1, b, (hloops fuel le_rfl).1, (hloops fuel le_rfl).2, rfl⟩⟩
    · exact ⟨0, _, touch_move_other M_PI 0 s x y hdown hsun hview⟩

/-- C6, as stated, fails at the upper end of the interval: from `sunModeState`
(`sun_azimuth` 2.9), a DOWN at (500 * (2 * pi - 2.9), 0) followed by a MOVE to (0, 0)
adds exactly 2 * pi - 2.9, and both loops leave the value 2 * pi, which is not below
2 * pi. -/
theorem touch_move_azimuth_half_open_counterexample :
    ((atmo_renderer_touch Real.pi 0 (sunModeState ℝ) ATMO_TOUCH_EVENT_DOWN
        (500 * (2 * Real.pi - 2.9)) 0).bind
      (fun s1 => atmo_renderer_touch Real.pi 0 s1 ATMO_TOUCH_EVENT_MOVE 0 0)).map
        (fun s2 => s2.sun_azimuth) = some (2 * Real.pi) ∧
    ¬ (2 * Real.pi < 2 * Real.pi) := by
  obtain ⟨hup, hsun, hz, ha, _, _⟩ := sunModeState_fields ℝ
  have hpi := Real.pi_gt_three
  refine ⟨?_, lt_irrefl _⟩
  rw [touch_down_from_up Real.pi 0 _ _ 0 hup, Option.some_bind]
  have hval : (2.9 : ℝ) + (500 * (2 * Real.pi - 2.9) - 0) / 500 = 2 * Real.pi := by
    norm_num
  have hmove := (touch_move_sun_iff Real.pi 0
    { sunModeState ℝ with
      touch_event := ATMO_TOUCH_EVENT_DOWN, touch_x := 500 * (2 * Real.pi - 2.9), touch_y := 0 }
    _ 0 0 rfl hsun).mpr ⟨2 * Real.pi, 2 * Real.pi, ?_, ?_, rfl⟩
  · rw [hmove]
    rfl
  · simp only [while_above, ha, hval]
    norm_num
  · simp only [while_below]
    norm_num
    intro hneg
    linarith

/-- C6, amended: a MOVE processed from phase DOWN returns, and leaves the azimuth of the
active mode in the closed interval from 0 to `2 * M_PI` (`sun_azimuth` in SUN mode,
`view_azimuth` in VIEW mode), for every prior azimuth and every drag delta. -/
theorem touch_move_azimuth_closed_range {α : Type} [LinearOrderedField α] [Archimedean α]
    (M_PI : α) (hpi : 0 < M_PI) (s : atmo_renderer α) (x y : α)
    (hdown : s.touch_event = ATMO_TOUCH_EVENT_DOWN) :
    (∃ fuel s', atmo_renderer_touch M_PI fuel s ATMO_TOUCH_EVENT_MOVE x y = some s') ∧
    ∀ fuel s', atmo_renderer_touch M_PI fuel s ATMO_TOUCH_EVENT_MOVE x y = some s' →
      (s.touch_mode = ATMO_TOUCH_MODE_SUN →
        0 ≤ s'.sun_azimuth ∧ s'.sun_azimuth ≤ 2 * M_PI) ∧
      (s.touch_mode = ATMO_TOUCH_MODE_VIEW →
        0 ≤ s'.view_azimuth ∧ s'.view_azimuth ≤ 2 * M_PI) := by
  refine ⟨touch_move_returns M_PI hpi s x y hdown, ?_⟩
  intro fuel s' h
  constructor
  · intro hsun
    obtain ⟨a1, b, h1, h2, hs'⟩ := (touch_move_sun_iff M_PI fuel s s' x y hdown hsun).mp h
    obtain ⟨hb0, hb1, _⟩ := wrap_spec M_PI fuel fuel _ a1 b h1 h2
    subst hs'
    exact ⟨hb0, hb1⟩
  · intro hview
    obtain ⟨a1, b, h1, h2, hs'⟩ := (touch_move_view_iff M_PI fuel s s' x y hdown hview).mp h
    obtain ⟨hb0, hb1, _⟩ := wrap_spec M_PI fuel fuel _ a1 b h1 h2
    subst hs'
    exact ⟨hb0, hb1⟩

/-- Instance of the amended C6 over the rationals, with the value of `M_PI` written in
`math.h`: from `sunModeState` put in phase DOWN at (4000, 0), a MOVE to (0, 0) adds 8 to
the azimuth 2.9 and the first loop brings it back below `2 * M_PI`. -/
theorem touch_move_azimuth_closed_range_witness :
    (atmo_renderer_touch (3.14159265358979323846 : ℚ) 1
        { sunModeState ℚ with
          touch_event := ATMO_TOUCH_EVENT_DOWN, touch_x := 4000, touch_y := 0 }
        ATMO_TOUCH_EVENT_MOVE 0 0).map (fun s2 => s2.sun_azimuth) =
      some (10.9 - 2 * 3.14159265358979323846) ∧
    ∀ fuel s',
      atmo_renderer_touch (3.14159265358979323846 : ℚ) fuel
        { sunModeState ℚ with
          touch_event := ATMO_TOUCH_EVENT_DOWN, touch_x := 4000, touch_y := 0 }
        ATMO_TOUCH_EVENT_MOVE 0 0 = some s' →
      (ATMO_TOUCH_MODE_SUN = ATMO_TOUCH_MODE_SUN →
        0 ≤ s'.sun_azimuth ∧ s'.sun_azimuth ≤ 2 * 3.14159265358979323846) ∧
      (ATMO_TOUCH_MODE_SUN = ATMO_TOUCH_MODE_VIEW →
        0 ≤ s'.view_azimuth ∧ s'.view_azimuth ≤ 2 * 3.14159265358979323846) :=
  ⟨by
    simp [sunModeState, atmo_renderer_keyPress, new_self, atmo_renderer_touch, while_above,
      while_below, ATMO_TOUCH_EVENT_UP, ATMO_TOUCH_EVENT_DOWN, ATMO_TOUCH_EVENT_MOVE,
      ATMO_TOUCH_MODE_SUN]
    norm_num,
   (touch_move_azimuth_closed_range (3.14159265358979323846 : ℚ) (by norm_num)
      { sunModeState ℚ with
        touch_event := ATMO_TOUCH_EVENT_DOWN, touch_x := 4000, touch_y := 0 }
      0 0 rfl).2⟩

end Atmo

namespace Atmo

/-! ## `atmo_renderer_keyPress`, branch by branch -/

/-- The escape branch of `atmo_renderer_keyPress`. -/
theorem keyPress_escape {α : Type} [LinearOrderedField α] (VKK_KEYCODE_ESCAPE : Int) (now : α)
    (s : atmo_renderer α) (_meta : Int) :
    atmo_renderer_keyPress VKK_KEYCODE_ESCAPE now s VKK_KEYCODE_ESCAPE _meta =
      if now - s.escape_t0 < 0.5 then (s, [vkk_platformCmd.VKK_PLATFORM_CMD_EXIT])
      else ({ s with escape_t0 := now }, []) := by
  simp only [atmo_renderer_keyPress, if_true]

/-- The branch of key code 61 of `atmo_renderer_keyPress`. -/
theorem keyPress_key61 {α : Type} [LinearOrderedField α] (VKK_KEYCODE_ESCAPE : Int) (now : α)
    (s : atmo_renderer α) (_meta : Int) (hesc : (61 : Int) ≠ VKK_KEYCODE_ESCAPE) :
    atmo_renderer_keyPress VKK_KEYCODE_ESCAPE now s 61 _meta =
      ({ s with exposure := s.exposure * 1.1 }, []) := by
  simp only [atmo_renderer_keyPress, if_neg hesc, Int.reduceEq, reduceIte]

/-- The branch of key code 45 of `atmo_renderer_keyPress`. -/
theorem keyPress_key45 {α : Type} [LinearOrderedField α] (VKK_KEYCODE_ESCAPE : Int) (now : α)
    (s : atmo_renderer α) (_meta : Int) (hesc : (45 : Int) ≠ VKK_KEYCODE_ESCAPE) :
    atmo_renderer_keyPress VKK_KEYCODE_ESCAPE now s 45 _meta =
      ({ s with exposure := s.exposure / 1.1 }, []) := by
  simp only [atmo_renderer_keyPress, if_neg hesc, Int.reduceEq, reduceIte]

/-- The branch of key code 49 of `atmo_renderer_keyPress`. -/
theorem keyPress_key49 {α : Type} [LinearOrderedField α] (VKK_KEYCODE_ESCAPE : Int) (now : α)
    (s : atmo_renderer α) (_meta : Int) (hesc : (49 : Int) ≠ VKK_KEYCODE_ESCAPE) :
    atmo_renderer_keyPress VKK_KEYCODE_ESCAPE now s 49 _meta =
      (atmo_renderer_setView s 9000.0 1.47 0.0 1.3 3.0 10.0, []) := by
  simp only [atmo_renderer_keyPress, if_neg hesc, Int.reduceEq, reduceIte]

/-- The branch of key code 50 of `atmo_renderer_keyPress`. -/
theorem keyPress_key50 {α : Type} [LinearOrderedField α] (VKK_KEYCODE_ESCAPE : Int) (now : α)
    (s : atmo_renderer α) (_meta : Int) (hesc : (50 : Int) ≠ VKK_KEYCODE_ESCAPE) :
    atmo_renderer_keyPress VKK_KEYCODE_ESCAPE now s 50 _meta =
      (atmo_renderer_setView s 9000.0 1.47 0.0 1.564 (-3.0) 10.0, []) := by
  simp only [atmo_renderer_keyPress, if_neg hesc, Int.reduceEq, reduceIte]

/-- The branch of key code 51 of `atmo_renderer_keyPress`. -/
theorem keyPress_key51 {α : Type} [LinearOrderedField α] (VKK_KEYCODE_ESCAPE : Int) (now : α)
    (s : atmo_renderer α) (_meta : Int) (hesc : (51 : Int) ≠ VKK_KEYCODE_ESCAPE) :
    atmo_renderer_keyPress VKK_KEYCODE_ESCAPE now s 51 _meta =
      (atmo_renderer_setView s 7000.0 1.57 0.0 1.54 (-2.96) 10.0, []) := by
  simp only [atmo_renderer_keyPress, if_neg hesc, Int.reduceEq, reduceIte]

/-- The branch of key code 52 of `atmo_renderer_keyPress`. -/
theorem keyPress_key52 {α : Type} [LinearOrderedField α] (VKK_KEYCODE_ESCAPE : Int) (now : α)
    (s : atmo_renderer α) (_meta : Int) (hesc : (52 : Int) ≠ VKK_KEYCODE_ESCAPE) :
    atmo_renderer_keyPress VKK_KEYCODE_ESCAPE now s 52 _meta =
      (atmo_renderer_setView s 7000.0 1.57 0.0 1.328 (-3.044) 10.0, []) := by
  simp only [atmo_renderer_keyPress, if_neg hesc, Int.reduceEq, reduceIte]

/-- The branch of key code 53 of `atmo_renderer_keyPress`. -/
theorem keyPress_key53 {α : Type} [LinearOrderedField α] (VKK_KEYCODE_ESCAPE : Int) (now : α)
    (s : atmo_renderer α) (_meta : Int) (hesc : (53 : Int) ≠ VKK_KEYCODE_ESCAPE) :
    atmo_renderer_keyPress VKK_KEYCODE_ESCAPE now s 53 _meta =
      (atmo_renderer_setView s 9000.0 1.39 0.0 1.2 0.7 10.0, []) := by
  simp only [atmo_renderer_keyPress, if_neg hesc, Int.reduceEq, reduceIte]

/-- The branch of key code 54 of `atmo_renderer_keyPress`. -/
theorem keyPress_key54 {α : Type} [LinearOrderedField α] (VKK_KEYCODE_ESCAPE : Int) (now : α)
    (s : atmo_renderer α) (_meta : Int) (hesc : (54 : Int) ≠ VKK_KEYCODE_ESCAPE) :
    atmo_renderer_keyPress VKK_KEYCODE_ESCAPE now s 54 _meta =
      (atmo_renderer_setView s 9000.0 1.5 0.0 1.628 1.05 200.0, []) := by
  simp only [atmo_renderer_keyPress, if_neg hesc, Int.reduceEq, reduceIte]

/-- The branch of key code 55 of `atmo_renderer_keyPress`. -/
theorem keyPress_key55 {α : Type} [LinearOrderedField α] (VKK_KEYCODE_ESCAPE : Int) (now : α)
    (s : atmo_renderer α) (_meta : Int) (hesc : (55 : Int) ≠ VKK_KEYCODE_ESCAPE) :
    atmo_renderer_keyPress VKK_KEYCODE_ESCAPE now s 55 _meta =
      (atmo_renderer_setView s 7000.0 1.43 0.0 1.57 1.34 40.0, []) := by
  simp only [atmo_renderer_keyPress, if_neg hesc, Int.reduceEq, reduceIte]

/-- The branch of key code 56 of `atmo_renderer_keyPress`. -/
theorem keyPress_key56 {α : Type} [LinearOrderedField α] (VKK_KEYCODE_ESCAPE : Int) (now : α)
    (s : atmo_renderer α) (_meta : Int) (hesc : (56 : Int) ≠ VKK_KEYCODE_ESCAPE) :
    atmo_renderer_keyPress VKK_KEYCODE_ESCAPE now s 56 _meta =
      (atmo_renderer_setView s 2.7e6 0.81 0.0 1.57 2.0 10.0, []) := by
  simp only [atmo_renderer_keyPress, if_neg hesc, Int.reduceEq, reduceIte]

/-- The branch of key code 57 of `atmo_renderer_keyPress`. -/
theorem keyPress_key57 {α : Type} [LinearOrderedField α] (VKK_KEYCODE_ESCAPE : Int) (now : α)
    (s : atmo_renderer α) (_meta : Int) (hesc : (57 : Int) ≠ VKK_KEYCODE_ESCAPE) :
    atmo_renderer_keyPress VKK_KEYCODE_ESCAPE now s 57 _meta =
      (atmo_renderer_setView s 1.2e7 0.0 0.0 0.93 (-2.0) 10.0, []) := by
  simp only [atmo_renderer_keyPress, if_neg hesc, Int.reduceEq, reduceIte]

/-- The branch of key code 105 of `atmo_renderer_keyPress`. -/
theorem keyPress_key105 {α : Type} [LinearOrderedField α] (VKK_KEYCODE_ESCAPE : Int) (now : α)
    (s : atmo_renderer α) (_meta : Int) (hesc : (105 : Int) ≠ VKK_KEYCODE_ESCAPE) :
    atmo_renderer_keyPress VKK_KEYCODE_ESCAPE now s 105 _meta =
      ({ s with view_distance := s.view_distance / 1.05 }, []) := by
  simp only [atmo_renderer_keyPress, if_neg hesc, Int.reduceEq, reduceIte]

/-- The branch of key code 111 of `atmo_renderer_keyPress`. -/
theorem keyPress_key111 {α : Type} [LinearOrderedField α] (VKK_KEYCODE_ESCAPE : Int) (now : α)
    (s : atmo_renderer α) (_meta : Int) (hesc : (111 : Int) ≠ VKK_KEYCODE_ESCAPE) :
    atmo_renderer_keyPress VKK_KEYCODE_ESCAPE now s 111 _meta =
      ({ s with view_distance := s.view_distance * 1.05 }, []) := by
  simp only [atmo_renderer_keyPress, if_neg hesc, Int.reduceEq, reduceIte]

/-- The branch of key code 118 of `atmo_renderer_keyPress`. -/
theorem keyPress_key118 {α : Type} [LinearOrderedField α] (VKK_KEYCODE_ESCAPE : Int) (now : α)
    (s : atmo_renderer α) (_meta : Int) (hesc : (118 : Int) ≠ VKK_KEYCODE_ESCAPE) :
    atmo_renderer_keyPress VKK_KEYCODE_ESCAPE now s 118 _meta =
      ({ s with touch_mode := ATMO_TOUCH_MODE_VIEW }, []) := by
  simp only [atmo_renderer_keyPress, if_neg hesc, Int.reduceEq, reduceIte]

/-- The branch of key code 115 of `atmo_renderer_keyPress`. -/
theorem keyPress_key115 {α : Type} [LinearOrderedField α] (VKK_KEYCODE_ESCAPE : Int) (now : α)
    (s : atmo_renderer α) (_meta : Int) (hesc : (115 : Int) ≠ VKK_KEYCODE_ESCAPE) :
    atmo_renderer_keyPress VKK_KEYCODE_ESCAPE now s 115 _meta =
      ({ s with touch_mode := ATMO_TOUCH_MODE_SUN }, []) := by
  simp only [atmo_renderer_keyPress, if_neg hesc, Int.reduceEq, reduceIte]

/-- The branch of key code 109 of `atmo_renderer_keyPress`. -/
theorem keyPress_key109 {α : Type} [LinearOrderedField α] (VKK_KEYCODE_ESCAPE : Int) (now : α)
    (s : atmo_renderer α) (_meta : Int) (hesc : (109 : Int) ≠ VKK_KEYCODE_ESCAPE) :
    atmo_renderer_keyPress VKK_KEYCODE_ESCAPE now s 109 _meta =
      ({ s with simple := 1 - s.simple }, []) := by
  simp only [atmo_renderer_keyPress, if_neg hesc, Int.reduceEq, reduceIte]

/-- Every other key code leaves the state unchanged and issues no command. -/
theorem keyPress_other {α : Type} [LinearOrderedField α] (VKK_KEYCODE_ESCAPE : Int) (now : α)
    (s : atmo_renderer α) (keycode _meta : Int) (hesc : keycode ≠ VKK_KEYCODE_ESCAPE)
    (h61 : keycode ≠ 61) (h45 : keycode ≠ 45) (h49 : keycode ≠ 49) (h50 : keycode ≠ 50)
    (h51 : keycode ≠ 51) (h52 : keycode ≠ 52) (h53 : keycode ≠ 53) (h54 : keycode ≠ 54)
    (h55 : keycode ≠ 55) (h56 : keycode ≠ 56) (h57 : keycode ≠ 57) (h105 : keycode ≠ 105)
    (h111 : keycode ≠ 111) (h118 : keycode ≠ 118) (h115 : keycode ≠ 115) (h109 : keycode ≠ 109) :
    atmo_renderer_keyPress VKK_KEYCODE_ESCAPE now s keycode _meta = (s, []) := by
  simp only [atmo_renderer_keyPress, if_neg hesc,
    if_neg h61, if_neg h45, if_neg h49, if_neg h50, if_neg h51, if_neg h52, if_neg h53,
    if_neg h54, if_neg h55, if_neg h56, if_neg h57, if_neg h105, if_neg h111, if_neg h118,
    if_neg h115, if_neg h109]

/-- The result of `atmo_renderer_keyPress` is that of exactly one of its branches. -/
theorem keyPress_cases {α : Type} [LinearOrderedField α] (VKK_KEYCODE_ESCAPE : Int) (now : α)
    (s : atmo_renderer α) (keycode _meta : Int) (r : atmo_renderer α × List vkk_platformCmd)
    (hr : atmo_renderer_keyPress VKK_KEYCODE_ESCAPE now s keycode _meta = r) :
    (keycode = VKK_KEYCODE_ESCAPE ∧ r =
        if now - s.escape_t0 < 0.5 then (s, [vkk_platformCmd.VKK_PLATFORM_CMD_EXIT])
        else ({ s with escape_t0 := now }, [])) ∨
    (keycode = 61 ∧ r = ({ s with exposure := s.exposure * 1.1 }, [])) ∨
    (keycode = 45 ∧ r = ({ s with exposure := s.exposure / 1.1 }, [])) ∨
    (keycode = 49 ∧ r = (atmo_renderer_setView s 9000.0 1.47 0.0 1.3 3.0 10.0, [])) ∨
    (keycode = 50 ∧ r = (atmo_renderer_setView s 9000.0 1.47 0.0 1.564 (-3.0) 10.0, [])) ∨
    (keycode = 51 ∧ r = (atmo_renderer_setView s 7000.0 1.57 0.0 1.54 (-2.96) 10.0, [])) ∨
    (keycode = 52 ∧ r = (atmo_renderer_setView s 7000.0 1.57 0.0 1.328 (-3.044) 10.0, [])) ∨
    (keycode = 53 ∧ r = (atmo_renderer_setView s 9000.0 1.39 0.0 1.2 0.7 10.0, [])) ∨
    (keycode = 54 ∧ r = (atmo_renderer_setView s 9000.0 1.5 0.0 1.628 1.05 200.0, [])) ∨
    (keycode = 55 ∧ r = (atmo_renderer_setView s 7000.0 1.43 0.0 1.57 1.34 40.0, [])) ∨
    (keycode = 56 ∧ r = (atmo_renderer_setView s 2.7e6 0.81 0.0 1.57 2.0 10.0, [])) ∨
    (keycode = 57 ∧ r = (atmo_renderer_setView s 1.2e7 0.0 0.0 0.93 (-2.0) 10.0, [])) ∨
    (keycode = 105 ∧ r = ({ s with view_distance := s.view_distance / 1.05 }, [])) ∨
    (keycode = 111 ∧ r = ({ s with view_distance := s.view_distance * 1.05 }, [])) ∨
    (keycode = 118 ∧ r = ({ s with touch_mode := ATMO_TOUCH_MODE_VIEW }, [])) ∨
    (keycode = 115 ∧ r = ({ s with touch_mode := ATMO_TOUCH_MODE_SUN }, [])) ∨
    (keycode = 109 ∧ r = ({ s with simple := 1 - s.simple }, [])) ∨
    r = (s, []) := by
  subst hr
  by_cases hesc : keycode = VKK_KEYCODE_ESCAPE
  · subst hesc
    exact Or.inl ⟨rfl, keyPress_escape _ now s _meta⟩
  right
  by_cases h61 : keycode = 61
  · subst h61
    exact Or.inl ⟨rfl, keyPress_key61 VKK_KEYCODE_ESCAPE now s _meta hesc⟩
  right
  by_cases h45 : keycode = 45
  · subst h45
    exact Or.inl ⟨rfl, keyPress_key45 VKK_KEYCODE_ESCAPE now s _meta hesc⟩
  right
  by_cases h49 : keycode = 49
  · subst h49
    exact Or.inl ⟨rfl, keyPress_key49 VKK_KEYCODE_ESCAPE now s _meta hesc⟩
  right
  by_cases h50 : keycode = 50
  · subst h50
    exact Or.inl ⟨rfl, keyPress_key50 VKK_KEYCODE_ESCAPE now s _meta hesc⟩
  right
  by_cases h51 : keycode = 51
  · subst h51
    exact Or.inl ⟨rfl, keyPress_key51 VKK_KEYCODE_ESCAPE now s _meta hesc⟩
  right
  by_cases h52 : keycode = 52
  · subst h52
    exact Or.inl ⟨rfl, keyPress_key52 VKK_KEYCODE_ESCAPE now s _meta hesc⟩
  right
  by_cases h53 : keycode = 53
  · subst h53
    exact Or.inl ⟨rfl, keyPress_key53 VKK_KEYCODE_ESCAPE now s _meta hesc⟩
  right
  by_cases h54 : keycode = 54
  · subst h54
    exact Or.inl ⟨rfl, keyPress_key54 VKK_KEYCODE_ESCAPE now s _meta hesc⟩
  right
  by_cases h55 : keycode = 55
  · subst h55
    exact Or.inl ⟨rfl, keyPress_key55 VKK_KEYCODE_ESCAPE now s _meta hesc⟩
  right
  by_cases h56 : keycode = 56
  · subst h56
    exact Or.inl ⟨rfl, keyPress_key56 VKK_KEYCODE_ESCAPE now s _meta hesc⟩
  right
  by_cases h57 : keycode = 57
  · subst h57
    exact Or.inl ⟨rfl, keyPress_key57 VKK_KEYCODE_ESCAPE now s _meta hesc⟩
  right
  by_cases h105 : keycode = 105
  · subst h105
    exact Or.inl ⟨rfl, keyPress_key105 VKK_KEYCODE_ESCAPE now s _meta hesc⟩
  right
  by_cases h111 : keycode = 111
  · subst h111
    exact Or.inl ⟨rfl, keyPress_key111 VKK_KEYCODE_ESCAPE now s _meta hesc⟩
  right
  by_cases h118 : keycode = 118
  · subst h118
    exact Or.inl ⟨rfl, keyPress_key118 VKK_KEYCODE_ESCAPE now s _meta hesc⟩
  right
  by_cases h115 : keycode = 115
  · subst h115
    exact Or.inl ⟨rfl, keyPress_key115 VKK_KEYCODE_ESCAPE now s _meta hesc⟩
  right
  by_cases h109 : keycode = 109
  · subst h109
    exact Or.inl ⟨rfl, keyPress_key109 VKK_KEYCODE_ESCAPE now s _meta hesc⟩
  right
  exact keyPress_other VKK_KEYCODE_ESCAPE now s keycode _meta hesc
    h61 h45 h49 h50 h51 h52 h53 h54 h55 h56 h57 h105 h111 h118 h115 h109

end Atmo

namespace Atmo

/-! ## Ranges of the scene angles -/

/-- Every call of `atmo_renderer_touch` that returns either leaves the six scene values
unchanged or is a MOVE processed from phase DOWN in SUN or VIEW mode. -/
theorem touch_frame {α : Type} [LinearOrderedField α] (M_PI : α) (fuel : Nat)
    (s s' : atmo_renderer α) (event : Int) (x y : α)
    (h : atmo_renderer_touch M_PI fuel s event x y = some s') :
    (s'.view_distance = s.view_distance ∧ s'.view_zenith = s.view_zenith ∧
      s'.view_azimuth = s.view_azimuth ∧ s'.sun_zenith = s.sun_zenith ∧
      s'.sun_azimuth = s.sun_azimuth ∧ s'.exposure = s.exposure) ∨
    (s.touch_event = ATMO_TOUCH_EVENT_DOWN ∧ event = ATMO_TOUCH_EVENT_MOVE ∧
      (s.touch_mode = ATMO_TOUCH_MODE_SUN ∨ s.touch_mode = ATMO_TOUCH_MODE_VIEW)) := by
  by_cases hmove : s.touch_event = ATMO_TOUCH_EVENT_DOWN ∧ event = ATMO_TOUCH_EVENT_MOVE
  · by_cases hsun : s.touch_mode = ATMO_TOUCH_MODE_SUN
    · exact Or.inr ⟨hmove.1, hmove.2, Or.inl hsun⟩
    · by_cases hview : s.touch_mode = ATMO_TOUCH_MODE_VIEW
      · exact Or.inr ⟨hmove.1, hmove.2, Or.inr hview⟩
      · left
        rw [hmove.2, touch_move_other M_PI fuel s x y hmove.1 hsun hview] at h
        have hs := Option.some.inj h
        subst hs
        exact ⟨rfl, rfl, rfl, rfl, rfl, rfl⟩
  · left
    simp only [atmo_renderer_touch, if_neg hmove] at h
    split_ifs at h <;>
    · have hs := Option.some.inj h
      subst hs
      exact ⟨rfl, rfl, rfl, rfl, rfl, rfl⟩

/-- The two-sided clamp written as two `if` statements keeps a value between 0 and the
upper limit. -/
theorem clamp_range {α : Type} [LinearOrderedField α] (M z : α) (hM : 0 ≤ M) :
    0 ≤ (if (if z > M then M else z) < 0 then 0 else (if z > M then M else z)) ∧
    (if (if z > M then M else z) < 0 then 0 else (if z > M then M else z)) ≤ M := by
  split_ifs with h1 h2 h3 <;> constructor <;> linarith

/-- The state returned by `atmo_renderer_new` has its angles in range. -/
theorem new_self_ranges {α : Type} [LinearOrderedField α] (M_PI : α) (hpi : 3.14 ≤ M_PI)
    (engine : Nat) (now : α) : AngleRanges M_PI (new_self engine now) := by
  have hpi' : (314 : α) / 100 ≤ M_PI := by norm_num at hpi ⊢; exact hpi
  simp only [AngleRanges, new_self]
  refine ⟨⟨?_, ?_⟩, ⟨?_, ?_⟩, ⟨?_, ?_⟩, ⟨?_, ?_⟩⟩ <;> norm_num <;> linarith

/-- Every returning call of `atmo_renderer_touch` keeps the angles in range. -/
theorem touch_ranges {α : Type} [LinearOrderedField α] (M_PI : α) (hpi : 3.14 ≤ M_PI)
    (fuel : Nat) (s s' : atmo_renderer α) (event : Int) (x y : α)
    (htouch : atmo_renderer_touch M_PI fuel s event x y = some s')
    (ih : AngleRanges M_PI s) : AngleRanges M_PI s' := by
  have hpi' : (314 : α) / 100 ≤ M_PI := by norm_num at hpi ⊢; exact hpi
  obtain ⟨hvz, hsz, hva, hsa⟩ := ih
  rcases touch_frame M_PI fuel s s' event x y htouch with hfr | ⟨hdown, hev, hmode⟩
  · obtain ⟨_, e1, e2, e3, e4, _⟩ := hfr
    simp only [AngleRanges, e1, e2, e3, e4]
    exact ⟨hvz, hsz, hva, hsa⟩
  · rw [hev] at htouch
    rcases hmode with hsun | hview
    · obtain ⟨a1, b, h1, h2, hs'⟩ :=
        (touch_move_sun_iff M_PI fuel s s' x y hdown hsun).mp htouch
      obtain ⟨hb0, hb1, _⟩ := wrap_spec M_PI fuel fuel _ a1 b h1 h2
      subst hs'
      refine ⟨hvz, clamp_range M_PI _ (by linarith), hva, ?_, hb1⟩
      show (-3.044 : α) ≤ b
      norm_num
      linarith
    · obtain ⟨a1, b, h1, h2, hs'⟩ :=
        (touch_move_view_iff M_PI fuel s s' x y hdown hview).mp htouch
      obtain ⟨hb0, hb1, _⟩ := wrap_spec M_PI fuel fuel _ a1 b h1 h2
      subst hs'
      refine ⟨clamp_range (M_PI / 2) _ (by linarith), hsz, ⟨?_, hb1⟩, hsa⟩
      show (-0.1 : α) ≤ b
      norm_num
      linarith

set_option maxHeartbeats 1000000 in
/-- Every call of `atmo_renderer_keyPress` keeps the angles in range. -/
theorem keyPress_ranges {α : Type} [LinearOrderedField α] (M_PI : α) (hpi : 3.14 ≤ M_PI)
    (VKK_KEYCODE_ESCAPE : Int) (now : α) (s : atmo_renderer α) (keycode _meta : Int)
    (ih : AngleRanges M_PI s) :
    AngleRanges M_PI (atmo_renderer_keyPress VKK_KEYCODE_ESCAPE now s keycode _meta).1 := by
  have hpi' : (314 : α) / 100 ≤ M_PI := by norm_num at hpi ⊢; exact hpi
  obtain ⟨hvz, hsz, hva, hsa⟩ := ih
  simp only [AngleRanges]
  generalize hr : atmo_renderer_keyPress VKK_KEYCODE_ESCAPE now s keycode _meta = r
  rcases keyPress_cases VKK_KEYCODE_ESCAPE now s keycode _meta r hr with
    ⟨_, hEsc⟩ | ⟨_, h61⟩ | ⟨_, h45⟩ | ⟨_, h49⟩ | ⟨_, h50⟩ | ⟨_, h51⟩ | ⟨_, h52⟩ |
    ⟨_, h53⟩ | ⟨_, h54⟩ | ⟨_, h55⟩ | ⟨_, h56⟩ | ⟨_, h57⟩ | ⟨_, h105⟩ | ⟨_, h111⟩ |
    ⟨_, h118⟩ | ⟨_, h115⟩ | ⟨_, h109⟩ | hother
  · rw [hEsc]
    split_ifs <;> exact ⟨hvz, hsz, hva, hsa⟩
  · rw [h61]
    exact ⟨hvz, hsz, hva, hsa⟩
  · rw [h45]
    exact ⟨hvz, hsz, hva, hsa⟩
  · rw [h49]
    simp only [atmo_renderer_setView]
    refine ⟨⟨?_, ?_⟩, ⟨?_, ?_⟩, ⟨?_, ?_⟩, ⟨?_, ?_⟩⟩ <;> norm_num <;> linarith
  · rw [h50]
    simp only [atmo_renderer_setView]
    refine ⟨⟨?_, ?_⟩, ⟨?_, ?_⟩, ⟨?_, ?_⟩, ⟨?_, ?_⟩⟩ <;> norm_num <;> linarith
  · rw [h51]
    simp only [atmo_renderer_setView]
    refine ⟨⟨?_, ?_⟩, ⟨?_, ?_⟩, ⟨?_, ?_⟩, ⟨?_, ?_⟩⟩ <;> norm_num <;> linarith
  · rw [h52]
    simp only [atmo_renderer_setView]
    refine ⟨⟨?_, ?_⟩, ⟨?_, ?_⟩, ⟨?_, ?_⟩, ⟨?_, ?_⟩⟩ <;> norm_num <;> linarith
  · rw [h53]
    simp only [atmo_renderer_setView]
    refine ⟨⟨?_, ?_⟩, ⟨?_, ?_⟩, ⟨?_, ?_⟩, ⟨?_, ?_⟩⟩ <;> norm_num <;> linarith
  · rw [h54]
    simp only [atmo_renderer_setView]
    refine ⟨⟨?_, ?_⟩, ⟨?_, ?_⟩, ⟨?_, ?_⟩, ⟨?_, ?_⟩⟩ <;> norm_num <;> linarith
  · rw [h55]
    simp only [atmo_renderer_setView]
    refine ⟨⟨?_, ?_⟩, ⟨?_, ?_⟩, ⟨?_, ?_⟩, ⟨?_, ?_⟩⟩ <;> norm_num <;> linarith
  · rw [h56]
    simp only [atmo_renderer_setView]
    refine ⟨⟨?_, ?_⟩, ⟨?_, ?_⟩, ⟨?_, ?_⟩, ⟨?_, ?_⟩⟩ <;> norm_num <;> linarith
  · rw [h57]
    simp only [atmo_renderer_setView]
    refine ⟨⟨?_, ?_⟩, ⟨?_, ?_⟩, ⟨?_, ?_⟩, ⟨?_, ?_⟩⟩ <;> norm_num <;> linarith
  · rw [h105]
    exact ⟨hvz, hsz, hva, hsa⟩
  · rw [h111]
    exact ⟨hvz, hsz, hva, hsa⟩
  · rw [h118]
    exact ⟨hvz, hsz, hva, hsa⟩
  · rw [h115]
    exact ⟨hvz, hsz, hva, hsa⟩
  · rw [h109]
    exact ⟨hvz, hsz, hva, hsa⟩
  · rw [hother]
    exact ⟨hvz, hsz, hva, hsa⟩

/-- Ranges of the four angles in every reachable state, for `3.14 ≤ M_PI`. -/
theorem reachable_ranges {α : Type} [LinearOrderedField α] (M_PI : α) (hpi : 3.14 ≤ M_PI)
    (VKK_KEYCODE_ESCAPE : Int) (s : atmo_renderer α)
    (hs : Reachable M_PI VKK_KEYCODE_ESCAPE s) : AngleRanges M_PI s := by
  induction hs with
  | new env engine now r hnew =>
    rw [new_some_eq env engine now r hnew]
    exact new_self_ranges M_PI hpi engine now
  | touch s s' fuel event x y _ htouch ih =>
    exact touch_ranges M_PI hpi fuel s s' event x y htouch ih
  | keyPress s now keycode _meta _ ih =>
    exact keyPress_ranges M_PI hpi VKK_KEYCODE_ESCAPE now s keycode _meta ih

end Atmo

namespace Atmo

/-- The state `viewDownState` is reachable: creation in `envAllOk`, then a DOWN at (0, 0). -/
theorem viewDownState_reachable {α : Type} [LinearOrderedField α] (M_PI : α)
    (VKK_KEYCODE_ESCAPE : Int) : Reachable M_PI VKK_KEYCODE_ESCAPE (viewDownState α) :=
  Reachable.touch (new_self 0 0) (viewDownState α) 0 ATMO_TOUCH_EVENT_DOWN 0 0
    (Reachable.new envAllOk 0 0 (new_self 0 0) (new_allOk_value envAllOk 0 0 envAllOk_allOk).1)
    (touch_down_from_up M_PI 0 (new_self 0 0) 0 0 rfl)

/-- C7. In every state reachable from `atmo_renderer_new` by touch and key events,
`view_zenith` lies between 0 and `M_PI / 2` and `sun_zenith` between 0 and `M_PI`; and a
VIEW-mode MOVE from phase DOWN that would push `view_zenith` above `M_PI / 2` returns and
leaves it exactly equal to `M_PI / 2`. -/
theorem reachable_zenith_clamped {α : Type} [LinearOrderedField α] [Archimedean α] (M_PI : α)
    (hpi : 3.14 ≤ M_PI) (VKK_KEYCODE_ESCAPE : Int) (s : atmo_renderer α)
    (hs : Reachable M_PI VKK_KEYCODE_ESCAPE s) (x y : α) :
    (0 ≤ s.view_zenith ∧ s.view_zenith ≤ M_PI / 2 ∧ 0 ≤ s.sun_zenith ∧ s.sun_zenith ≤ M_PI) ∧
    (s.touch_event = ATMO_TOUCH_EVENT_DOWN → s.touch_mode = ATMO_TOUCH_MODE_VIEW →
      M_PI / 2 < s.view_zenith + (s.touch_y - y) / 500 →
      (∃ fuel s', atmo_renderer_touch M_PI fuel s ATMO_TOUCH_EVENT_MOVE x y = some s') ∧
      ∀ fuel s', atmo_renderer_touch M_PI fuel s ATMO_TOUCH_EVENT_MOVE x y = some s' →
        s'.view_zenith = M_PI / 2) := by
  have hpi' : (314 : α) / 100 ≤ M_PI := by norm_num at hpi ⊢; exact hpi
  obtain ⟨⟨h1, h2⟩, ⟨h3, h4⟩, _, _⟩ := reachable_ranges M_PI hpi VKK_KEYCODE_ESCAPE s hs
  refine ⟨⟨h1, h2, h3, h4⟩, ?_⟩
  intro hdown hview hgt
  refine ⟨touch_move_returns M_PI (by linarith) s x y hdown, ?_⟩
  intro fuel s' h
  obtain ⟨a1, b, _, _, hs'⟩ := (touch_move_view_iff M_PI fuel s s' x y hdown hview).mp h
  subst hs'
  show (if (if s.view_zenith + (s.touch_y - y) / 500 > M_PI / 2 then M_PI / 2
      else s.view_zenith + (s.touch_y - y) / 500) < 0 then 0
    else (if s.view_zenith + (s.touch_y - y) / 500 > M_PI / 2 then M_PI / 2
      else s.view_zenith + (s.touch_y - y) / 500)) = M_PI / 2
  rw [if_pos hgt, if_neg (by linarith)]

/-- Instance of C7 over the rationals, with the value of `M_PI` written in `math.h`: in
`viewDownState` (`view_zenith` 1.47) a MOVE to (0, -100) would give 1.67 and is clamped. -/
theorem reachable_zenith_clamped_witness :
    (0 ≤ (viewDownState ℚ).view_zenith ∧
      (viewDownState ℚ).view_zenith ≤ 3.14159265358979323846 / 2 ∧
      0 ≤ (viewDownState ℚ).sun_zenith ∧
      (viewDownState ℚ).sun_zenith ≤ 3.14159265358979323846) ∧
    (∃ fuel s', atmo_renderer_touch (3.14159265358979323846 : ℚ) fuel (viewDownState ℚ)
      ATMO_TOUCH_EVENT_MOVE 0 (-100) = some s') ∧
    ∀ fuel s', atmo_renderer_touch (3.14159265358979323846 : ℚ) fuel (viewDownState ℚ)
      ATMO_TOUCH_EVENT_MOVE 0 (-100) = some s' →
      s'.view_zenith = 3.14159265358979323846 / 2 :=
  ⟨(reachable_zenith_clamped (3.14159265358979323846 : ℚ) (by norm_num) 27 (viewDownState ℚ)
      (viewDownState_reachable _ 27) 0 (-100)).1,
   (reachable_zenith_clamped (3.14159265358979323846 : ℚ) (by norm_num) 27 (viewDownState ℚ)
      (viewDownState_reachable _ 27) 0 (-100)).2 rfl rfl
      (by simp [viewDownState, new_self]; norm_num)⟩

/-- A MOVE processed from phase DOWN in VIEW mode whose two loops return `b`: the call
returns a state in phase DOWN and VIEW mode with `view_azimuth` `b` and the anchor at the
event coordinates. -/
theorem touch_move_view_exact {α : Type} [LinearOrderedField α] (M_PI : α) (fuel : Nat)
    (s : atmo_renderer α) (x y a1 b : α) (hdown : s.touch_event = ATMO_TOUCH_EVENT_DOWN)
    (hview : s.touch_mode = ATMO_TOUCH_MODE_VIEW)
    (h1 : while_above M_PI fuel (s.view_azimuth + (s.touch_x - x) / 500) = some a1)
    (h2 : while_below M_PI fuel a1 = some b) :
    ∃ s', atmo_renderer_touch M_PI fuel s ATMO_TOUCH_EVENT_MOVE x y = some s' ∧
      s'.view_azimuth = b ∧ s'.touch_x = x ∧ s'.touch_y = y ∧
      s'.touch_event = ATMO_TOUCH_EVENT_DOWN ∧ s'.touch_mode = ATMO_TOUCH_MODE_VIEW :=
  ⟨_, (touch_move_view_iff M_PI fuel s _ x y hdown hview).mpr ⟨a1, b, h1, h2, rfl⟩,
    rfl, rfl, rfl, hdown, hview⟩

/-- From the state after creation and the preset key `'1'` (code 49: VIEW mode, phase UP,
`view_azimuth` 0), a DOWN at (0, 0), a MOVE to (500, 0) and a MOVE back to (0, 0), all in
whole pixels, return and end with `view_azimuth` exactly `2 * pi`, in a reachable
state: the first MOVE gives -1, wrapped to `2 * pi - 1`, the second adds 1 and neither
loop test holds at `2 * pi`. -/
theorem view_azimuth_reaches_two_pi :
    ∃ sd s2 s3 : atmo_renderer ℝ,
      atmo_renderer_touch Real.pi 1 (atmo_renderer_keyPress 27 0 (new_self 0 (0 : ℝ)) 49 0).1
        ATMO_TOUCH_EVENT_DOWN 0 0 = some sd ∧
      atmo_renderer_touch Real.pi 1 sd ATMO_TOUCH_EVENT_MOVE 500 0 = some s2 ∧
      atmo_renderer_touch Real.pi 1 s2 ATMO_TOUCH_EVENT_MOVE 0 0 = some s3 ∧
      s2.view_azimuth = 2 * Real.pi - 1 ∧ s3.view_azimuth = 2 * Real.pi ∧
      Reachable Real.pi 27 s3 := by
  have hpi := Real.pi_gt_three
  have hkey := keyPress_key49 27 (0 : ℝ) (new_self 0 0) 0 (by decide)
  have hup : (atmo_renderer_keyPress 27 0 (new_self 0 (0 : ℝ)) 49 0).1.touch_event =
      ATMO_TOUCH_EVENT_UP := by rw [hkey]; rfl
  have hview : (atmo_renderer_keyPress 27 0 (new_self 0 (0 : ℝ)) 49 0).1.touch_mode =
      ATMO_TOUCH_MODE_VIEW := by rw [hkey]; rfl
  have haz : (atmo_renderer_keyPress 27 0 (new_self 0 (0 : ℝ)) 49 0).1.view_azimuth = 0 := by
    rw [hkey]
    simp only [atmo_renderer_setView]
    norm_num
  have hD := touch_down_from_up Real.pi 1
    (atmo_renderer_keyPress 27 0 (new_self 0 (0 : ℝ)) 49 0).1 0 0 hup
  have hr1 : Reachable Real.pi 27 (atmo_renderer_keyPress 27 0 (new_self 0 (0 : ℝ)) 49 0).1 :=
    Reachable.keyPress _ 0 49 0
      (Reachable.new envAllOk 0 0 _ (new_allOk_value envAllOk 0 (0 : ℝ) envAllOk_allOk).1)
  obtain ⟨s2, h2, az2, x2, _, e2, m2⟩ := touch_move_view_exact Real.pi 1
    { (atmo_renderer_keyPress 27 0 (new_self 0 (0 : ℝ)) 49 0).1 with
      touch_event := ATMO_TOUCH_EVENT_DOWN, touch_x := 0, touch_y := 0 }
    500 0 (-1) (2 * Real.pi - 1) rfl hview
    (by
      simp only [haz, while_above]
      norm_num
      intro hgt
      linarith)
    (by
      simp only [while_below]
      norm_num
      constructor
      · linarith
      · ring)
  obtain ⟨s3, h3, az3, _, _, _, _⟩ := touch_move_view_exact Real.pi 1 s2 0 0
    (2 * Real.pi) (2 * Real.pi) e2 m2
    (by
      simp only [az2, x2, while_above]
      norm_num)
    (by
      simp only [while_below]
      norm_num
      intro hneg
      linarith)
  exact ⟨_, s2, s3, hD, h2, h3, az2, az3,
    Reachable.touch _ _ 1 _ 0 0 (Reachable.touch _ _ 1 _ 500 0
      (Reachable.touch _ _ 1 _ 0 0 hr1 hD) h2) h3⟩

/-- C8, as stated, fails at both ends of the interval, over the reals with `M_PI` equal to
pi. Below 0: the state returned by `atmo_renderer_new` is reachable and has `view_azimuth`
-0.1, and the preset key `'3'` (code 51) then stores `sun_azimuth` -2.96. At the open upper
end: after the preset key `'1'` (code 49), a DOWN at (0, 0), a MOVE to (500, 0) and a MOVE
back to (0, 0) return and reach a state whose `view_azimuth` is exactly `2 * pi`, which
is not below `2 * pi`. -/
theorem reachable_azimuth_half_open_counterexample :
    (atmo_renderer_new envAllOk 0 (0 : ℝ)).1 = some (new_self 0 0) ∧
    Reachable Real.pi 27 (new_self 0 (0 : ℝ)) ∧
    (new_self 0 (0 : ℝ)).view_azimuth = -0.1 ∧
    ¬ (0 ≤ (new_self 0 (0 : ℝ)).view_azimuth ∧
        (new_self 0 (0 : ℝ)).view_azimuth < 2 * Real.pi) ∧
    Reachable Real.pi 27 (atmo_renderer_keyPress 27 0 (new_self 0 (0 : ℝ)) 51 0).1 ∧
    (atmo_renderer_keyPress 27 0 (new_self 0 (0 : ℝ)) 51 0).1.sun_azimuth = -2.96 ∧
    ¬ (0 ≤ (atmo_renderer_keyPress 27 0 (new_self 0 (0 : ℝ)) 51 0).1.sun_azimuth) ∧
    (∃ sd s2 s3 : atmo_renderer ℝ,
      atmo_renderer_touch Real.pi 1 (atmo_renderer_keyPress 27 0 (new_self 0 (0 : ℝ)) 49 0).1
        ATMO_TOUCH_EVENT_DOWN 0 0 = some sd ∧
      atmo_renderer_touch Real.pi 1 sd ATMO_TOUCH_EVENT_MOVE 500 0 = some s2 ∧
      atmo_renderer_touch Real.pi 1 s2 ATMO_TOUCH_EVENT_MOVE 0 0 = some s3 ∧
      Reachable Real.pi 27 s3 ∧ s3.view_azimuth = 2 * Real.pi ∧
      ¬ (0 ≤ s3.view_azimuth ∧ s3.view_azimuth < 2 * Real.pi)) := by
  have hnew := (new_allOk_value envAllOk 0 (0 : ℝ) envAllOk_allOk).1
  have hreach : Reachable Real.pi 27 (new_self 0 (0 : ℝ)) :=
    Reachable.new envAllOk 0 0 _ hnew
  have hkey := keyPress_key51 27 (0 : ℝ) (new_self 0 0) 0 (by decide)
  refine ⟨hnew, hreach, rfl, ?_, Reachable.keyPress _ 0 51 0 hreach, ?_, ?_, ?_⟩
  · intro h
    have h0 := h.1
    simp only [new_self] at h0
    norm_num at h0
  · rw [hkey]
    simp [atmo_renderer_setView]
  · rw [hkey]
    simp only [atmo_renderer_setView]
    norm_num
  · obtain ⟨sd, s2, s3, hD, h2, h3, _, az3, hr3⟩ := view_azimuth_reaches_two_pi
    exact ⟨sd, s2, s3, hD, h2, h3, hr3, az3, fun h => absurd h.2 (by rw [az3]; exact lt_irrefl _)⟩

/-- C8, amended, in exact arithmetic (the azimuths range over any ordered field, the reals
among them, and no rounding is modelled): in every state reachable from
`atmo_renderer_new` by touch and key events, `view_azimuth` lies between -0.1 and
`2 * M_PI` and `sun_azimuth` between -3.044 and `2 * M_PI`, both ends included (creation
and the presets store their literals unwrapped, a MOVE wraps into the closed interval from
0 to `2 * M_PI`). -/
theorem reachable_azimuth_range {α : Type} [LinearOrderedField α] (M_PI : α)
    (hpi : 3.14 ≤ M_PI) (VKK_KEYCODE_ESCAPE : Int) (s : atmo_renderer α)
    (hs : Reachable M_PI VKK_KEYCODE_ESCAPE s) :
    (-0.1 ≤ s.view_azimuth ∧ s.view_azimuth ≤ 2 * M_PI) ∧
    (-3.044 ≤ s.sun_azimuth ∧ s.sun_azimuth ≤ 2 * M_PI) :=
  (reachable_ranges M_PI hpi VKK_KEYCODE_ESCAPE s hs).2.2

/-- Instance of the amended C8 over the rationals at the state reached by creation and
the preset key `'4'` (code 52), whose `sun_azimuth` -3.044 is the least value. -/
theorem reachable_azimuth_range_witness :
    (atmo_renderer_keyPress 27 0 (new_self 0 (0 : ℚ)) 52 0).1.sun_azimuth = -3.044 ∧
    (-0.1 ≤ (atmo_renderer_keyPress 27 0 (new_self 0 (0 : ℚ)) 52 0).1.view_azimuth ∧
      (atmo_renderer_keyPress 27 0 (new_self 0 (0 : ℚ)) 52 0).1.view_azimuth ≤
        2 * 3.14159265358979323846) ∧
    (-3.044 ≤ (atmo_renderer_keyPress 27 0 (new_self 0 (0 : ℚ)) 52 0).1.sun_azimuth ∧
      (atmo_renderer_keyPress 27 0 (new_self 0 (0 : ℚ)) 52 0).1.sun_azimuth ≤
        2 * 3.14159265358979323846) :=
  ⟨by rw [keyPress_key52 27 (0 : ℚ) (new_self 0 0) 0 (by decide)]; rfl,
   reachable_azimuth_range (3.14159265358979323846 : ℚ) (by norm_num) 27 _
    (Reachable.keyPress _ 0 52 0
      (Reachable.new envAllOk 0 0 _ (new_allOk_value envAllOk 0 (0 : ℚ) envAllOk_allOk).1))⟩

end Atmo

namespace Atmo

/-! ## Preset keys and the escape debounce -/

/-- C9. For each preset key `'1'`..`'9'` (codes 49..57, none of them the escape code)
there is a fixed tuple, independent of the prior state, such that
`atmo_renderer_keyPress` stores it in (`view_distance`, `view_zenith`, `view_azimuth`,
`sun_zenith`, `sun_azimuth`, `exposure`), leaves every other field unchanged and issues no
command; the nine tuples are the literals of the source, and for `'3'` (code 51) the tuple
is (7000, 1.57, 0, 1.54, -2.96, 10). -/
theorem keyPress_preset_sets_tuple {α : Type} [LinearOrderedField α]
    (VKK_KEYCODE_ESCAPE : Int) (keycode : Int) (hlo : 49 ≤ keycode) (hhi : keycode ≤ 57)
    (hesc : keycode ≠ VKK_KEYCODE_ESCAPE) :
    ∃ d vz va sz sa e : α,
      (∀ (now : α) (s : atmo_renderer α) (_meta : Int),
        atmo_renderer_keyPress VKK_KEYCODE_ESCAPE now s keycode _meta =
          ({ s with
              view_distance := d, view_zenith := vz, view_azimuth := va,
              sun_zenith := sz, sun_azimuth := sa, exposure := e }, [])) ∧
      (keycode = 49 → (d, vz, va, sz, sa, e) = (9000, 1.47, 0, 1.3, 3, 10)) ∧
      (keycode = 50 → (d, vz, va, sz, sa, e) = (9000, 1.47, 0, 1.564, -3, 10)) ∧
      (keycode = 51 → (d, vz, va, sz, sa, e) = (7000, 1.57, 0, 1.54, -2.96, 10)) ∧
      (keycode = 52 → (d, vz, va, sz, sa, e) = (7000, 1.57, 0, 1.328, -3.044, 10)) ∧
      (keycode = 53 → (d, vz, va, sz, sa, e) = (9000, 1.39, 0, 1.2, 0.7, 10)) ∧
      (keycode = 54 → (d, vz, va, sz, sa, e) = (9000, 1.5, 0, 1.628, 1.05, 200)) ∧
      (keycode = 55 → (d, vz, va, sz, sa, e) = (7000, 1.43, 0, 1.57, 1.34, 40)) ∧
      (keycode = 56 → (d, vz, va, sz, sa, e) = (2700000, 0.81, 0, 1.57, 2, 10)) ∧
      (keycode = 57 → (d, vz, va, sz, sa, e) = (12000000, 0, 0, 0.93, -2, 10)) := by
  have hk : keycode = 49 ∨ keycode = 50 ∨ keycode = 51 ∨ keycode = 52 ∨ keycode = 53 ∨
      keycode = 54 ∨ keycode = 55 ∨ keycode = 56 ∨ keycode = 57 := by omega
  rcases hk with h | h | h | h | h | h | h | h | h <;> subst h
  · exact ⟨9000.0, 1.47, 0.0, 1.3, 3.0, 10.0,
      fun now s m => keyPress_key49 VKK_KEYCODE_ESCAPE now s m hesc, by norm_num⟩
  · exact ⟨9000.0, 1.47, 0.0, 1.564, -3.0, 10.0,
      fun now s m => keyPress_key50 VKK_KEYCODE_ESCAPE now s m hesc, by norm_num⟩
  · exact ⟨7000.0, 1.57, 0.0, 1.54, -2.96, 10.0,
      fun now s m => keyPress_key51 VKK_KEYCODE_ESCAPE now s m hesc, by norm_num⟩
  · exact ⟨7000.0, 1.57, 0.0, 1.328, -3.044, 10.0,
      fun now s m => keyPress_key52 VKK_KEYCODE_ESCAPE now s m hesc, by norm_num⟩
  · exact ⟨9000.0, 1.39, 0.0, 1.2, 0.7, 10.0,
      fun now s m => keyPress_key53 VKK_KEYCODE_ESCAPE now s m hesc, by norm_num⟩
  · exact ⟨9000.0, 1.5, 0.0, 1.628, 1.05, 200.0,
      fun now s m => keyPress_key54 VKK_KEYCODE_ESCAPE now s m hesc, by norm_num⟩
  · exact ⟨7000.0, 1.43, 0.0, 1.57, 1.34, 40.0,
      fun now s m => keyPress_key55 VKK_KEYCODE_ESCAPE now s m hesc, by norm_num⟩
  · exact ⟨2.7e6, 0.81, 0.0, 1.57, 2.0, 10.0,
      fun now s m => keyPress_key56 VKK_KEYCODE_ESCAPE now s m hesc, by norm_num⟩
  · exact ⟨1.2e7, 0.0, 0.0, 0.93, -2.0, 10.0,
      fun now s m => keyPress_key57 VKK_KEYCODE_ESCAPE now s m hesc, by norm_num⟩

/-- Instance of C9: the key `'3'` (code 51) with escape code 27, over the rationals. -/
theorem keyPress_preset_sets_tuple_witness :
    ∃ d vz va sz sa e : ℚ,
      (∀ (now : ℚ) (s : atmo_renderer ℚ) (_meta : Int),
        atmo_renderer_keyPress 27 now s 51 _meta =
          ({ s with
              view_distance := d, view_zenith := vz, view_azimuth := va,
              sun_zenith := sz, sun_azimuth := sa, exposure := e }, [])) ∧
      (d, vz, va, sz, sa, e) = (7000, 1.57, 0, 1.54, -2.96, 10) := by
  obtain ⟨d, vz, va, sz, sa, e, hset, _, _, h51, _⟩ :=
    keyPress_preset_sets_tuple (α := ℚ) 27 51 (by decide) (by decide) (by decide)
  exact ⟨d, vz, va, sz, sa, e, hset, h51 rfl⟩

/-- C10, as stated, fails when the first of the two presses itself issued the exit
command: after creation at time 0 and an escape press at time 1 (which sets the baseline
to 1), escape presses at 1.4 and 1.8 are 0.4 apart; the press at 1.4 issues the exit
command and leaves the baseline at 1, so the press at 1.8 issues no command. -/
theorem escape_double_press_counterexample :
    atmo_renderer_keyPress 27 (1 : ℝ) (new_self 0 0) 27 0 =
      ({ new_self 0 (0 : ℝ) with escape_t0 := 1 }, []) ∧
    (1 : ℝ) ≤ 1.4 ∧ (1.4 : ℝ) ≤ 1.8 ∧ (1.8 : ℝ) - 1.4 < 0.5 ∧
    atmo_renderer_keyPress 27 (1.4 : ℝ) { new_self 0 (0 : ℝ) with escape_t0 := 1 } 27 0 =
      ({ new_self 0 (0 : ℝ) with escape_t0 := 1 }, [vkk_platformCmd.VKK_PLATFORM_CMD_EXIT]) ∧
    (atmo_renderer_keyPress 27 (1.8 : ℝ)
      (atmo_renderer_keyPress 27 (1.4 : ℝ)
        { new_self 0 (0 : ℝ) with escape_t0 := 1 } 27 0).1 27 0).2 = [] := by
  have h0 : atmo_renderer_keyPress 27 (1 : ℝ) (new_self 0 0) 27 0 =
      ({ new_self 0 (0 : ℝ) with escape_t0 := 1 }, []) := by
    rw [keyPress_escape, if_neg]
    simp only [new_self]
    norm_num
  have h1 : atmo_renderer_keyPress 27 (1.4 : ℝ)
      { new_self 0 (0 : ℝ) with escape_t0 := 1 } 27 0 =
      ({ new_self 0 (0 : ℝ) with escape_t0 := 1 },
        [vkk_platformCmd.VKK_PLATFORM_CMD_EXIT]) := by
    rw [keyPress_escape, if_pos]
    norm_num
  have h2 : (atmo_renderer_keyPress 27 (1.8 : ℝ)
      { new_self 0 (0 : ℝ) with escape_t0 := 1 } 27 0).2 = [] := by
    rw [keyPress_escape, if_neg]
    norm_num
  refine ⟨h0, by norm_num, by norm_num, by norm_num, h1, ?_⟩
  rw [h1]
  exact h2

/-- C10, amended: for every state and two consecutive escape presses at times `t1` and
`t2`, with `t1` not before `escape_t0`: the first press issues no command exactly when
`t1 - escape_t0 ≥ 0.5`; if it issued none and `t2 - t1 < 0.5`, the second press issues the
exit command; if `t2 - t1 ≥ 0.5`, the second press issues no command and `escape_t0`
becomes `t2`. -/
theorem escape_double_press {α : Type} [LinearOrderedField α] (VKK_KEYCODE_ESCAPE : Int)
    (s : atmo_renderer α) (t1 t2 : α) (m1 m2 : Int) (h01 : s.escape_t0 ≤ t1) :
    ((atmo_renderer_keyPress VKK_KEYCODE_ESCAPE t1 s VKK_KEYCODE_ESCAPE m1).2 = [] ↔
      0.5 ≤ t1 - s.escape_t0) ∧
    ((atmo_renderer_keyPress VKK_KEYCODE_ESCAPE t1 s VKK_KEYCODE_ESCAPE m1).2 = [] →
      t2 - t1 < 0.5 →
      (atmo_renderer_keyPress VKK_KEYCODE_ESCAPE t2
        (atmo_renderer_keyPress VKK_KEYCODE_ESCAPE t1 s VKK_KEYCODE_ESCAPE m1).1
        VKK_KEYCODE_ESCAPE m2).2 = [vkk_platformCmd.VKK_PLATFORM_CMD_EXIT]) ∧
    (0.5 ≤ t2 - t1 →
      (atmo_renderer_keyPress VKK_KEYCODE_ESCAPE t2
        (atmo_renderer_keyPress VKK_KEYCODE_ESCAPE t1 s VKK_KEYCODE_ESCAPE m1).1
        VKK_KEYCODE_ESCAPE m2).2 = [] ∧
      (atmo_renderer_keyPress VKK_KEYCODE_ESCAPE t2
        (atmo_renderer_keyPress VKK_KEYCODE_ESCAPE t1 s VKK_KEYCODE_ESCAPE m1).1
        VKK_KEYCODE_ESCAPE m2).1.escape_t0 = t2) := by
  rw [keyPress_escape VKK_KEYCODE_ESCAPE t1 s m1]
  by_cases hfirst : t1 - s.escape_t0 < 0.5
  · rw [if_pos hfirst]
    refine ⟨⟨fun h => by simp at h, fun h => absurd hfirst (not_lt.mpr h)⟩,
      fun h => by simp at h, ?_⟩
    intro hfar
    have hsecond : ¬ (t2 - s.escape_t0 < 0.5) := by
      apply not_lt.mpr
      linarith
    rw [keyPress_escape VKK_KEYCODE_ESCAPE t2 s m2, if_neg hsecond]
    exact ⟨rfl, rfl⟩
  · rw [if_neg hfirst]
    refine ⟨⟨fun _ => not_lt.mp hfirst, fun _ => rfl⟩, ?_, ?_⟩
    · intro _ hnear
      rw [keyPress_escape VKK_KEYCODE_ESCAPE t2 _ m2, if_pos hnear]
    · intro hfar
      rw [keyPress_escape VKK_KEYCODE_ESCAPE t2 _ m2, if_neg (not_lt.mpr hfar)]
      exact ⟨rfl, rfl⟩

/-- Instance of the amended C10 over the rationals: creation at time 0, escape presses
at times 1 and 2, which are 1.0 apart; neither issues a command and the baseline ends
at 2. -/
theorem escape_double_press_witness :
    (atmo_renderer_keyPress 27 (2 : ℚ)
      (atmo_renderer_keyPress 27 (1 : ℚ) (new_self 0 0) 27 0).1 27 0).2 = [] ∧
    (atmo_renderer_keyPress 27 (2 : ℚ)
      (atmo_renderer_keyPress 27 (1 : ℚ) (new_self 0 0) 27 0).1 27 0).1.escape_t0 = 2 :=
  (escape_double_press 27 (new_self 0 (0 : ℚ)) 1 2 0 0
    (by simp [new_self])).2.2 (by norm_num)

end Atmo

namespace Atmo

/-! ## Escape key after creation, touch phases -/

/-- C11 fails on the code: after creation at time 0 (the struct returned by
`atmo_renderer_new` in `envAllOk`), the first escape press, at time 0.2, issues the exit
command although no escape press preceded it, because `atmo_renderer_new` stores the
creation time in `escape_t0`. -/
theorem first_escape_press_exits_after_creation :
    (atmo_renderer_new envAllOk 0 (0 : ℚ)).1 = some (new_self 0 0) ∧
    (new_self 0 (0 : ℚ)).escape_t0 = 0 ∧
    atmo_renderer_keyPress 27 (0.2 : ℚ) (new_self 0 0) 27 0 =
      (new_self 0 0, [vkk_platformCmd.VKK_PLATFORM_CMD_EXIT]) := by
  refine ⟨(new_allOk_value envAllOk 0 (0 : ℚ) envAllOk_allOk).1, rfl, ?_⟩
  rw [keyPress_escape, if_pos]
  simp only [new_self]
  norm_num

/-- C12. Phase transitions of `atmo_renderer_touch`, for every state, fuel and
coordinates: an UP event returns the state with phase UP and nothing else changed; a DOWN
event returns the state with phase DOWN and anchor (x, y) when the prior phase is UP and
the same state otherwise; a MOVE event received in phase UP returns the same state; and a
returning call that changes a scene value was a MOVE processed in phase DOWN, while a
call that ends in phase DOWN started in phase DOWN or was a DOWN event. -/
theorem touch_phase_transitions {α : Type} [LinearOrderedField α] (M_PI : α) (fuel : Nat)
    (s : atmo_renderer α) (x y : α) :
    atmo_renderer_touch M_PI fuel s ATMO_TOUCH_EVENT_UP x y =
      some { s with touch_event := ATMO_TOUCH_EVENT_UP } ∧
    atmo_renderer_touch M_PI fuel s ATMO_TOUCH_EVENT_DOWN x y =
      some (if s.touch_event = ATMO_TOUCH_EVENT_UP then
        { s with touch_event := ATMO_TOUCH_EVENT_DOWN, touch_x := x, touch_y := y }
      else s) ∧
    (s.touch_event = ATMO_TOUCH_EVENT_UP →
      atmo_renderer_touch M_PI fuel s ATMO_TOUCH_EVENT_MOVE x y = some s) ∧
    (∀ (event : Int) (s' : atmo_renderer α),
      atmo_renderer_touch M_PI fuel s event x y = some s' →
      (s'.view_distance ≠ s.view_distance ∨ s'.view_zenith ≠ s.view_zenith ∨
        s'.view_azimuth ≠ s.view_azimuth ∨ s'.sun_zenith ≠ s.sun_zenith ∨
        s'.sun_azimuth ≠ s.sun_azimuth ∨ s'.exposure ≠ s.exposure) →
      s.touch_event = ATMO_TOUCH_EVENT_DOWN ∧ event = ATMO_TOUCH_EVENT_MOVE) ∧
    (∀ (event : Int) (s' : atmo_renderer α),
      atmo_renderer_touch M_PI fuel s event x y = some s' →
      s'.touch_event = ATMO_TOUCH_EVENT_DOWN →
      s.touch_event = ATMO_TOUCH_EVENT_DOWN ∨ event = ATMO_TOUCH_EVENT_DOWN) := by
  refine ⟨?_, ?_, ?_, ?_, ?_⟩
  · by_cases hup : s.touch_event = ATMO_TOUCH_EVENT_UP
    · simp only [atmo_renderer_touch, if_pos hup]
      rw [if_neg (by decide), ← hup]
    · simp only [atmo_renderer_touch, if_neg hup, if_true]
  · by_cases hup : s.touch_event = ATMO_TOUCH_EVENT_UP
    · rw [touch_down_from_up M_PI fuel s x y hup, if_pos hup]
    · simp only [atmo_renderer_touch, if_neg hup]
      rw [if_neg (by decide), if_neg (by simp [ATMO_TOUCH_EVENT_DOWN, ATMO_TOUCH_EVENT_MOVE])]
  · intro hup
    simp only [atmo_renderer_touch, if_pos hup]
    rw [if_neg (by decide)]
  · intro event s' h hchg
    rcases touch_frame M_PI fuel s s' event x y h with hfr | ⟨hdown, hev, _⟩
    · obtain ⟨e1, e2, e3, e4, e5, e6⟩ := hfr
      rcases hchg with c | c | c | c | c | c
      · exact absurd e1 c
      · exact absurd e2 c
      · exact absurd e3 c
      · exact absurd e4 c
      · exact absurd e5 c
      · exact absurd e6 c
    · exact ⟨hdown, hev⟩
  · intro event s' h hd
    by_cases hdown : s.touch_event = ATMO_TOUCH_EVENT_DOWN
    · exact Or.inl hdown
    · right
      by_cases hup : s.touch_event = ATMO_TOUCH_EVENT_UP
      · simp only [atmo_renderer_touch, if_pos hup] at h
        by_contra hev
        rw [if_neg hev] at h
        have hs := Option.some.inj h
        subst hs
        rw [hup] at hd
        exact absurd hd (by decide)
      · simp only [atmo_renderer_touch, if_neg hup] at h
        by_cases hev : event = ATMO_TOUCH_EVENT_UP
        · rw [if_pos hev] at h
          have hs := Option.some.inj h
          subst hs
          have hd' : event = ATMO_TOUCH_EVENT_DOWN := hd
          rw [hev] at hd'
          exact absurd hd' (by decide)
        · rw [if_neg hev, if_neg (fun hc => hdown hc.1)] at h
          have hs := Option.some.inj h
          subst hs
          exact absurd hd hdown

end Atmo

namespace Atmo

/-! ## `atmo_renderer_draw` -/

/-- C13. If `vkk_renderer_beginDefault` returns 0, `atmo_renderer_draw` returns the
renderer state unchanged in every field and issues no renderer call (no viewport,
scissor, buffer update, pipeline bind, uniform-set bind, draw or end call). -/
theorem draw_begin_failure_skips_frame {α : Type} [LinearOrderedField α] (env : DrawEnv α)
    (self : atmo_renderer α) (hbegin : env.vkk_renderer_beginDefault = 0) :
    atmo_renderer_draw env self = (self, []) := by
  simp only [atmo_renderer_draw, if_pos hbegin]

/-- Instance of C13: the state after creation, a 1920 by 1080 surface, begin-frame
result 0. -/
theorem draw_begin_failure_skips_frame_witness :
    atmo_renderer_draw (exampleDrawEnv 0 1920 1080) (new_self 0 0) = (new_self 0 0, []) :=
  draw_begin_failure_skips_frame (exampleDrawEnv 0 1920 1080) (new_self 0 0) rfl

/-- The renderer calls of a frame that has begun: those of the viewport block followed
by nine buffer updates, the pipeline bind, the uniform-set bind, the draw and the end. -/
theorem draw_calls_filter {α : Type} [LinearOrderedField α] (env : DrawEnv α)
    (self : atmo_renderer α) (hbegin : env.vkk_renderer_beginDefault ≠ 0) :
    (atmo_renderer_draw env self).1 =
      { self with screen_w := env.surface_w, screen_h := env.surface_h } ∧
    (atmo_renderer_draw env self).2.filter RenderCall.isViewportOrScissor =
      (draw_screen
        { self with screen_w := env.surface_w, screen_h := env.surface_h }).2.filter
        RenderCall.isViewportOrScissor := by
  simp only [atmo_renderer_draw, if_neg hbegin]
  refine ⟨trivial, ?_⟩
  rw [List.filter_append]
  by_cases hsimple : self.simple ≠ 0
  · simp [hsimple, RenderCall.isViewportOrScissor]
  · simp [hsimple, RenderCall.isViewportOrScissor]

/-- C14, as stated, fails: with content rectangle left 100, top 0, width 100, height 100
(set by `atmo_renderer_contentRect` with t = 0, l = 100, b = 100, r = 200) on a 150 by
150 surface, the rectangle does not lie within the screen (100 + 100 > 150), yet
`atmo_renderer_draw` uses it as viewport and scissor. -/
theorem draw_content_rect_bounds_counterexample :
    (atmo_renderer_contentRect (new_self 0 (0 : ℚ)) 0 100 100 200).content_rect_left = 100 ∧
    (atmo_renderer_contentRect (new_self 0 (0 : ℚ)) 0 100 100 200).content_rect_width = 100 ∧
    ¬ (100 + 100 ≤ 150) ∧
    (atmo_renderer_draw (exampleDrawEnv 1 150 150)
      (atmo_renderer_contentRect (new_self 0 (0 : ℚ)) 0 100 100 200)).2.filter
        RenderCall.isViewportOrScissor =
      [ RenderCall.vkk_renderer_viewport 100 0 100 100,
        RenderCall.vkk_renderer_scissor 100 0 100 100 ] := by
  refine ⟨rfl, rfl, by decide, ?_⟩
  rw [(draw_calls_filter (exampleDrawEnv 1 150 150) _ (by decide)).2]
  simp [draw_screen, atmo_renderer_contentRect, exampleDrawEnv, new_self,
    RenderCall.isViewportOrScissor]

/-- C14, amended: once the frame has begun, `atmo_renderer_draw` stores the surface size
in `screen_w`, `screen_h` and uses the content rectangle as viewport and scissor, with
aspect ratio width / height, exactly when its width and height are positive and not
larger than `screen_w` and `screen_h` (left and top are not compared with the screen); in
every other case it issues no viewport or scissor call, its viewport variables are the
full screen (0, 0, `screen_w`, `screen_h`) and the aspect ratio is
`screen_w / screen_h`. -/
theorem draw_viewport_policy {α : Type} [LinearOrderedField α] (env : DrawEnv α)
    (self : atmo_renderer α) (hbegin : env.vkk_renderer_beginDefault ≠ 0) :
    (atmo_renderer_draw env self).1 =
      { self with screen_w := env.surface_w, screen_h := env.surface_h } ∧
    ((0 < self.content_rect_width ∧ 0 < self.content_rect_height ∧
        self.content_rect_width ≤ env.surface_w ∧
        self.content_rect_height ≤ env.surface_h) →
      (atmo_renderer_draw env self).2.filter RenderCall.isViewportOrScissor =
        [ RenderCall.vkk_renderer_viewport (self.content_rect_left : α)
            (self.content_rect_top : α) (self.content_rect_width : α)
            (self.content_rect_height : α),
          RenderCall.vkk_renderer_scissor self.content_rect_left self.content_rect_top
            self.content_rect_width self.content_rect_height ] ∧
      draw_aspectRatio (atmo_renderer_draw env self).1 =
        (self.content_rect_width : α) / (self.content_rect_height : α)) ∧
    (¬ (0 < self.content_rect_width ∧ 0 < self.content_rect_height ∧
        self.content_rect_width ≤ env.surface_w ∧
        self.content_rect_height ≤ env.surface_h) →
      (atmo_renderer_draw env self).2.filter RenderCall.isViewportOrScissor = [] ∧
      (draw_screen (atmo_renderer_draw env self).1).1 =
        (0, 0, (env.surface_w : α), (env.surface_h : α)) ∧
      draw_aspectRatio (atmo_renderer_draw env self).1 =
        (env.surface_w : α) / (env.surface_h : α)) ∧
    (draw_view_from_clip env (atmo_renderer_draw env self).1).m00 =
      env.tan (50 / 180 * env.M_PI / 2) * draw_aspectRatio (atmo_renderer_draw env self).1 ∧
    RenderCall.vkk_renderer_updateBuffer self.ub02_view_from_clip
        (Payload.mat4 (draw_view_from_clip env (atmo_renderer_draw env self).1)) ∈
      (atmo_renderer_draw env self).2 := by
  obtain ⟨hstate, hfilter⟩ := draw_calls_filter env self hbegin
  rw [hfilter, hstate]
  refine ⟨rfl, ?_, ?_, ?_, ?_⟩
  · intro hc
    have hc' : self.content_rect_width > 0 ∧ self.content_rect_height > 0 ∧
        self.content_rect_width ≤ env.surface_w ∧
        self.content_rect_height ≤ env.surface_h := hc
    simp only [draw_aspectRatio, draw_screen, if_pos hc']
    refine ⟨?_, ?_⟩ <;> trivial
  · intro hc
    have hc' : ¬ (self.content_rect_width > 0 ∧ self.content_rect_height > 0 ∧
        self.content_rect_width ≤ env.surface_w ∧
        self.content_rect_height ≤ env.surface_h) := hc
    have h0 : (0.0 : α) = 0 := by norm_num
    simp only [draw_aspectRatio, draw_screen, if_neg hc', h0]
    refine ⟨?_, ?_, ?_⟩ <;> trivial
  · simp only [draw_view_from_clip]
    norm_num
  · simp only [atmo_renderer_draw, if_neg hbegin]
    simp

/-- Instance of the amended C14: the state after creation with content rectangle
left 10, top 20, width 300, height 200 on a 1920 by 1080 surface. -/
theorem draw_viewport_policy_witness :
    (atmo_renderer_draw (exampleDrawEnv 1 1920 1080)
      (atmo_renderer_contentRect (new_self 0 (0 : ℚ)) 20 10 220 310)).2.filter
        RenderCall.isViewportOrScissor =
      [ RenderCall.vkk_renderer_viewport 10 20 300 200,
        RenderCall.vkk_renderer_scissor 10 20 300 200 ] ∧
    draw_aspectRatio (atmo_renderer_draw (exampleDrawEnv 1 1920 1080)
      (atmo_renderer_contentRect (new_self 0 (0 : ℚ)) 20 10 220 310)).1 = 300 / 200 := by
  have h := (draw_viewport_policy (exampleDrawEnv 1 1920 1080)
    (atmo_renderer_contentRect (new_self 0 (0 : ℚ)) 20 10 220 310) (by decide)).2.1
    (by decide)
  simpa [atmo_renderer_contentRect] using h

/-- C15. For every view zenith, azimuth and distance, with `cosf` and `sinf` satisfying
cos^2 + sin^2 = 1 (as the real cosine and sine do), the upper-left 3x3 block of
`model_from_view` has pairwise orthogonal unit columns, its translation column is
`view_distance / 1000` times the third column, the bottom row is (0, 0, 0, 1), the camera
vector is that translation column with w = 1, and the camera lies at distance
`|view_distance| / 1000` from the origin; a frame that has begun writes the matrix to
`ub01_model_from_view` and the camera to `ub03_camera`. -/
theorem draw_model_from_view_orthonormal {α : Type} [LinearOrderedField α] (env : DrawEnv α)
    (self : atmo_renderer α) (hcs : ∀ x : α, env.cosf x ^ 2 + env.sinf x ^ 2 = 1) :
    ((draw_model_from_view env self).m00 ^ 2 + (draw_model_from_view env self).m10 ^ 2 +
        (draw_model_from_view env self).m20 ^ 2 = 1 ∧
      (draw_model_from_view env self).m01 ^ 2 + (draw_model_from_view env self).m11 ^ 2 +
        (draw_model_from_view env self).m21 ^ 2 = 1 ∧
      (draw_model_from_view env self).m02 ^ 2 + (draw_model_from_view env self).m12 ^ 2 +
        (draw_model_from_view env self).m22 ^ 2 = 1) ∧
    ((draw_model_from_view env self).m00 * (draw_model_from_view env self).m01 +
        (draw_model_from_view env self).m10 * (draw_model_from_view env self).m11 +
        (draw_model_from_view env self).m20 * (draw_model_from_view env self).m21 = 0 ∧
      (draw_model_from_view env self).m00 * (draw_model_from_view env self).m02 +
        (draw_model_from_view env self).m10 * (draw_model_from_view env self).m12 +
        (draw_model_from_view env self).m20 * (draw_model_from_view env self).m22 = 0 ∧
      (draw_model_from_view env self).m01 * (draw_model_from_view env self).m02 +
        (draw_model_from_view env self).m11 * (draw_model_from_view env self).m12 +
        (draw_model_from_view env self).m21 * (draw_model_from_view env self).m22 = 0) ∧
    ((draw_model_from_view env self).m03 =
        self.view_distance / 1000 * (draw_model_from_view env self).m02 ∧
      (draw_model_from_view env self).m13 =
        self.view_distance / 1000 * (draw_model_from_view env self).m12 ∧
      (draw_model_from_view env self).m23 =
        self.view_distance / 1000 * (draw_model_from_view env self).m22) ∧
    ((draw_model_from_view env self).m30 = 0 ∧ (draw_model_from_view env self).m31 = 0 ∧
      (draw_model_from_view env self).m32 = 0 ∧ (draw_model_from_view env self).m33 = 1) ∧
    ((draw_camera env self).x = (draw_model_from_view env self).m03 ∧
      (draw_camera env self).y = (draw_model_from_view env self).m13 ∧
      (draw_camera env self).z = (draw_model_from_view env self).m23 ∧
      (draw_camera env self).w = 1) ∧
    ((draw_camera env self).x ^ 2 + (draw_camera env self).y ^ 2 +
        (draw_camera env self).z ^ 2 = (|self.view_distance| / 1000) ^ 2 ∧
      ∀ d : α, 0 ≤ d →
        d ^ 2 = (draw_camera env self).x ^ 2 + (draw_camera env self).y ^ 2 +
          (draw_camera env self).z ^ 2 →
        d = |self.view_distance| / 1000) ∧
    (env.vkk_renderer_beginDefault ≠ 0 →
      RenderCall.vkk_renderer_updateBuffer self.ub01_model_from_view
          (Payload.mat4 (draw_model_from_view env self)) ∈ (atmo_renderer_draw env self).2 ∧
      RenderCall.vkk_renderer_updateBuffer self.ub03_camera
          (Payload.vec4 (draw_camera env self)) ∈ (atmo_renderer_draw env self).2) := by
  have hZ := hcs self.view_zenith
  have hA := hcs self.view_azimuth
  have h1000 : (1000.0 : α) = 1000 := by norm_num
  have h1 : (1.0 : α) = 1 := by norm_num
  have hcam : (draw_camera env self).x ^ 2 + (draw_camera env self).y ^ 2 +
      (draw_camera env self).z ^ 2 = (|self.view_distance| / 1000) ^ 2 := by
    simp only [draw_camera, draw_model_from_view, kLengthUnitInMeters, cc_mat4f_zero, h1000]
    rw [div_pow, sq_abs]
    linear_combination (self.view_distance / 1000) ^ 2 *
      (env.sinf self.view_zenith ^ 2 * hA + hZ)
  refine ⟨⟨?_, ?_, ?_⟩, ⟨?_, ?_, ?_⟩, ⟨?_, ?_, ?_⟩, ⟨rfl, rfl, rfl, ?_⟩, ⟨rfl, rfl, rfl, ?_⟩,
    ⟨hcam, ?_⟩, ?_⟩
  · simp only [draw_model_from_view, cc_mat4f_zero]
    linear_combination hA
  · simp only [draw_model_from_view, cc_mat4f_zero]
    linear_combination env.cosf self.view_zenith ^ 2 * hA + hZ
  · simp only [draw_model_from_view, cc_mat4f_zero]
    linear_combination env.sinf self.view_zenith ^ 2 * hA + hZ
  · simp only [draw_model_from_view, cc_mat4f_zero]
    ring
  · simp only [draw_model_from_view, cc_mat4f_zero]
    ring
  · simp only [draw_model_from_view, cc_mat4f_zero]
    linear_combination (-(env.cosf self.view_zenith * env.sinf self.view_zenith)) * hA
  · simp only [draw_model_from_view, kLengthUnitInMeters, h1000]
    ring
  · simp only [draw_model_from_view, kLengthUnitInMeters, h1000]
    ring
  · simp only [draw_model_from_view, kLengthUnitInMeters, h1000]
    ring
  · simp only [draw_model_from_view, h1]
  · simp only [draw_camera, draw_model_from_view, h1]
  · intro d hd hsq
    rw [hcam] at hsq
    have hnn : (0 : α) ≤ |self.view_distance| / 1000 := by positivity
    exact (sq_eq_sq₀ hd hnn).mp hsq
  · intro hbegin
    simp only [atmo_renderer_draw, if_neg hbegin]
    constructor
    · exact List.mem_append_right _ (List.mem_cons_of_mem _ (List.mem_cons_self _ _))
    · exact List.mem_append_right _ (List.mem_cons_of_mem _ (List.mem_cons_of_mem _
        (List.mem_cons_of_mem _ (List.mem_cons_self _ _))))

/-- Instance of C15 over the reals with the real cosine and sine, at the state returned
by `atmo_renderer_new` (view distance 9000): the camera lies at distance 9 from the
origin. -/
theorem draw_model_from_view_orthonormal_witness :
    (draw_camera
        { M_PI := Real.pi, tan := Real.tan, tanf := Real.tan, cosf := Real.cos,
          sinf := Real.sin, cc_mat4f_orthoVK := cc_mat4f_zero,
          vkk_renderer_beginDefault := 1, surface_w := 1920, surface_h := 1080 }
        (new_self 0 (0 : ℝ))).x ^ 2 +
      (draw_camera
        { M_PI := Real.pi, tan := Real.tan, tanf := Real.tan, cosf := Real.cos,
          sinf := Real.sin, cc_mat4f_orthoVK := cc_mat4f_zero,
          vkk_renderer_beginDefault := 1, surface_w := 1920, surface_h := 1080 }
        (new_self 0 (0 : ℝ))).y ^ 2 +
      (draw_camera
        { M_PI := Real.pi, tan := Real.tan, tanf := Real.tan, cosf := Real.cos,
          sinf := Real.sin, cc_mat4f_orthoVK := cc_mat4f_zero,
          vkk_renderer_beginDefault := 1, surface_w := 1920, surface_h := 1080 }
        (new_self 0 (0 : ℝ))).z ^ 2 = 9 ^ 2 := by
  have h := (draw_model_from_view_orthonormal
    { M_PI := Real.pi, tan := Real.tan, tanf := Real.tan, cosf := Real.cos,
      sinf := Real.sin, cc_mat4f_orthoVK := cc_mat4f_zero,
      vkk_renderer_beginDefault := 1, surface_w := 1920, surface_h := 1080 }
    (new_self 0 (0 : ℝ)) (fun x => Real.cos_sq_add_sin_sq x)).2.2.2.2.2.1.1
  rw [h]
  simp only [new_self]
  norm_num

end Atmo

namespace Atmo

/-! ## Dragging -/

/-- The two-sided clamp leaves a value between 0 and the upper limit unchanged. -/
theorem clamp_id {α : Type} [LinearOrderedField α] (M z : α) (h0 : 0 ≤ z) (h1 : z ≤ M) :
    (if (if z > M then M else z) < 0 then 0 else (if z > M then M else z)) = z := by
  rw [if_neg (not_lt.mpr h1), if_neg (not_lt.mpr h0)]

/-- Field by field, the result of a MOVE processed from phase DOWN in SUN mode. -/
theorem touch_move_sun_fields {α : Type} [LinearOrderedField α] (M_PI : α) (fuel : Nat)
    (s s' : atmo_renderer α) (x y : α) (hdown : s.touch_event = ATMO_TOUCH_EVENT_DOWN)
    (hsun : s.touch_mode = ATMO_TOUCH_MODE_SUN)
    (h : atmo_renderer_touch M_PI fuel s ATMO_TOUCH_EVENT_MOVE x y = some s') :
    s'.sun_zenith =
      (if (if s.sun_zenith - (s.touch_y - y) / 500 > M_PI then M_PI
            else s.sun_zenith - (s.touch_y - y) / 500) < 0 then 0
        else (if s.sun_zenith - (s.touch_y - y) / 500 > M_PI then M_PI
            else s.sun_zenith - (s.touch_y - y) / 500)) ∧
    (∃ k : ℤ, s'.sun_azimuth = s.sun_azimuth + (s.touch_x - x) / 500 + k * (2 * M_PI)) ∧
    s'.view_zenith = s.view_zenith ∧ s'.view_azimuth = s.view_azimuth ∧
    s'.touch_x = x ∧ s'.touch_y = y ∧ s'.touch_event = s.touch_event ∧
    s'.touch_mode = s.touch_mode := by
  obtain ⟨a1, b, h1, h2, hs'⟩ := (touch_move_sun_iff M_PI fuel s s' x y hdown hsun).mp h
  obtain ⟨_, _, hk⟩ := wrap_spec M_PI fuel fuel _ a1 b h1 h2
  subst hs'
  exact ⟨rfl, hk, rfl, rfl, rfl, rfl, rfl, rfl⟩

/-- Field by field, the result of a MOVE processed from phase DOWN in VIEW mode. -/
theorem touch_move_view_fields {α : Type} [LinearOrderedField α] (M_PI : α) (fuel : Nat)
    (s s' : atmo_renderer α) (x y : α) (hdown : s.touch_event = ATMO_TOUCH_EVENT_DOWN)
    (hview : s.touch_mode = ATMO_TOUCH_MODE_VIEW)
    (h : atmo_renderer_touch M_PI fuel s ATMO_TOUCH_EVENT_MOVE x y = some s') :
    s'.view_zenith =
      (if (if s.view_zenith + (s.touch_y - y) / 500 > M_PI / 2 then M_PI / 2
            else s.view_zenith + (s.touch_y - y) / 500) < 0 then 0
        else (if s.view_zenith + (s.touch_y - y) / 500 > M_PI / 2 then M_PI / 2
            else s.view_zenith + (s.touch_y - y) / 500)) ∧
    (∃ k : ℤ, s'.view_azimuth = s.view_azimuth + (s.touch_x - x) / 500 + k * (2 * M_PI)) ∧
    s'.sun_zenith = s.sun_zenith ∧ s'.sun_azimuth = s.sun_azimuth ∧
    s'.touch_x = x ∧ s'.touch_y = y ∧ s'.touch_event = s.touch_event ∧
    s'.touch_mode = s.touch_mode := by
  obtain ⟨a1, b, h1, h2, hs'⟩ := (touch_move_view_iff M_PI fuel s s' x y hdown hview).mp h
  obtain ⟨_, _, hk⟩ := wrap_spec M_PI fuel fuel _ a1 b h1 h2
  subst hs'
  exact ⟨rfl, hk, rfl, rfl, rfl, rfl, rfl, rfl⟩

/-- A MOVE processed from phase DOWN keeps the phase and the touch mode and moves the
anchor to its coordinates. -/
theorem touch_move_keeps_phase {α : Type} [LinearOrderedField α] (M_PI : α) (fuel : Nat)
    (s s' : atmo_renderer α) (x y : α) (hdown : s.touch_event = ATMO_TOUCH_EVENT_DOWN)
    (h : atmo_renderer_touch M_PI fuel s ATMO_TOUCH_EVENT_MOVE x y = some s') :
    s'.touch_event = ATMO_TOUCH_EVENT_DOWN ∧ s'.touch_mode = s.touch_mode ∧
    s'.touch_x = x ∧ s'.touch_y = y := by
  by_cases hsun : s.touch_mode = ATMO_TOUCH_MODE_SUN
  · obtain ⟨_, _, _, _, hx, hy, he, hm⟩ := touch_move_sun_fields M_PI fuel s s' x y hdown hsun h
    exact ⟨he.trans hdown, hm, hx, hy⟩
  · by_cases hview : s.touch_mode = ATMO_TOUCH_MODE_VIEW
    · obtain ⟨_, _, _, _, hx, hy, he, hm⟩ :=
        touch_move_view_fields M_PI fuel s s' x y hdown hview h
      exact ⟨he.trans hdown, hm, hx, hy⟩
    · rw [touch_move_other M_PI fuel s x y hdown hsun hview] at h
      have hs := Option.some.inj h
      subst hs
      exact ⟨hdown, rfl, rfl, rfl⟩

/-- C16. After a DOWN at (x0, y0) received in phase UP, two successive MOVE events to
(x1, y1) and (x2, y2) return, leave the anchor at (x2, y2) and, when the zenith of the
active mode stays within its clamp limits at both steps, give the same zeniths as a
single MOVE from (x0, y0) to (x2, y2) and azimuths that differ from those of the single
MOVE by integer multiples of `2 * M_PI`, in SUN and in VIEW mode. -/
theorem drag_is_incremental {α : Type} [LinearOrderedField α] [Archimedean α] (M_PI : α)
    (hpi : 0 < M_PI) (s : atmo_renderer α) (hup : s.touch_event = ATMO_TOUCH_EVENT_UP)
    (x0 y0 x1 y1 x2 y2 : α)
    (hsunz : s.touch_mode = ATMO_TOUCH_MODE_SUN →
      (0 ≤ s.sun_zenith - (y0 - y1) / 500 ∧ s.sun_zenith - (y0 - y1) / 500 ≤ M_PI) ∧
      (0 ≤ s.sun_zenith - (y0 - y2) / 500 ∧ s.sun_zenith - (y0 - y2) / 500 ≤ M_PI))
    (hviewz : s.touch_mode = ATMO_TOUCH_MODE_VIEW →
      (0 ≤ s.view_zenith + (y0 - y1) / 500 ∧ s.view_zenith + (y0 - y1) / 500 ≤ M_PI / 2) ∧
      (0 ≤ s.view_zenith + (y0 - y2) / 500 ∧ s.view_zenith + (y0 - y2) / 500 ≤ M_PI / 2)) :
    (∃ f0 f1 f2 f3 sd a b c,
      atmo_renderer_touch M_PI f0 s ATMO_TOUCH_EVENT_DOWN x0 y0 = some sd ∧
      atmo_renderer_touch M_PI f1 sd ATMO_TOUCH_EVENT_MOVE x1 y1 = some a ∧
      atmo_renderer_touch M_PI f2 a ATMO_TOUCH_EVENT_MOVE x2 y2 = some b ∧
      atmo_renderer_touch M_PI f3 sd ATMO_TOUCH_EVENT_MOVE x2 y2 = some c) ∧
    ∀ f0 f1 f2 f3 sd a b c,
      atmo_renderer_touch M_PI f0 s ATMO_TOUCH_EVENT_DOWN x0 y0 = some sd →
      atmo_renderer_touch M_PI f1 sd ATMO_TOUCH_EVENT_MOVE x1 y1 = some a →
      atmo_renderer_touch M_PI f2 a ATMO_TOUCH_EVENT_MOVE x2 y2 = some b →
      atmo_renderer_touch M_PI f3 sd ATMO_TOUCH_EVENT_MOVE x2 y2 = some c →
      (b.touch_x = x2 ∧ b.touch_y = y2) ∧
      (b.sun_zenith = c.sun_zenith ∧ b.view_zenith = c.view_zenith) ∧
      (∃ k : ℤ, b.sun_azimuth = c.sun_azimuth + k * (2 * M_PI)) ∧
      (∃ k : ℤ, b.view_azimuth = c.view_azimuth + k * (2 * M_PI)) := by
  have hd0 : ∀ f0, atmo_renderer_touch M_PI f0 s ATMO_TOUCH_EVENT_DOWN x0 y0 =
      some { s with touch_event := ATMO_TOUCH_EVENT_DOWN, touch_x := x0, touch_y := y0 } :=
    fun f0 => touch_down_from_up M_PI f0 s x0 y0 hup
  constructor
  · obtain ⟨f1, a, h1⟩ := touch_move_returns M_PI hpi
      { s with touch_event := ATMO_TOUCH_EVENT_DOWN, touch_x := x0, touch_y := y0 } x1 y1 rfl
    obtain ⟨f2, b, h2⟩ := touch_move_returns M_PI hpi a x2 y2
      (touch_move_keeps_phase M_PI f1
        { s with touch_event := ATMO_TOUCH_EVENT_DOWN, touch_x := x0, touch_y := y0 }
        a x1 y1 rfl h1).1
    obtain ⟨f3, c, h3⟩ := touch_move_returns M_PI hpi
      { s with touch_event := ATMO_TOUCH_EVENT_DOWN, touch_x := x0, touch_y := y0 } x2 y2 rfl
    exact ⟨0, f1, f2, f3, _, a, b, c, hd0 0, h1, h2, h3⟩
  · intro f0 f1 f2 f3 sd a b c h0 h1 h2 h3
    rw [hd0 f0] at h0
    have hsd := (Option.some.inj h0).symm
    have sdE : sd.touch_event = ATMO_TOUCH_EVENT_DOWN := by rw [hsd]
    have sdM : sd.touch_mode = s.touch_mode := by rw [hsd]
    have sdX : sd.touch_x = x0 := by rw [hsd]
    have sdY : sd.touch_y = y0 := by rw [hsd]
    have sdSZ : sd.sun_zenith = s.sun_zenith := by rw [hsd]
    have sdVZ : sd.view_zenith = s.view_zenith := by rw [hsd]
    have hadown := touch_move_keeps_phase M_PI f1 sd a x1 y1 sdE h1
    have hbk := touch_move_keeps_phase M_PI f2 a b x2 y2 hadown.1 h2
    refine ⟨⟨hbk.2.2.1, hbk.2.2.2⟩, ?_⟩
    by_cases hsun : s.touch_mode = ATMO_TOUCH_MODE_SUN
    · obtain ⟨⟨hz1lo, hz1hi⟩, ⟨hz2lo, hz2hi⟩⟩ := hsunz hsun
      obtain ⟨az, ⟨ka, haaz⟩, avz, avaz, ax, ay, _, am⟩ :=
        touch_move_sun_fields M_PI f1 sd a x1 y1 sdE (sdM.trans hsun) h1
      obtain ⟨bz, ⟨kb, hbaz⟩, bvz, bvaz, _, _, _, _⟩ :=
        touch_move_sun_fields M_PI f2 a b x2 y2 hadown.1 (am.trans (sdM.trans hsun)) h2
      obtain ⟨cz, ⟨kc, hcaz⟩, cvz, cvaz, _, _, _, _⟩ :=
        touch_move_sun_fields M_PI f3 sd c x2 y2 sdE (sdM.trans hsun) h3
      rw [sdSZ, sdY, clamp_id M_PI _ hz1lo hz1hi] at az
      rw [sdSZ, sdY, clamp_id M_PI _ hz2lo hz2hi] at cz
      have hstep : a.sun_zenith - (a.touch_y - y2) / 500 = s.sun_zenith - (y0 - y2) / 500 := by
        rw [az, ay]
        ring
      rw [hstep, clamp_id M_PI _ hz2lo hz2hi] at bz
      refine ⟨⟨bz.trans cz.symm, ?_⟩, ⟨kb + ka - kc, ?_⟩, ⟨0, ?_⟩⟩
      · rw [bvz, avz, cvz]
      · rw [hbaz, haaz, hcaz, ax, sdX]
        push_cast
        ring
      · rw [bvaz, avaz, cvaz]
        simp
    · by_cases hview : s.touch_mode = ATMO_TOUCH_MODE_VIEW
      · obtain ⟨⟨hz1lo, hz1hi⟩, ⟨hz2lo, hz2hi⟩⟩ := hviewz hview
        obtain ⟨az, ⟨ka, haaz⟩, asz, asaz, ax, ay, _, am⟩ :=
          touch_move_view_fields M_PI f1 sd a x1 y1 sdE (sdM.trans hview) h1
        obtain ⟨bz, ⟨kb, hbaz⟩, bsz, bsaz, _, _, _, _⟩ :=
          touch_move_view_fields M_PI f2 a b x2 y2 hadown.1 (am.trans (sdM.trans hview)) h2
        obtain ⟨cz, ⟨kc, hcaz⟩, csz, csaz, _, _, _, _⟩ :=
          touch_move_view_fields M_PI f3 sd c x2 y2 sdE (sdM.trans hview) h3
        rw [sdVZ, sdY, clamp_id (M_PI / 2) _ hz1lo hz1hi] at az
        rw [sdVZ, sdY, clamp_id (M_PI / 2) _ hz2lo hz2hi] at cz
        have hstep : a.view_zenith + (a.touch_y - y2) / 500 =
            s.view_zenith + (y0 - y2) / 500 := by
          rw [az, ay]
          ring
        rw [hstep, clamp_id (M_PI / 2) _ hz2lo hz2hi] at bz
        refine ⟨⟨?_, bz.trans cz.symm⟩, ⟨0, ?_⟩, ⟨kb + ka - kc, ?_⟩⟩
        · rw [bsz, asz, csz]
        · rw [bsaz, asaz, csaz]
          simp
        · rw [hbaz, haaz, hcaz, ax, sdX]
          push_cast
          ring
      · have hsun' : sd.touch_mode ≠ ATMO_TOUCH_MODE_SUN := fun hc => hsun (sdM.symm.trans hc)
        have hview' : sd.touch_mode ≠ ATMO_TOUCH_MODE_VIEW :=
          fun hc => hview (sdM.symm.trans hc)
        rw [touch_move_other M_PI f1 sd x1 y1 sdE hsun' hview'] at h1
        rw [touch_move_other M_PI f3 sd x2 y2 sdE hsun' hview'] at h3
        have ha := (Option.some.inj h1).symm
        have hc := (Option.some.inj h3).symm
        have aE : a.touch_event = ATMO_TOUCH_EVENT_DOWN := hadown.1
        have aM : a.touch_mode = sd.touch_mode := hadown.2.1
        rw [touch_move_other M_PI f2 a x2 y2 aE (aM ▸ hsun') (aM ▸ hview')] at h2
        have hb := (Option.some.inj h2).symm
        rw [hb, hc, ha]
        exact ⟨⟨rfl, rfl⟩, ⟨0, by simp⟩, ⟨0, by simp⟩⟩

/-- Instance of C16 over the rationals, with the value of `M_PI` written in `math.h`: from
`sunModeState` (`sun_zenith` 1.3) a drag from (0, 0) through (10, 50) to (30, 100), whose
zeniths 1.4 and 1.5 stay within the clamp limits. -/
theorem drag_is_incremental_witness :
    ∃ f0 f1 f2 f3 sd a b c,
      atmo_renderer_touch (3.14159265358979323846 : ℚ) f0 (sunModeState ℚ)
        ATMO_TOUCH_EVENT_DOWN 0 0 = some sd ∧
      atmo_renderer_touch (3.14159265358979323846 : ℚ) f1 sd
        ATMO_TOUCH_EVENT_MOVE 10 50 = some a ∧
      atmo_renderer_touch (3.14159265358979323846 : ℚ) f2 a
        ATMO_TOUCH_EVENT_MOVE 30 100 = some b ∧
      atmo_renderer_touch (3.14159265358979323846 : ℚ) f3 sd
        ATMO_TOUCH_EVENT_MOVE 30 100 = some c :=
  (drag_is_incremental (3.14159265358979323846 : ℚ) (by norm_num) (sunModeState ℚ)
    (sunModeState_fields ℚ).1 0 0 10 50 30 100
    (fun _ => by rw [(sunModeState_fields ℚ).2.2.1]; norm_num)
    (fun h => absurd ((sunModeState_fields ℚ).2.1.symm.trans h) (by decide))).1

end Atmo

namespace Atmo

/-! ## Exposure, stored phase, buffer sizes, loop termination -/

/-- The exposure after a key press, branch by branch: unchanged, multiplied or divided by
1.1, or one of the positive preset values. -/
theorem keyPress_exposure {α : Type} [LinearOrderedField α] (VKK_KEYCODE_ESCAPE : Int)
    (now : α) (s : atmo_renderer α) (keycode _meta : Int) :
    (atmo_renderer_keyPress VKK_KEYCODE_ESCAPE now s keycode _meta).1.exposure = s.exposure ∨
    (keycode = 61 ∧
      (atmo_renderer_keyPress VKK_KEYCODE_ESCAPE now s keycode _meta).1.exposure =
        s.exposure * 1.1) ∨
    (keycode = 45 ∧
      (atmo_renderer_keyPress VKK_KEYCODE_ESCAPE now s keycode _meta).1.exposure =
        s.exposure / 1.1) ∨
    (49 ≤ keycode ∧ keycode ≤ 57 ∧
      ((atmo_renderer_keyPress VKK_KEYCODE_ESCAPE now s keycode _meta).1.exposure = 10 ∨
        (atmo_renderer_keyPress VKK_KEYCODE_ESCAPE now s keycode _meta).1.exposure = 200 ∨
        (atmo_renderer_keyPress VKK_KEYCODE_ESCAPE now s keycode _meta).1.exposure = 40)) := by
  generalize hr : atmo_renderer_keyPress VKK_KEYCODE_ESCAPE now s keycode _meta = r
  have h10 : (10.0 : α) = 10 := by norm_num
  have h200 : (200.0 : α) = 200 := by norm_num
  have h40 : (40.0 : α) = 40 := by norm_num
  rcases keyPress_cases VKK_KEYCODE_ESCAPE now s keycode _meta r hr with
    ⟨_, hEsc⟩ | ⟨k61, h61⟩ | ⟨k45, h45⟩ | ⟨k49, h49⟩ | ⟨k50, h50⟩ | ⟨k51, h51⟩ |
    ⟨k52, h52⟩ | ⟨k53, h53⟩ | ⟨k54, h54⟩ | ⟨k55, h55⟩ | ⟨k56, h56⟩ | ⟨k57, h57⟩ |
    ⟨_, h105⟩ | ⟨_, h111⟩ | ⟨_, h118⟩ | ⟨_, h115⟩ | ⟨_, h109⟩ | hother
  · left
    rw [hEsc]
    split_ifs <;> rfl
  · exact Or.inr (Or.inl ⟨k61, by rw [h61]⟩)
  · exact Or.inr (Or.inr (Or.inl ⟨k45, by rw [h45]⟩))
  · exact Or.inr (Or.inr (Or.inr ⟨by omega, by omega, Or.inl (by rw [h49]; exact h10)⟩))
  · exact Or.inr (Or.inr (Or.inr ⟨by omega, by omega, Or.inl (by rw [h50]; exact h10)⟩))
  · exact Or.inr (Or.inr (Or.inr ⟨by omega, by omega, Or.inl (by rw [h51]; exact h10)⟩))
  · exact Or.inr (Or.inr (Or.inr ⟨by omega, by omega, Or.inl (by rw [h52]; exact h10)⟩))
  · exact Or.inr (Or.inr (Or.inr ⟨by omega, by omega, Or.inl (by rw [h53]; exact h10)⟩))
  · exact Or.inr (Or.inr (Or.inr ⟨by omega, by omega,
      Or.inr (Or.inl (by rw [h54]; exact h200))⟩))
  · exact Or.inr (Or.inr (Or.inr ⟨by omega, by omega,
      Or.inr (Or.inr (by rw [h55]; exact h40))⟩))
  · exact Or.inr (Or.inr (Or.inr ⟨by omega, by omega, Or.inl (by rw [h56]; exact h10)⟩))
  · exact Or.inr (Or.inr (Or.inr ⟨by omega, by omega, Or.inl (by rw [h57]; exact h10)⟩))
  · exact Or.inl (by rw [h105])
  · exact Or.inl (by rw [h111])
  · exact Or.inl (by rw [h118])
  · exact Or.inl (by rw [h115])
  · exact Or.inl (by rw [h109])
  · exact Or.inl (by rw [hother])

/-- A returning call of `atmo_renderer_touch` leaves the exposure unchanged. -/
theorem touch_exposure {α : Type} [LinearOrderedField α] (M_PI : α) (fuel : Nat)
    (s s' : atmo_renderer α) (event : Int) (x y : α)
    (h : atmo_renderer_touch M_PI fuel s event x y = some s') :
    s'.exposure = s.exposure := by
  rcases touch_frame M_PI fuel s s' event x y h with hfr | ⟨hdown, hev, hmode⟩
  · exact hfr.2.2.2.2.2
  · rw [hev] at h
    rcases hmode with hsun | hview
    · obtain ⟨_, _, _, _, hs'⟩ := (touch_move_sun_iff M_PI fuel s s' x y hdown hsun).mp h
      rw [hs']
    · obtain ⟨_, _, _, _, hs'⟩ := (touch_move_view_iff M_PI fuel s s' x y hdown hview).mp h
      rw [hs']

/-- C17. In every state reachable from `atmo_renderer_new` by touch and key events the
exposure is strictly positive; the creation value is 10, a touch event never changes it,
and a key press leaves it unchanged, multiplies it by 1.1 (key `'='`, code 61), divides
it by 1.1 (key `'-'`, code 45) or stores a preset value 10, 200 or 40 (keys `'1'`..`'9'`,
codes 49..57). -/
theorem reachable_exposure_positive {α : Type} [LinearOrderedField α] (M_PI : α)
    (VKK_KEYCODE_ESCAPE : Int) (s : atmo_renderer α)
    (hs : Reachable M_PI VKK_KEYCODE_ESCAPE s) :
    0 < s.exposure ∧
    (∀ (engine : Nat) (now : α), (new_self engine now).exposure = 10) ∧
    (∀ (fuel : Nat) (event : Int) (x y : α) (s' : atmo_renderer α),
      atmo_renderer_touch M_PI fuel s event x y = some s' → s'.exposure = s.exposure) ∧
    (∀ (now : α) (keycode _meta : Int),
      (atmo_renderer_keyPress VKK_KEYCODE_ESCAPE now s keycode _meta).1.exposure =
          s.exposure ∨
      (keycode = 61 ∧
        (atmo_renderer_keyPress VKK_KEYCODE_ESCAPE now s keycode _meta).1.exposure =
          s.exposure * 1.1) ∨
      (keycode = 45 ∧
        (atmo_renderer_keyPress VKK_KEYCODE_ESCAPE now s keycode _meta).1.exposure =
          s.exposure / 1.1) ∨
      (49 ≤ keycode ∧ keycode ≤ 57 ∧
        ((atmo_renderer_keyPress VKK_KEYCODE_ESCAPE now s keycode _meta).1.exposure = 10 ∨
          (atmo_renderer_keyPress VKK_KEYCODE_ESCAPE now s keycode _meta).1.exposure = 200 ∨
          (atmo_renderer_keyPress VKK_KEYCODE_ESCAPE now s keycode _meta).1.exposure = 40))) ∧
    (∀ now _meta, (61 : Int) ≠ VKK_KEYCODE_ESCAPE →
      (atmo_renderer_keyPress VKK_KEYCODE_ESCAPE now s 61 _meta).1.exposure =
        s.exposure * 1.1) ∧
    (∀ now _meta, (45 : Int) ≠ VKK_KEYCODE_ESCAPE →
      (atmo_renderer_keyPress VKK_KEYCODE_ESCAPE now s 45 _meta).1.exposure =
        s.exposure / 1.1) := by
  have h10 : (10.0 : α) = 10 := by norm_num
  refine ⟨?_, fun engine now => by simp only [new_self, h10],
    fun fuel event x y s' h => touch_exposure M_PI fuel s s' event x y h,
    fun now keycode m => keyPress_exposure VKK_KEYCODE_ESCAPE now s keycode m,
    fun now m hne => by rw [keyPress_key61 VKK_KEYCODE_ESCAPE now s m hne],
    fun now m hne => by rw [keyPress_key45 VKK_KEYCODE_ESCAPE now s m hne]⟩
  induction hs with
  | new env engine now r hnew =>
    rw [new_some_eq env engine now r hnew]
    simp only [new_self]
    norm_num
  | touch s s' fuel event x y _ htouch ih =>
    rw [touch_exposure M_PI fuel s s' event x y htouch]
    exact ih
  | keyPress s now keycode _meta _ ih =>
    rcases keyPress_exposure VKK_KEYCODE_ESCAPE now s keycode _meta with
      h | ⟨_, h⟩ | ⟨_, h⟩ | ⟨_, _, h | h | h⟩
    · rw [h]; exact ih
    · rw [h]; exact mul_pos ih (by norm_num)
    · rw [h]; exact div_pos ih (by norm_num)
    · rw [h]; norm_num
    · rw [h]; norm_num
    · rw [h]; norm_num

/-- Instance of C17 over the rationals at the state reached by creation and the key
`'-'` (code 45): the exposure is 10 / 1.1. -/
theorem reachable_exposure_positive_witness :
    (atmo_renderer_keyPress 27 (0 : ℚ) (new_self 0 0) 45 0).1.exposure = 10 / 1.1 ∧
    0 < (atmo_renderer_keyPress 27 (0 : ℚ) (new_self 0 0) 45 0).1.exposure :=
  ⟨by rw [keyPress_key45 27 (0 : ℚ) (new_self 0 0) 0 (by decide)]; simp only [new_self]; norm_num,
   (reachable_exposure_positive (3.14159265358979323846 : ℚ) 27 _
    (Reachable.keyPress _ 0 45 0
      (Reachable.new envAllOk 0 0 _
        (new_allOk_value envAllOk 0 (0 : ℚ) envAllOk_allOk).1))).1⟩

end Atmo

namespace Atmo

/-- A returning call of `atmo_renderer_touch` keeps the stored phase, or stores DOWN on a
DOWN event, or stores UP on an UP event. -/
theorem touch_event_step {α : Type} [LinearOrderedField α] (M_PI : α) (fuel : Nat)
    (s s' : atmo_renderer α) (event : Int) (x y : α)
    (h : atmo_renderer_touch M_PI fuel s event x y = some s') :
    s'.touch_event = s.touch_event ∨
    (event = ATMO_TOUCH_EVENT_DOWN ∧ s'.touch_event = ATMO_TOUCH_EVENT_DOWN) ∨
    (event = ATMO_TOUCH_EVENT_UP ∧ s'.touch_event = ATMO_TOUCH_EVENT_UP) := by
  have horig := h
  by_cases hup : s.touch_event = ATMO_TOUCH_EVENT_UP
  · simp only [atmo_renderer_touch, if_pos hup] at h
    by_cases hev : event = ATMO_TOUCH_EVENT_DOWN
    · rw [if_pos hev] at h
      have hs := (Option.some.inj h).symm
      exact Or.inr (Or.inl ⟨hev, by rw [hs]; exact hev⟩)
    · rw [if_neg hev] at h
      have hs := (Option.some.inj h).symm
      exact Or.inl (by rw [hs])
  · simp only [atmo_renderer_touch, if_neg hup] at h
    by_cases hev : event = ATMO_TOUCH_EVENT_UP
    · rw [if_pos hev] at h
      have hs := (Option.some.inj h).symm
      exact Or.inr (Or.inr ⟨hev, by rw [hs]; exact hev⟩)
    · rw [if_neg hev] at h
      by_cases hmove : s.touch_event = ATMO_TOUCH_EVENT_DOWN ∧ event = ATMO_TOUCH_EVENT_MOVE
      · have hm := hmove.2
        subst hm
        exact Or.inl ((touch_move_keeps_phase M_PI fuel s s' x y hmove.1 horig).1.trans
          hmove.1.symm)
      · rw [if_neg hmove] at h
        have hs := (Option.some.inj h).symm
        exact Or.inl (by rw [hs])

/-- A key press leaves the stored phase unchanged. -/
theorem keyPress_touch_event {α : Type} [LinearOrderedField α] (VKK_KEYCODE_ESCAPE : Int)
    (now : α) (s : atmo_renderer α) (keycode _meta : Int) :
    (atmo_renderer_keyPress VKK_KEYCODE_ESCAPE now s keycode _meta).1.touch_event =
      s.touch_event := by
  generalize hr : atmo_renderer_keyPress VKK_KEYCODE_ESCAPE now s keycode _meta = r
  rcases keyPress_cases VKK_KEYCODE_ESCAPE now s keycode _meta r hr with
    ⟨_, hEsc⟩ | ⟨_, h61⟩ | ⟨_, h45⟩ | ⟨_, h49⟩ | ⟨_, h50⟩ | ⟨_, h51⟩ | ⟨_, h52⟩ |
    ⟨_, h53⟩ | ⟨_, h54⟩ | ⟨_, h55⟩ | ⟨_, h56⟩ | ⟨_, h57⟩ | ⟨_, h105⟩ | ⟨_, h111⟩ |
    ⟨_, h118⟩ | ⟨_, h115⟩ | ⟨_, h109⟩ | hother
  · rw [hEsc]
    split_ifs <;> rfl
  · rw [h61]
  · rw [h45]
  · rw [h49]; rfl
  · rw [h50]; rfl
  · rw [h51]; rfl
  · rw [h52]; rfl
  · rw [h53]; rfl
  · rw [h54]; rfl
  · rw [h55]; rfl
  · rw [h56]; rfl
  · rw [h57]; rfl
  · rw [h105]
  · rw [h111]
  · rw [h118]
  · rw [h115]
  · rw [h109]
  · rw [hother]

/-- C18. In every state reachable from `atmo_renderer_new` by touch events (with any
event code) and key events, the stored phase `touch_event` is UP or DOWN and never MOVE;
a returning MOVE event leaves the stored phase unchanged, so a MOVE processed from phase
DOWN ends in phase DOWN and the next MOVE is again processed from phase DOWN. -/
theorem reachable_touch_phase {α : Type} [LinearOrderedField α] (M_PI : α)
    (VKK_KEYCODE_ESCAPE : Int) (s : atmo_renderer α)
    (hs : Reachable M_PI VKK_KEYCODE_ESCAPE s) :
    (s.touch_event = ATMO_TOUCH_EVENT_UP ∨ s.touch_event = ATMO_TOUCH_EVENT_DOWN) ∧
    s.touch_event ≠ ATMO_TOUCH_EVENT_MOVE ∧
    (∀ (fuel : Nat) (x y : α) (s' : atmo_renderer α),
      atmo_renderer_touch M_PI fuel s ATMO_TOUCH_EVENT_MOVE x y = some s' →
      s'.touch_event = s.touch_event) ∧
    (∀ (f1 f2 : Nat) (x1 y1 x2 y2 : α) (s1 s2 : atmo_renderer α),
      s.touch_event = ATMO_TOUCH_EVENT_DOWN →
      atmo_renderer_touch M_PI f1 s ATMO_TOUCH_EVENT_MOVE x1 y1 = some s1 →
      atmo_renderer_touch M_PI f2 s1 ATMO_TOUCH_EVENT_MOVE x2 y2 = some s2 →
      s1.touch_event = ATMO_TOUCH_EVENT_DOWN ∧ s2.touch_event = ATMO_TOUCH_EVENT_DOWN) := by
  have hmove : ∀ (t : atmo_renderer α) (fuel : Nat) (x y : α) (t' : atmo_renderer α),
      atmo_renderer_touch M_PI fuel t ATMO_TOUCH_EVENT_MOVE x y = some t' →
      t'.touch_event = t.touch_event := by
    intro t fuel x y t' h
    rcases touch_event_step M_PI fuel t t' ATMO_TOUCH_EVENT_MOVE x y h with h1 | h1 | h1
    · exact h1
    · exact absurd h1.1 (by decide)
    · exact absurd h1.1 (by decide)
  have hphase : s.touch_event = ATMO_TOUCH_EVENT_UP ∨
      s.touch_event = ATMO_TOUCH_EVENT_DOWN := by
    induction hs with
    | new env engine now r hnew =>
      rw [new_some_eq env engine now r hnew]
      exact Or.inl rfl
    | touch s s' fuel event x y _ htouch ih =>
      rcases touch_event_step M_PI fuel s s' event x y htouch with h1 | h1 | h1
      · rw [h1]; exact ih
      · exact Or.inr h1.2
      · exact Or.inl h1.2
    | keyPress s now keycode _meta _ ih =>
      rw [keyPress_touch_event]
      exact ih
  refine ⟨hphase, ?_, fun fuel x y s' h => hmove s fuel x y s' h, ?_⟩
  · rcases hphase with h | h <;> rw [h] <;> decide
  · intro f1 f2 x1 y1 x2 y2 s1 s2 hdown h1 h2
    have e1 := (hmove s f1 x1 y1 s1 h1).trans hdown
    exact ⟨e1, (hmove s1 f2 x2 y2 s2 h2).trans e1⟩

/-- Instance of C18 at `viewDownState` over the rationals: its stored phase is DOWN. -/
theorem reachable_touch_phase_witness :
    ((viewDownState ℚ).touch_event = ATMO_TOUCH_EVENT_UP ∨
      (viewDownState ℚ).touch_event = ATMO_TOUCH_EVENT_DOWN) ∧
    (viewDownState ℚ).touch_event ≠ ATMO_TOUCH_EVENT_MOVE :=
  ⟨(reachable_touch_phase (3.14159265358979323846 : ℚ) 27 (viewDownState ℚ)
      (viewDownState_reachable _ 27)).1,
   (reachable_touch_phase (3.14159265358979323846 : ℚ) 27 (viewDownState ℚ)
      (viewDownState_reachable _ 27)).2.1⟩

/-- The success condition of `atmo_renderer_loadDat`: the archive opens and each
entry has its non-zero expected size and is read in full. -/
theorem loadDat_success_spec (o : Option pak_file) :
    atmo_renderer_loadDat o = 1 ↔
      ∃ pak, o = some pak ∧
        (pak.seek "dat/transmittance.dat" ≠ 0 ∧
          pak.seek "dat/transmittance.dat" = 4 * 4 * 256 * 64 ∧
          pak.read "dat/transmittance.dat" 262144 = 1) ∧
        (pak.seek "dat/scattering.dat" ≠ 0 ∧
          pak.seek "dat/scattering.dat" = 4 * 4 * 256 * 128 * 32 ∧
          pak.read "dat/scattering.dat" 16777216 = 1) ∧
        (pak.seek "dat/irradiance.dat" ≠ 0 ∧
          pak.seek "dat/irradiance.dat" = 4 * 4 * 64 * 16 ∧
          pak.read "dat/irradiance.dat" 16384 = 1) := by
  cases o with
  | none => simp [atmo_renderer_loadDat]
  | some pak =>
    simp only [atmo_renderer_loadDat, sizeof_float, TRANSMITTANCE_TEXTURE_WIDTH,
      TRANSMITTANCE_TEXTURE_HEIGHT, SCATTERING_TEXTURE_WIDTH, SCATTERING_TEXTURE_HEIGHT,
      SCATTERING_TEXTURE_DEPTH, IRRADIANCE_TEXTURE_WIDTH, IRRADIANCE_TEXTURE_HEIGHT]
    norm_num
    split_ifs with h1 h2 h3 h4 h5 h6 <;> first | (simp_all; done) | (simp_all; tauto)

/-- C19. For each of the three tables the `MALLOC` size of `atmo_renderer_new` (262144,
16777216 and 16384 bytes) equals the entry size `atmo_renderer_loadDat` requires, and
every `pak_file_read` it issues asks for exactly the size of its destination buffer, so
no read writes more bytes than the buffer holds; a successful load reads the three
tables, in order, each into its own buffer. -/
theorem table_buffer_sizes_match (o : Option pak_file) :
    (malloc_bytes Res.dat_transmittance = 262144 ∧
      malloc_bytes Res.dat_scattering = 16777216 ∧
      malloc_bytes Res.dat_irradiance = 16384) ∧
    (∀ p ∈ loadDat_reads o, p.2 = malloc_bytes p.1 ∧ p.2 ≤ malloc_bytes p.1 ∧
      (p.1 = Res.dat_transmittance ∨ p.1 = Res.dat_scattering ∨
        p.1 = Res.dat_irradiance)) ∧
    (atmo_renderer_loadDat o = 1 →
      loadDat_reads o =
        [ (Res.dat_transmittance, malloc_bytes Res.dat_transmittance),
          (Res.dat_scattering, malloc_bytes Res.dat_scattering),
          (Res.dat_irradiance, malloc_bytes Res.dat_irradiance) ]) ∧
    (∀ pak : pak_file, o = some pak → atmo_renderer_loadDat o = 1 →
      pak.seek "dat/transmittance.dat" = malloc_bytes Res.dat_transmittance ∧
      pak.seek "dat/scattering.dat" = malloc_bytes Res.dat_scattering ∧
      pak.seek "dat/irradiance.dat" = malloc_bytes Res.dat_irradiance) := by
  have hm : malloc_bytes Res.dat_transmittance = 262144 ∧
      malloc_bytes Res.dat_scattering = 16777216 ∧
      malloc_bytes Res.dat_irradiance = 16384 := by decide
  obtain ⟨hmt, hms, hmi⟩ := hm
  refine ⟨⟨hmt, hms, hmi⟩, ?_, ?_, ?_⟩
  · cases o with
    | none => intro p hp; simp [loadDat_reads] at hp
    | some pak =>
      intro p hp
      simp only [loadDat_reads, sizeof_float, TRANSMITTANCE_TEXTURE_WIDTH,
        TRANSMITTANCE_TEXTURE_HEIGHT, SCATTERING_TEXTURE_WIDTH, SCATTERING_TEXTURE_HEIGHT,
        SCATTERING_TEXTURE_DEPTH, IRRADIANCE_TEXTURE_WIDTH, IRRADIANCE_TEXTURE_HEIGHT] at hp
      norm_num at hp
      split_ifs at hp with c1 c2 c3 c4 <;>
        simp only [List.mem_cons, List.mem_singleton, List.not_mem_nil, or_false,
          List.mem_append] at hp
      all_goals
        simp only [not_or, not_not] at *
        obtain ⟨⟨_, ht⟩, hp⟩ := hp
        rcases hp with rfl | rfl | rfl <;> simp_all
  · intro hload
    obtain ⟨pak, rfl, ⟨_, ht, htr⟩, ⟨_, hs, hsr⟩, ⟨_, hi, hir⟩⟩ :=
      (loadDat_success_spec o).mp hload
    norm_num at ht hs hi
    rw [hmt, hms, hmi]
    simp [loadDat_reads, ht, hs, hi, htr, hsr, hir, sizeof_float,
      TRANSMITTANCE_TEXTURE_WIDTH, TRANSMITTANCE_TEXTURE_HEIGHT, SCATTERING_TEXTURE_WIDTH,
      SCATTERING_TEXTURE_HEIGHT, SCATTERING_TEXTURE_DEPTH, IRRADIANCE_TEXTURE_WIDTH,
      IRRADIANCE_TEXTURE_HEIGHT]
  · intro pak hpak hload
    obtain ⟨pak', hpak', ⟨_, ht, _⟩, ⟨_, hs, _⟩, ⟨_, hi, _⟩⟩ :=
      (loadDat_success_spec o).mp hload
    rw [hpak] at hpak'
    have hpp := Option.some.inj hpak'
    subst hpp
    norm_num at ht hs hi
    rw [hmt, hms, hmi]
    exact ⟨ht, hs, hi⟩

/-- C20. Over an Archimedean field with `0 < M_PI` (the reals with pi), the two azimuth
loops of `atmo_renderer_touch` terminate for every prior azimuth `a` and every drag delta
`d`: from some fuel on they return one value, which differs from `a + d / 500` by an
integer multiple of `2 * M_PI`; accordingly every MOVE processed from phase DOWN returns,
and the azimuth of the active mode differs from the prior azimuth plus the delta over 500
by an integer multiple of `2 * M_PI`. -/
theorem azimuth_loops_terminate {α : Type} [LinearOrderedField α] [Archimedean α] (M_PI : α)
    (hpi : 0 < M_PI) (a d : α) :
    (∃ (fuel : Nat) (a1 b : α),
      (∀ m, fuel ≤ m →
        while_above M_PI m (a + d / 500) = some a1 ∧ while_below M_PI m a1 = some b) ∧
      ∃ k : ℤ, b = a + d / 500 + k * (2 * M_PI)) ∧
    (∀ (f1 f2 : Nat) (a1 b : α), while_above M_PI f1 (a + d / 500) = some a1 →
      while_below M_PI f2 a1 = some b → ∃ k : ℤ, b = a + d / 500 + k * (2 * M_PI)) ∧
    (∀ (s : atmo_renderer α) (x y : α), s.touch_event = ATMO_TOUCH_EVENT_DOWN →
      (∃ fuel s', atmo_renderer_touch M_PI fuel s ATMO_TOUCH_EVENT_MOVE x y = some s') ∧
      ∀ fuel s', atmo_renderer_touch M_PI fuel s ATMO_TOUCH_EVENT_MOVE x y = some s' →
        (s.touch_mode = ATMO_TOUCH_MODE_SUN →
          ∃ k : ℤ, s'.sun_azimuth = s.sun_azimuth + (s.touch_x - x) / 500 + k * (2 * M_PI)) ∧
        (s.touch_mode = ATMO_TOUCH_MODE_VIEW →
          ∃ k : ℤ,
            s'.view_azimuth = s.view_azimuth + (s.touch_x - x) / 500 + k * (2 * M_PI))) := by
  refine ⟨?_, ?_, ?_⟩
  · obtain ⟨fuel, a1, b, hloops⟩ := wrap_terminates M_PI hpi (a + d / 500)
    exact ⟨fuel, a1, b, hloops,
      (wrap_spec M_PI fuel fuel _ a1 b (hloops fuel le_rfl).1 (hloops fuel le_rfl).2).2.2⟩
  · intro f1 f2 a1 b h1 h2
    exact (wrap_spec M_PI f1 f2 _ a1 b h1 h2).2.2
  · intro s x y hdown
    refine ⟨touch_move_returns M_PI hpi s x y hdown, ?_⟩
    intro fuel s' h
    exact ⟨fun hsun => (touch_move_sun_fields M_PI fuel s s' x y hdown hsun h).2.1,
      fun hview => (touch_move_view_fields M_PI fuel s s' x y hdown hview h).2.1⟩

/-- Instance of C20 over the rationals, with the value of `M_PI` written in `math.h`: prior
azimuth 2.9 and drag delta 4000. -/
theorem azimuth_loops_terminate_witness :
    ∃ (fuel : Nat) (a1 b : ℚ),
      (∀ m, fuel ≤ m →
        while_above (3.14159265358979323846 : ℚ) m (2.9 + 4000 / 500) = some a1 ∧
        while_below (3.14159265358979323846 : ℚ) m a1 = some b) ∧
      ∃ k : ℤ, b = 2.9 + 4000 / 500 + k * (2 * 3.14159265358979323846) :=
  (azimuth_loops_terminate (3.14159265358979323846 : ℚ) (by norm_num) 2.9 4000).1

end Atmo
